import Mathlib

/-!
# SexySolver orchestration engine: a shallow embedding

The definitions below are translated from `sexysolver.cpp` and
`sextractorsolver.h`.

Conventions of the embedding

* C++ `double` and `float` values are rational or real numbers.  The rounding
  of an operation on `double` is `roundToDouble` (binary64, round to nearest,
  ties to even, exponent range unbounded).  It is applied where a whole
  number or an equality depends on it: in the half-width of the convolution
  filter (`convFilterSize`) and in the bounds of the `MULTI_SCALES` slices
  (`SexySolver.parallelSolveDouble`).  `SexySolver.parallelSolve` evaluates
  the same expressions without rounding; statements about which children are
  created, connected, started or aborted do not depend on the rounding and
  are made on it.  The values of the mathematics library (`exp`, `atan`)
  are exact real numbers: code that calls the library is written over a
  number type `α` and takes the library as a record `MathLib α`, and
  statements about the values it computes take `α` to be the real numbers.
* C++ `int` values are mathematical integers (`Int`).  Signed overflow is
  undefined behaviour in C++: statements about the `MULTI_DEPTHS` loop for
  every `keepNum` carry the hypothesis that `keepNum` is an `int` value and
  that no `i + inc` computed by the loop exceeds 2147483647.  The `uint64_t`
  accumulator of `enoughRAMisAvailableFor` wraps modulo `2^64`.
* A member function that mutates the object becomes a function from the
  state before the call to the state after it.  Signals emitted by the
  orchestrator are recorded, in order, in the fields `logOutput` and
  `finished` of the state.
* Pointers to child solvers are positions in `parallelSolvers`.
-/

/-! ## Enumerations (declared in `structuredefinitions.h`, used by name in the sources) -/

inductive MultiAlgo where
  | NOT_MULTI
  | MULTI_SCALES
  | MULTI_DEPTHS
  | MULTI_AUTO
  deriving DecidableEq, Repr

inductive ScaleUnits where
  | DEG_WIDTH
  | ARCMIN_WIDTH
  | ARCSEC_PER_PIX
  | FOCAL_MM
  deriving DecidableEq, Repr

inductive ProcessType where
  | INT_SEP
  | INT_SEP_HFR
  | EXT_SEXTRACTOR
  | EXT_SEXTRACTOR_HFR
  | SEXYSOLVER
  | EXT_SEXTRACTORSOLVER
  | INT_SEP_EXT_SOLVER
  | ONLINE_ASTROMETRY_NET
  | INT_SEP_ONLINE_ASTROMETRY_NET
  deriving DecidableEq, Repr

inductive log_level where
  | LOG_NONE
  | LOG_ERROR
  | LOG_MSG
  | LOG_VERB
  | LOG_ALL
  deriving DecidableEq, Repr

/-! ## Data model -/

/-- The record `Parameters`.  Its declaration (`structuredefinitions.h`) is not
among the sources; the fields are those that `convertToMap` and
`convertFromMap` name, each with the type of the `QVariant` conversion that
reads it back, except `keepNum` and `downsample`, which the sources use as
integers (`int sourceNum = params.keepNum`, `fastSolving.downsample = 2`).
The type `α` stands for `double` and `float`; `apertureShape` holds the integer
value of the enum `Shape`. -/
structure Parameters (α : Type) where
  listName : String
  apertureShape : Int
  kron_fact : α
  subpix : Int
  r_min : α
  magzero : α
  minarea : α
  deblend_thresh : Int
  deblend_contrast : α
  clean : Int
  clean_param : α
  fwhm : α
  convFilter : List α
  maxSize : α
  minSize : α
  maxEllipse : α
  keepNum : Int
  removeBrightest : α
  removeDimmest : α
  saturationLimit : α
  maxwidth : α
  minwidth : α
  inParallel : Bool
  multiAlgorithm : MultiAlgo
  solverTimeLimit : Int
  resort : Bool
  downsample : Int
  search_radius : α
  logratio_tokeep : α
  logratio_totune : α
  logratio_tosolve : α
  deriving DecidableEq, Repr

/-- The fields of `Statistic` used by the sources: the image size in pixels. -/
structure Statistic where
  width : Int
  height : Int
  deriving DecidableEq, Repr

/-- A `QRect` as built by `QRect(x, y, width, height)` and read back by `x()`,
`y()`, `width()` and `height()`. -/
structure QRect where
  x : Int
  y : Int
  width : Int
  height : Int
  deriving DecidableEq, Repr

/-- Modelled from the spec: the `Solution` record is declared in
`structuredefinitions.h`, which is not among the sources; the spec lists field
centre, roll angle, pixel scale, parity and field size. -/
structure Solution where
  fieldWidth : ℚ
  fieldHeight : ℚ
  ra : ℚ
  dec : ℚ
  orientation : ℚ
  pixscale : ℚ
  parity : Bool
  deriving DecidableEq, Repr

/-- One text line handed to the `logOutput` signal; the constructor names the
format string and carries the values substituted into it. -/
inductive LogMsg where
  | enoughRAM
  | notEnoughRAM
  | disablingInParallel
  | unableToDetermineRAM
  | evaluatingRAM (totalSize availableRAM : Nat)
  | startingScaleThreads (threads : Int)
  | scaleSolver (count : Nat) (low high : ℚ) (unit : ScaleUnits)
  | startingDepthThreads (threads : Int)
  | depthSolver (count : Nat) (depthlo depthhi : Int)
  | solvedWithChild (whichSolver : Int)
  | shuttingDownOthers
  | childDidNotSolve (whichSolver : Int)
  deriving DecidableEq, Repr

/-- The part of a `SextractorSolver` child that the orchestrator reads or
writes (`sextractorsolver.h`), together with the state of its two signal
connections to the orchestrator and of its thread. -/
structure ChildSolver where
  /-- the tag passed to `spawnChildSolver` -/
  n : Int
  use_scale : Bool
  scalelo : ℚ
  scalehi : ℚ
  scaleunit : ScaleUnits
  depthlo : Int
  depthhi : Int
  /-- value of `getNumStarsFound()`, the size of the child's star list -/
  numStarsFound : Int
  solution : Solution
  hasWCS : Bool
  /-- whether the connection of the child's `finished` signal to `SexySolver::finishParallelSolve` is in force -/
  finishedConnected : Bool
  /-- the child's `logOutput` signal is connected to the orchestrator's -/
  logConnected : Bool
  /-- whether `startProcess()` has been called -/
  started : Bool
  /-- value of `QThread::isRunning()` -/
  running : Bool
  /-- number of calls of `abort()` received -/
  abortCalls : Nat
  deriving DecidableEq, Repr

/-- The primary worker `sextractorSolver` as the orchestrator drives it: the
calls it has received and whether its `finished` signal is connected to
`SexySolver::processFinished`. -/
structure PrimarySolver where
  processFinishedConnected : Bool
  sextractCalls : Nat
  startProcessCalls : Nat
  executeProcessCalls : Nat
  abortCalls : Nat
  deriving DecidableEq, Repr

/-- Identity of the solver a `SextractorSolver*` points to. -/
inductive SolverRef where
  | primary
  | child (i : Nat)
  deriving DecidableEq, Repr

/-- The orchestrator object (`class SexySolver`). -/
structure SexySolver where
  processType : ProcessType
  params : Parameters ℚ
  stats : Statistic
  useSubframe : Bool
  subframe : QRect
  /-- the primary worker, absent until `createSextractorSolver` has run -/
  sextractorSolver : Option PrimarySolver
  indexFolderPaths : List String
  logLevel : log_level
  use_scale : Bool
  scalelo : ℚ
  scalehi : ℚ
  scaleunit : ScaleUnits
  use_position : Bool
  parallelSolvers : List ChildSolver
  parallelFails : Int
  numStars : Int
  solution : Solution
  hasSolved : Bool
  hasSextracted : Bool
  hasFailed : Bool
  wasAborted : Bool
  hasWCS : Bool
  solverWithWCS : Option SolverRef
  /-- texts emitted through the signal `logOutput`, oldest first -/
  logOutput : List LogMsg
  /-- codes emitted through the signal `finished`, oldest first -/
  finished : List Int
  deriving DecidableEq

/-- What `QDir` reports for one index folder: whether it exists and the sizes
in bytes of its entries matching `*.fits` or `*.fit`. -/
structure IndexFolder where
  dirExists : Bool
  indexFileSizes : List Nat
  deriving DecidableEq, Repr

/-- The collaborators of the orchestrator that are outside the sources. -/
structure Env where
  /-- value of `QThread::idealThreadCount()` -/
  idealThreadCount : Int
  /-- result of `getAvailableRAM()`, in bytes -/
  availableRAM : Nat
  /-- the file system as seen through `QDir(folder)` -/
  dir : String → IndexFolder
  /-- result of `sextractorSolver->spawnChildSolver(n)`, a virtual function
  whose implementations are outside the sources -/
  spawnChildSolver : Int → ChildSolver

/-! ## `checkParameters` and RAM admission -/

/-- The statement `if(logLevel != LOG_NONE) emit logOutput(msg)`. -/
def SexySolver.log (s : SexySolver) (msg : LogMsg) : SexySolver :=
  if s.logLevel ≠ log_level.LOG_NONE then { s with logOutput := s.logOutput ++ [msg] } else s

/-- The accumulation loop of `enoughRAMisAvailableFor`
(`totalSize += indexInfo.size()` over every matching file of every existing
folder), in `uint64_t` arithmetic. -/
def totalIndexSize (env : Env) (indexFolders : List String) : Nat :=
  indexFolders.foldl
    (fun totalSize folder =>
      if (env.dir folder).dirExists then
        (env.dir folder).indexFileSizes.foldl (fun acc size => (acc + size) % 2 ^ 64) totalSize
      else totalSize)
    0

/-- The function `SexySolver::enoughRAMisAvailableFor` (sexysolver.cpp:791). -/
def SexySolver.enoughRAMisAvailableFor (env : Env) (indexFolders : List String)
    (s : SexySolver) : Bool × SexySolver :=
  let totalSize := totalIndexSize env indexFolders
  let availableRAM := env.availableRAM
  if availableRAM = 0 then
    (false, s.log LogMsg.unableToDetermineRAM)
  else
    (decide (availableRAM > totalSize), s.log (LogMsg.evaluatingRAM totalSize availableRAM))

/-- The `MULTI_AUTO` resolution at the head of `checkParameters`
(sexysolver.cpp:153-163). -/
def SexySolver.resolveMultiAlgorithm (s : SexySolver) : SexySolver :=
  if s.params.multiAlgorithm = MultiAlgo.MULTI_AUTO then
    if s.use_scale && s.use_position then
      { s with params := { s.params with multiAlgorithm := MultiAlgo.NOT_MULTI } }
    else if s.use_position then
      { s with params := { s.params with multiAlgorithm := MultiAlgo.MULTI_SCALES } }
    else if s.use_scale then
      { s with params := { s.params with multiAlgorithm := MultiAlgo.MULTI_DEPTHS } }
    else
      { s with params := { s.params with multiAlgorithm := MultiAlgo.MULTI_SCALES } }
  else s

/-- The function `SexySolver::checkParameters` (sexysolver.cpp:151): the returned
boolean and the state after the call. -/
def SexySolver.checkParameters (env : Env) (s : SexySolver) : Bool × SexySolver :=
  let s1 := s.resolveMultiAlgorithm
  if s1.params.inParallel then
    let r := s1.enoughRAMisAvailableFor env s1.indexFolderPaths
    if r.1 then
      (true, r.2.log LogMsg.enoughRAM)
    else
      let s2 := r.2.log LogMsg.notEnoughRAM
      let s3 := s2.log LogMsg.disablingInParallel
      (true, { s3 with params := { s3.params with inParallel := false } })
  else
    (true, s1)

/-! ## `parallelSolve` -/

/-- Modelled from the spec: `SextractorSolver::setSearchScale(double, double, ScaleUnits)`
is declared in `sextractorsolver.h` and its body is not among the sources; it
stores its arguments in the scale hint of the worker, as
`SexySolver::setSearchScale` (sexysolver.cpp:565) does for the orchestrator. -/
def ChildSolver.setSearchScale (c : ChildSolver) (fov_low fov_high : ℚ) (units : ScaleUnits) :
    ChildSolver :=
  { c with use_scale := true, scalelo := fov_low, scalehi := fov_high, scaleunit := units }

/-- The statement `connect(solver, &SextractorSolver::finished, this, &SexySolver::finishParallelSolve)`. -/
def ChildSolver.connectFinished (c : ChildSolver) : ChildSolver :=
  { c with finishedConnected := true }

/-- Modelled from the spec: `SextractorSolver::startProcess` has no body among the
sources; the call is recorded on the child. -/
def ChildSolver.startProcess (c : ChildSolver) : ChildSolver :=
  { c with started := true }

/-- Modelled from the spec: `SextractorSolver::abort` is pure virtual; the call is
recorded on the child. -/
def ChildSolver.abort (c : ChildSolver) : ChildSolver :=
  { c with abortCalls := c.abortCalls + 1 }

/-- The loop `for(double thread = 0; thread < threads; thread++)` of the
`MULTI_SCALES` branch (sexysolver.cpp:263-273), entered with the counter at
`thread`.  The counter only takes whole values and is kept as a natural
number.  The two bounds are the expressions of the code evaluated without
rounding; `SexySolver.scalesLoopDouble` rounds each operation to `double`. -/
def SexySolver.scalesLoop (env : Env) (threads : Int) (minScale scaleConst : ℚ)
    (units : ScaleUnits) (thread : Nat) (s : SexySolver) : SexySolver :=
  if (thread : Int) < threads then
    let low := minScale + scaleConst * (thread : ℚ) ^ 2
    let high := minScale + scaleConst * ((thread : ℚ) + 1) ^ 2
    let solver := (env.spawnChildSolver thread).connectFinished
    let solver := solver.setSearchScale low high units
    let s1 := { s with parallelSolvers := s.parallelSolvers ++ [solver] }
    let s2 := s1.log (LogMsg.scaleSolver s1.parallelSolvers.length low high s1.scaleunit)
    SexySolver.scalesLoop env threads minScale scaleConst units (thread + 1) s2
  else s
termination_by (threads - thread).toNat
decreasing_by omega

/-- The loop `for(int i = 1; i < sourceNum; i += inc)` of the `MULTI_DEPTHS`
branch (sexysolver.cpp:290-299), entered with the counter at `i`.  The step
is positive at the only call site, which makes the loop finite.  The counter
and `i + inc` are mathematical integers: the loop of the code is this one as
long as no `i + inc` exceeds the largest `int`, 2147483647, and has undefined
behaviour otherwise. -/
def SexySolver.depthsLoop (env : Env) (sourceNum inc : Int) (hinc : 0 < inc) (i : Int)
    (s : SexySolver) : SexySolver :=
  if i < sourceNum then
    let solver := (env.spawnChildSolver i).connectFinished
    let solver := { solver with depthlo := i, depthhi := i + inc }
    let s1 := { s with parallelSolvers := s.parallelSolvers ++ [solver] }
    let s2 := s1.log (LogMsg.depthSolver s1.parallelSolvers.length i (i + inc))
    SexySolver.depthsLoop env sourceNum inc hinc (i + inc) s2
  else s
termination_by (sourceNum - i).toNat
decreasing_by omega

/-- The value given to `minScale` in the `MULTI_SCALES` branch
(sexysolver.cpp:248-259). -/
def SexySolver.minScale (s : SexySolver) : ℚ :=
  if s.use_scale then s.scalelo else s.params.minwidth

/-- The value given to `maxScale` in the `MULTI_SCALES` branch
(sexysolver.cpp:248-259). -/
def SexySolver.maxScale (s : SexySolver) : ℚ :=
  if s.use_scale then s.scalehi else s.params.maxwidth

/-- The value given to `units` in the `MULTI_SCALES` branch
(sexysolver.cpp:248-259). -/
def SexySolver.units (s : SexySolver) : ScaleUnits :=
  if s.use_scale then s.scaleunit else ScaleUnits.DEG_WIDTH

/-- The value of `sourceNum` in the `MULTI_DEPTHS` branch (sexysolver.cpp:281-283). -/
def depthSourceNum (keepNum : Int) : Int :=
  if keepNum ≠ 0 then keepNum else 200

/-- The value of `inc` in the `MULTI_DEPTHS` branch (sexysolver.cpp:284-287);
the division of two `int` truncates towards zero. -/
def depthInc (sourceNum threads : Int) : Int :=
  if Int.tdiv sourceNum threads < 10 then 10 else Int.tdiv sourceNum threads

/-- The function `SexySolver::parallelSolve` (sexysolver.cpp:232).  With
`threads = 0` the C++ code divides by zero in the `MULTI_DEPTHS` branch; the
embedding is meant for `threads ≠ 0`. -/
def SexySolver.parallelSolve (env : Env) (s : SexySolver) : SexySolver :=
  if s.params.multiAlgorithm = MultiAlgo.NOT_MULTI ∨
      ¬ (s.processType = ProcessType.SEXYSOLVER ∨
         s.processType = ProcessType.EXT_SEXTRACTORSOLVER ∨
         s.processType = ProcessType.INT_SEP_EXT_SOLVER) then s
  else
    let s0 := { s with parallelSolvers := [], parallelFails := 0 }
    let threads := env.idealThreadCount
    let s3 :=
      if s0.params.multiAlgorithm = MultiAlgo.MULTI_SCALES then
        let minScale := s0.minScale
        let maxScale := s0.maxScale
        let units := s0.units
        let scaleConst := (maxScale - minScale) / (threads : ℚ) ^ 2
        let s1 := s0.log (LogMsg.startingScaleThreads threads)
        s1.scalesLoop env threads minScale scaleConst units 0
      else if s0.params.multiAlgorithm = MultiAlgo.MULTI_DEPTHS then
        let sourceNum := depthSourceNum s0.params.keepNum
        let inc := depthInc sourceNum threads
        let s1 := s0.log (LogMsg.startingDepthThreads (Int.tdiv sourceNum inc))
        s1.depthsLoop env sourceNum inc
          (by show 0 < depthInc _ _; unfold depthInc; split <;> omega) 1
      else s0
    { s3 with parallelSolvers := s3.parallelSolvers.map ChildSolver.startProcess }

/-! ## `finishParallelSolve` and the race -/

/-- The search for the reporting solver at the head of `finishParallelSolve`
(sexysolver.cpp:360-366): positions `i, i+1, ...` of `solvers` are compared
with the sender, which sits at position `r`. -/
def whichSolverLoop (r : Nat) (i : Nat) (whichSolver : Int) : List ChildSolver → Int
  | [] => whichSolver
  | _ :: rest => whichSolverLoop r (i + 1) (if i = r then (i : Int) + 1 else whichSolver) rest

/-- The `foreach` of the success branch of `finishParallelSolve`
(sexysolver.cpp:375-381) over the solvers at positions `i, i+1, ...`: both
connections are cut, and every running solver other than the sender (position
`r`) is told to abort. -/
def shutDownLoop (r : Nat) (i : Nat) : List ChildSolver → List ChildSolver
  | [] => []
  | solver :: rest =>
    let solver1 := { solver with finishedConnected := false, logConnected := false }
    let solver2 := if i ≠ r ∧ solver1.running then solver1.abort else solver1
    solver2 :: shutDownLoop r (i + 1) rest

/-- The slot `SexySolver::finishParallelSolve` (sexysolver.cpp:357), run with
`sender()` being the child at position `r` of `parallelSolvers`.  The slot is
only ever connected to children of that list; for a position outside the list
the state is returned unchanged. -/
def SexySolver.finishParallelSolve (r : Nat) (success : Int) (s : SexySolver) : SexySolver :=
  match s.parallelSolvers[r]? with
  | none => s
  | some reportingSolver =>
    let whichSolver := whichSolverLoop r 0 0 s.parallelSolvers
    if success = 0 then
      let s1 := { s with numStars := reportingSolver.numStarsFound }
      let s2 := s1.log (LogMsg.solvedWithChild whichSolver)
      let s3 := s2.log LogMsg.shuttingDownOthers
      let s4 := { s3 with parallelSolvers := shutDownLoop r 0 s3.parallelSolvers }
      let s5 := { s4 with solution := reportingSolver.solution }
      let s6 :=
        if reportingSolver.hasWCS then
          { s5 with solverWithWCS := some (SolverRef.child r), hasWCS := true }
        else s5
      let s7 := { s6 with hasSolved := true }
      { s7 with finished := s7.finished ++ [0] }
    else
      let s1 := { s with parallelFails := s.parallelFails + 1 }
      let s2 := s1.log (LogMsg.childDidNotSolve whichSolver)
      if s2.parallelFails = s2.parallelSolvers.length then
        { s2 with finished := s2.finished ++ [-1] }
      else s2

/-- Delivery of the signal `finished(code)` of the child at position `r`: the
slot runs only while the connection made in `parallelSolve` is in force. -/
def SexySolver.childFinished (r : Nat) (code : Int) (s : SexySolver) : SexySolver :=
  match s.parallelSolvers[r]? with
  | none => s
  | some c => if c.finishedConnected then s.finishParallelSolve r code else s

/-- A race: the children's reports `(position, code)` are delivered in the order
given. -/
def SexySolver.race (s : SexySolver) (reports : List (Nat × Int)) : SexySolver :=
  reports.foldl (fun st rep => st.childFinished rep.1 rep.2) s

/-! ## Concrete data used to exercise the definitions -/

/-- A solution record with the centre of scenario E3 (`ra = 10`, `dec = 41`). -/
def demoSolution : Solution :=
  { fieldWidth := 60, fieldHeight := 40, ra := 10, dec := 41, orientation := 0,
    pixscale := 2, parity := true }

/-- A freshly constructed child with the initial values of `sextractorsolver.h`
(`depthlo = depthhi = -1`, no scale hint), tagged `n`. -/
def demoChild (n : Int) : ChildSolver :=
  { n := n, use_scale := false, scalelo := 0, scalehi := 0,
    scaleunit := ScaleUnits.DEG_WIDTH, depthlo := -1, depthhi := -1,
    numStarsFound := 50, solution := demoSolution, hasWCS := false,
    finishedConnected := false, logConnected := true, started := false,
    running := false, abortCalls := 0 }

/-- Scenario E4 of the spec: four threads, 4 GB of RAM and one index folder
holding a single 8 GB file. -/
def demoEnv : Env :=
  { idealThreadCount := 4
    availableRAM := 4 * 2 ^ 30
    dir := fun _ => { dirExists := true, indexFileSizes := [8 * 2 ^ 30] }
    spawnChildSolver := demoChild }

/-- Sample values for a default-constructed `Parameters`. -/
def demoDefaults : Parameters ℚ :=
  { listName := "Default", apertureShape := 1, kron_fact := 2.5, subpix := 5, r_min := 3.5,
    magzero := 20, minarea := 5, deblend_thresh := 32, deblend_contrast := 0.005,
    clean := 1, clean_param := 1, fwhm := 2, convFilter := [0, 1, 0, 1, 2, 1, 0, 1, 0],
    maxSize := 0, minSize := 0, maxEllipse := 0, keepNum := 0, removeBrightest := 0,
    removeDimmest := 0, saturationLimit := 0, maxwidth := 180, minwidth := 0.1,
    inParallel := true, multiAlgorithm := MultiAlgo.NOT_MULTI, solverTimeLimit := 600,
    resort := true, downsample := 1, search_radius := 15, logratio_tokeep := 20.72,
    logratio_totune := 13.82, logratio_tosolve := 20.72 }

/-- The parameters of scenario E2 of the spec: `MULTI_AUTO`, `minwidth = 1`,
`maxwidth = 10`, parallel loading of the index files. -/
def demoParameters : Parameters ℚ :=
  { demoDefaults with
    keepNum := 0
    minwidth := 1
    maxwidth := 10
    inParallel := true
    multiAlgorithm := MultiAlgo.MULTI_AUTO }

/-- Scenario E2 of the spec: `MULTI_AUTO`, no hints, `minwidth = 1`,
`maxwidth = 10`, internal solver, on an image of 1024 by 1024 pixels. -/
def demoSolver : SexySolver :=
  { processType := ProcessType.SEXYSOLVER
    params := demoParameters
    stats := { width := 1024, height := 1024 }
    useSubframe := false
    subframe := { x := 0, y := 0, width := 1024, height := 1024 }
    sextractorSolver := some { processFinishedConnected := false, sextractCalls := 0,
                               startProcessCalls := 0, executeProcessCalls := 0,
                               abortCalls := 0 }
    indexFolderPaths := ["/usr/share/astrometry/"]
    logLevel := log_level.LOG_MSG
    use_scale := false, scalelo := 0, scalehi := 0, scaleunit := ScaleUnits.DEG_WIDTH
    use_position := false
    parallelSolvers := [], parallelFails := 0, numStars := 0
    solution := { fieldWidth := 0, fieldHeight := 0, ra := 0, dec := 0, orientation := 0,
                  pixscale := 0, parity := false }
    hasSolved := false, hasSextracted := false, hasFailed := false, wasAborted := false
    hasWCS := false, solverWithWCS := none
    logOutput := [], finished := [] }

/-- Scenario E3 of the spec: a scale hint of 0.5 to 2 arcsec per pixel together
with a position hint. -/
def demoHinted : SexySolver :=
  { demoSolver with
    use_scale := true, scalelo := 1 / 2, scalehi := 2,
    scaleunit := ScaleUnits.ARCSEC_PER_PIX, use_position := true }

/-- Scenario E2 with the strategy `MULTI_SCALES` chosen explicitly. -/
def demoScales : SexySolver :=
  { demoSolver with params := { demoSolver.params with multiAlgorithm := MultiAlgo.MULTI_SCALES } }

/-- The profile values `keepNum = 50` with the strategy `MULTI_DEPTHS`. -/
def demoDepths : SexySolver :=
  { demoSolver with
    params := { demoSolver.params with multiAlgorithm := MultiAlgo.MULTI_DEPTHS, keepNum := 50 } }

/-- A negative `keepNum` with the strategy `MULTI_DEPTHS`. -/
def demoNegativeKeep : SexySolver :=
  { demoSolver with
    params := { demoSolver.params with multiAlgorithm := MultiAlgo.MULTI_DEPTHS, keepNum := -5 } }

/-- The setting `keepNum = 1` with the strategy `MULTI_DEPTHS`. -/
def demoKeepOne : SexySolver :=
  { demoSolver with
    params := { demoSolver.params with multiAlgorithm := MultiAlgo.MULTI_DEPTHS, keepNum := 1 } }


/-- A race about to start: the state `parallelSolve` would leave with two
children, both connected, started and running; the second has WCS data. -/
def demoRaceStart : SexySolver :=
  { demoScales with
    parallelSolvers :=
      [{ demoChild 0 with finishedConnected := true, started := true, running := true },
       { demoChild 1 with finishedConnected := true, started := true, running := true,
                          hasWCS := true }]
    parallelFails := 0 }


/-! ## Numbers and the mathematics library -/

/-- The functions and the constant of the C mathematics library that the sources
use, on the number type `α`. -/
structure MathLib (α : Type) where
  exp : α → α
  log : α → α
  sqrt : α → α
  atan : α → α
  /-- the constant `M_PI` -/
  pi : α

/-- The mathematics library on the real numbers. -/
noncomputable def realMath : MathLib ℝ :=
  { exp := Real.exp, log := Real.log, sqrt := Real.sqrt, atan := Real.arctan, pi := Real.pi }

/-! ## Rounding to `double` -/

/-- Rounding to the nearest whole number, a tie going to the even neighbour: the
rounding of a significand in the IEEE 754 mode round-to-nearest-even. -/
def roundHalfEven {α : Type} [LinearOrderedField α] [FloorRing α] (x : α) : Int :=
  if x - (Int.floor x : α) < 1 / 2 then Int.floor x
  else if 1 / 2 < x - (Int.floor x : α) then Int.floor x + 1
  else if Int.floor x % 2 = 0 then Int.floor x
  else Int.floor x + 1

/-- The binary64 (`double`) value nearest to `x`: with `e` the exponent of the
unit in the last place of the binade of `x`, the significand `x / 2^e` is
rounded to a whole number of 53 bits, ties to even.  Every C++ operation on
`double` returns this rounding of its exact result on a target that evaluates
in binary64.  The exponent range is taken as unbounded: overflow to infinity
and gradual underflow are outside the model. -/
def roundToDouble {α : Type} [LinearOrderedField α] [FloorRing α] (x : α) : α :=
  if x = 0 then 0
  else (roundHalfEven (x / (2 : α) ^ (Int.log 2 |x| - 52)) : α) * (2 : α) ^ (Int.log 2 |x| - 52)

/-! ## `setUseSubframe` -/

/-- The function `SexySolver::setUseSubframe` (sexysolver.cpp:522). -/
def SexySolver.setUseSubframe (s : SexySolver) (frame : QRect) : SexySolver :=
  let x := frame.x
  let y := frame.y
  let w := frame.width
  let h := frame.height
  let x1 := if w < 0 then x + w else x
  let w1 := if w < 0 then -w else w
  let y1 := if h < 0 then y + h else y
  let h1 := if h < 0 then -h else h
  let x2 := if x1 < 0 then 0 else x1
  let y2 := if y1 < 0 then 0 else y1
  let x3 := if x2 > s.stats.width then s.stats.width else x2
  let y3 := if y2 > s.stats.height then s.stats.height else y2
  { s with useSubframe := true, subframe := { x := x3, y := y3, width := w1, height := h1 } }

/-! ## Unit conversion of the scale hint -/

/-- Modelled from the spec: `arcmin2deg` comes from the astrometry.net headers,
which are not among the sources; the spec gives the factor 1/60. -/
def arcmin2deg {α : Type} [Field α] (x : α) : α := x / 60

/-- Modelled from the spec: `arcsec2deg` comes from the astrometry.net headers,
which are not among the sources; the spec gives the factor 1/3600. -/
def arcsec2deg {α : Type} [Field α] (x : α) : α := x / 3600

/-- Modelled from the spec: `rad2deg` comes from the astrometry.net headers, which
are not among the sources; it turns an angle in radians into degrees. -/
def rad2deg {α : Type} [Field α] (m : MathLib α) (x : α) : α := x * (180 / m.pi)

/-- The function `SextractorSolver::convertToDegreeHeight` (sextractorsolver.h:131),
with the members `scaleunit` and `stats` it reads as arguments.  The `default`
label of the `switch` has no enumerator left to serve. -/
def SextractorSolver.convertToDegreeHeight {α : Type} [Field α] (m : MathLib α)
    (scaleunit : ScaleUnits) (stats : Statistic) (scale : α) : α :=
  match scaleunit with
  | ScaleUnits.DEG_WIDTH => scale
  | ScaleUnits.ARCMIN_WIDTH => arcmin2deg scale
  | ScaleUnits.ARCSEC_PER_PIX => arcsec2deg scale * (stats.height : α)
  | ScaleUnits.FOCAL_MM => rad2deg m (m.atan (36 / (2 * scale)))

/-! ## `run` -/

/-- Modelled from the spec: `SextractorSolver::sextract` is pure virtual; the call
is recorded on the primary worker. -/
def PrimarySolver.sextract (p : PrimarySolver) : PrimarySolver :=
  { p with sextractCalls := p.sextractCalls + 1 }

/-- The statement `connect(sextractorSolver, &SextractorSolver::finished, this, &SexySolver::processFinished)`. -/
def PrimarySolver.connectProcessFinished (p : PrimarySolver) : PrimarySolver :=
  { p with processFinishedConnected := true }

/-- Modelled from the spec: `SextractorSolver::startProcess` has no body among the
sources; the call is recorded on the primary worker. -/
def PrimarySolver.startProcess (p : PrimarySolver) : PrimarySolver :=
  { p with startProcessCalls := p.startProcessCalls + 1 }

/-- Modelled from the spec: `SextractorSolver::executeProcess` has no body among
the sources; the call is recorded on the primary worker. -/
def PrimarySolver.executeProcess (p : PrimarySolver) : PrimarySolver :=
  { p with executeProcessCalls := p.executeProcessCalls + 1 }

/-- The dispatch of `SexySolver::run` (sexysolver.cpp:184-225): the resets at its
head, the choice between the parallel path, the online path and the plain
single-worker path, and the calls that start the chosen path.  The waiting
loops, the WCS retrieval after the race and the closing log line run after
other threads have made progress and are not part of this function.  Calls
through `sextractorSolver` act on the primary worker when there is one. -/
def SexySolver.run (env : Env) (s : SexySolver) : SexySolver :=
  let s1 := { s with hasFailed := false }
  let s2 :=
    if s1.processType = ProcessType.INT_SEP ∨ s1.processType = ProcessType.INT_SEP_HFR ∨
        s1.processType = ProcessType.EXT_SEXTRACTOR ∨
        s1.processType = ProcessType.EXT_SEXTRACTOR_HFR then
      { s1 with hasSextracted := false }
    else
      { s1 with hasSolved := false }
  if s2.params.multiAlgorithm ≠ MultiAlgo.NOT_MULTI ∧
      (s2.processType = ProcessType.SEXYSOLVER ∨
       s2.processType = ProcessType.EXT_SEXTRACTORSOLVER ∨
       s2.processType = ProcessType.INT_SEP_EXT_SOLVER) then
    let s3 := { s2 with sextractorSolver := s2.sextractorSolver.map PrimarySolver.sextract }
    s3.parallelSolve env
  else if s2.processType = ProcessType.ONLINE_ASTROMETRY_NET ∨
      s2.processType = ProcessType.INT_SEP_ONLINE_ASTROMETRY_NET then
    { s2 with sextractorSolver :=
        s2.sextractorSolver.map (fun p => p.connectProcessFinished.startProcess) }
  else
    { s2 with sextractorSolver :=
        s2.sextractorSolver.map (fun p => p.connectProcessFinished.executeProcess) }


/-- An online solve of the image of scenario E2. -/
def demoOnline : SexySolver :=
  { demoSolver with processType := ProcessType.ONLINE_ASTROMETRY_NET }


/-! ## `createConvFilterFromFWHM` -/

/-- The value appended for the cell `(x, y)` (sexysolver.cpp:422). -/
def convFilterValue {α : Type} [Field α] (m : MathLib α) (fwhm a : α) (x y : Int) : α :=
  a * m.exp ((-4 * m.log 2 * (m.sqrt ((x : α) ^ 2 + (y : α) ^ 2)) ^ 2) / fwhm ^ 2)

/-- The inner loop `for(int x = -size; x <= size; x++)` (sexysolver.cpp:420),
entered with the counter at `x` and the filter built so far. -/
def convFilterRowLoop {α : Type} [Field α] (m : MathLib α) (fwhm a : α) (size y : Int)
    (x : Int) (convFilter : List α) : List α :=
  if x ≤ size then
    convFilterRowLoop m fwhm a size y (x + 1) (convFilter ++ [convFilterValue m fwhm a x y])
  else convFilter
termination_by (size + 1 - x).toNat
decreasing_by omega

/-- The outer loop `for(int y = -size; y <= size; y++)` (sexysolver.cpp:418),
entered with the counter at `y` and the filter built so far. -/
def convFilterLoop {α : Type} [Field α] (m : MathLib α) (fwhm a : α) (size : Int)
    (y : Int) (convFilter : List α) : List α :=
  if y ≤ size then
    convFilterLoop m fwhm a size (y + 1) (convFilterRowLoop m fwhm a size y (-size) convFilter)
  else convFilter
termination_by (size + 1 - y).toNat
decreasing_by omega

/-- The value of `size` in `createConvFilterFromFWHM` (sexysolver.cpp:417),
`abs(ceil(fwhm * 0.6))`: the literal `0.6` is the `double` nearest to 6/10 and
the product is rounded to `double` before the ceiling is taken. -/
def convFilterSize {α : Type} [LinearOrderedField α] [FloorRing α] (fwhm : α) : Int :=
  |Int.ceil (roundToDouble (fwhm * roundToDouble 0.6))|

/-- The function `SexySolver::createConvFilterFromFWHM` (sexysolver.cpp:412). -/
def SexySolver.createConvFilterFromFWHM {α : Type} [LinearOrderedField α] [FloorRing α]
    (m : MathLib α) (params : Parameters α) (fwhm : α) : Parameters α :=
  let params1 := { params with fwhm := fwhm }
  let params2 := { params1 with convFilter := [] }
  let a : α := 1
  let size := convFilterSize fwhm
  { params2 with convFilter := convFilterLoop m fwhm a size (-size) params2.convFilter }


/-- The sample default values as real numbers. -/
noncomputable def demoRealDefaults : Parameters ℝ :=
  { listName := "Default", apertureShape := 1, kron_fact := 2.5, subpix := 5, r_min := 3.5,
    magzero := 20, minarea := 5, deblend_thresh := 32, deblend_contrast := 0.005,
    clean := 1, clean_param := 1, fwhm := 2, convFilter := [0, 1, 0, 1, 2, 1, 0, 1, 0],
    maxSize := 0, minSize := 0, maxEllipse := 0, keepNum := 0, removeBrightest := 0,
    removeDimmest := 0, saturationLimit := 0, maxwidth := 180, minwidth := 0.1,
    inParallel := true, multiAlgorithm := MultiAlgo.NOT_MULTI, solverTimeLimit := 600,
    resort := true, downsample := 1, search_radius := 15, logratio_tokeep := 20.72,
    logratio_totune := 13.82, logratio_tosolve := 20.72 }


/-! ## Built-in profiles -/

/-- The function `SexySolver::getBuiltInProfiles` (sexysolver.cpp:428).  A local
`Parameters` variable starts as the default-constructed record `defaults`,
whose values are declared outside the sources. -/
def SexySolver.getBuiltInProfiles {α : Type} [LinearOrderedField α] [FloorRing α]
    (m : MathLib α) (defaults : Parameters α) : List (Parameters α) :=
  let profileList : List (Parameters α) := []
  let fastSolving : Parameters α := { defaults with listName := "FastSolving" }
  let fastSolving : Parameters α := { fastSolving with downsample := 2 }
  let fastSolving : Parameters α := { fastSolving with minwidth := 1 }
  let fastSolving : Parameters α := { fastSolving with maxwidth := 10 }
  let fastSolving : Parameters α := { fastSolving with keepNum := 50 }
  let fastSolving : Parameters α := { fastSolving with maxEllipse := 1.5 }
  let fastSolving : Parameters α := SexySolver.createConvFilterFromFWHM m fastSolving 4
  let profileList : List (Parameters α) := profileList ++ [fastSolving]
  let parSolving : Parameters α := { defaults with listName := "ParallelSolving" }
  let parSolving : Parameters α := { parSolving with multiAlgorithm := MultiAlgo.MULTI_AUTO }
  let parSolving : Parameters α := { parSolving with downsample := 2 }
  let parSolving : Parameters α := { parSolving with minwidth := 1 }
  let parSolving : Parameters α := { parSolving with maxwidth := 10 }
  let parSolving : Parameters α := { parSolving with keepNum := 50 }
  let parSolving : Parameters α := { parSolving with maxEllipse := 1.5 }
  let parSolving : Parameters α := SexySolver.createConvFilterFromFWHM m parSolving 2
  let profileList : List (Parameters α) := profileList ++ [parSolving]
  let parLargeSolving : Parameters α := { defaults with listName := "ParallelLargeScale" }
  let parLargeSolving : Parameters α := { parLargeSolving with multiAlgorithm := MultiAlgo.MULTI_AUTO }
  let parLargeSolving : Parameters α := { parLargeSolving with downsample := 2 }
  let parLargeSolving : Parameters α := { parLargeSolving with minwidth := 1 }
  let parLargeSolving : Parameters α := { parLargeSolving with maxwidth := 10 }
  let parLargeSolving : Parameters α := { parLargeSolving with keepNum := 50 }
  let parLargeSolving : Parameters α := { parLargeSolving with maxEllipse := 1.5 }
  let parLargeSolving : Parameters α := SexySolver.createConvFilterFromFWHM m parLargeSolving 2
  let profileList : List (Parameters α) := profileList ++ [parLargeSolving]
  let fastSmallSolving : Parameters α := { defaults with listName := "ParallelSmallScale" }
  let fastSmallSolving : Parameters α := { fastSmallSolving with multiAlgorithm := MultiAlgo.MULTI_AUTO }
  let fastSmallSolving : Parameters α := { fastSmallSolving with downsample := 2 }
  let _parLargeSolving : Parameters α := { parLargeSolving with minwidth := 1 }
  let fastSmallSolving : Parameters α := { fastSmallSolving with maxwidth := 10 }
  let fastSmallSolving : Parameters α := { fastSmallSolving with keepNum := 50 }
  let fastSmallSolving : Parameters α := { fastSmallSolving with maxEllipse := 1.5 }
  let fastSmallSolving : Parameters α := SexySolver.createConvFilterFromFWHM m fastSmallSolving 2
  let profileList : List (Parameters α) := profileList ++ [fastSmallSolving]
  let stars : Parameters α := { defaults with listName := "AllStars" }
  let stars : Parameters α := { stars with maxEllipse := 1.5 }
  let stars : Parameters α := SexySolver.createConvFilterFromFWHM m stars 1
  let stars : Parameters α := { stars with r_min := 2 }
  let profileList : List (Parameters α) := profileList ++ [stars]
  let smallStars : Parameters α := { defaults with listName := "SmallSizedStars" }
  let smallStars : Parameters α := { smallStars with maxEllipse := 1.5 }
  let smallStars : Parameters α := SexySolver.createConvFilterFromFWHM m smallStars 1
  let smallStars : Parameters α := { smallStars with r_min := 2 }
  let smallStars : Parameters α := { smallStars with maxSize := 5 }
  let smallStars : Parameters α := { smallStars with saturationLimit := 80 }
  let profileList : List (Parameters α) := profileList ++ [smallStars]
  let mid : Parameters α := { defaults with listName := "MidSizedStars" }
  let mid : Parameters α := { mid with maxEllipse := 1.5 }
  let mid : Parameters α := { mid with minarea := 20 }
  let mid : Parameters α := SexySolver.createConvFilterFromFWHM m mid 4
  let mid : Parameters α := { mid with r_min := 5 }
  let mid : Parameters α := { mid with removeDimmest := 20 }
  let mid : Parameters α := { mid with minSize := 2 }
  let mid : Parameters α := { mid with maxSize := 10 }
  let mid : Parameters α := { mid with saturationLimit := 80 }
  let profileList : List (Parameters α) := profileList ++ [mid]
  let big : Parameters α := { defaults with listName := "BigSizedStars" }
  let big : Parameters α := { big with maxEllipse := 1.5 }
  let big : Parameters α := { big with minarea := 40 }
  let big : Parameters α := SexySolver.createConvFilterFromFWHM m big 8
  let big : Parameters α := { big with r_min := 20 }
  let big : Parameters α := { big with minSize := 5 }
  let big : Parameters α := { big with removeDimmest := 50 }
  let profileList : List (Parameters α) := profileList ++ [big]
  profileList

/-! ## `QVariant`, `QMap` and the conversion of `Parameters` -/

/-- The kinds of `QVariant` that the sources build: from a `QString`, from an
`int` (also an enum or an `int`-typed field), from a `double` or `float`, and
from a `bool`. -/
inductive QVariant (α : Type) where
  | string (s : String)
  | int (i : Int)
  | double (d : α)
  | bool (b : Bool)
  deriving DecidableEq, Repr

/-- The conversions between text and numbers that Qt performs for `QVariant`. -/
structure QtText (α : Type) where
  /-- text of a floating-point number, as `QVariant::toString` gives it -/
  numberToString : α → String
  /-- text of an integer, as `QVariant::toString` gives it -/
  intToString : Int → String
  /-- number read by `QString::toDouble`, if the text is one -/
  stringToDouble : String → Option α
  /-- integer read by `QString::toLongLong`, if the text is one -/
  stringToInt : String → Option Int

/-- The conversion of a `double` to `int`, which drops the fraction. -/
def truncToInt {α : Type} [LinearOrderedField α] [FloorRing α] (d : α) : Int :=
  if 0 ≤ d then Int.floor d else Int.ceil d

/-- The function `QVariant::toString`. -/
def QVariant.toString {α : Type} (t : QtText α) : QVariant α → String
  | QVariant.string s => s
  | QVariant.int i => t.intToString i
  | QVariant.double d => t.numberToString d
  | QVariant.bool b => if b then "true" else "false"

/-- The function `QVariant::toInt`; a `double` is rounded by `qRound64`, a text
that is no integer gives 0. -/
def QVariant.toInt {α : Type} [LinearOrderedField α] [FloorRing α] (t : QtText α) :
    QVariant α → Int
  | QVariant.string s => (t.stringToInt s).getD 0
  | QVariant.int i => i
  | QVariant.double d => Int.floor (d + 1 / 2)
  | QVariant.bool b => if b then 1 else 0

/-- The function `QVariant::toDouble` (and `QVariant::toFloat`); a text that is no
number gives 0. -/
def QVariant.toDouble {α : Type} [LinearOrderedField α] (t : QtText α) : QVariant α → α
  | QVariant.string s => (t.stringToDouble s).getD 0
  | QVariant.int i => (i : α)
  | QVariant.double d => d
  | QVariant.bool b => if b then 1 else 0

/-- The function `QVariant::toBool`: a number is true when it is not 0, a text
when it is neither empty nor `0` nor `false` in lower case. -/
def QVariant.toBool {α : Type} [LinearOrderedField α] : QVariant α → Bool
  | QVariant.string s => !(s.toLower == "0" || s.toLower == "false" || s.isEmpty)
  | QVariant.int i => decide (i ≠ 0)
  | QVariant.double d => decide (d ≠ 0)
  | QVariant.bool b => b

/-- The integer value of an enumerator of `MultiAlgo`, in the order in which the
spec lists them. -/
def MultiAlgo.toInt : MultiAlgo → Int
  | MultiAlgo.NOT_MULTI => 0
  | MultiAlgo.MULTI_SCALES => 1
  | MultiAlgo.MULTI_DEPTHS => 2
  | MultiAlgo.MULTI_AUTO => 3

/-- The cast `(MultiAlgo)i`.  An integer that is the value of no enumerator is
outside the model and is sent to `NOT_MULTI`. -/
def MultiAlgo.ofInt (i : Int) : MultiAlgo :=
  if i = 1 then MultiAlgo.MULTI_SCALES
  else if i = 2 then MultiAlgo.MULTI_DEPTHS
  else if i = 3 then MultiAlgo.MULTI_AUTO
  else MultiAlgo.NOT_MULTI

/-- A `QMap<QString, QVariant>`: the value stored under each key, if any. -/
abbrev QMap (α : Type) : Type := String → Option (QVariant α)

/-- The empty map. -/
def QMap.empty {α : Type} : QMap α := fun _ => none

/-- The function `QMap::insert`: the value under `key` is replaced. -/
def QMap.insert {α : Type} (settingsMap : QMap α) (key : String) (value : QVariant α) :
    QMap α :=
  fun k => if k = key then some value else settingsMap k

/-- The function `QMap::value(key, defaultValue)`. -/
def QMap.value {α : Type} (settingsMap : QMap α) (key : String) (defaultValue : QVariant α) :
    QVariant α :=
  (settingsMap key).getD defaultValue

/-- The function `QMap::contains`. -/
def QMap.contains {α : Type} (settingsMap : QMap α) (key : String) : Bool :=
  (settingsMap key).isSome


/-- The pieces of a text between the occurrences of the separator `sep`, empty
pieces kept: the text without separator is one piece, the empty text
included. -/
def splitChars (sep : Char) : List Char → List (List Char)
  | [] => [[]]
  | c :: cs =>
    match splitChars sep cs with
    | [] => [[c]]
    | first :: rest => if c = sep then [] :: first :: rest else (c :: first) :: rest

/-- The pieces put one after the other with `sep` between two neighbours. -/
def joinChars (sep : List Char) : List (List Char) → List Char
  | [] => []
  | [a] => a
  | a :: b :: rest => a ++ sep ++ joinChars sep (b :: rest)

/-- The function `QString::split` with a one-character separator and the default
`KeepEmptyParts`. -/
def QString.split (s : String) (sep : Char) : List String :=
  (splitChars sep s.data).map String.mk

/-- The function `QStringList::join`. -/
def QStringList.join (l : List String) (sep : String) : String :=
  String.mk (joinChars sep.data (l.map String.data))

/-- The function `SexySolver::convertToMap` (sexysolver.cpp:640). -/
def SexySolver.convertToMap {α : Type} (t : QtText α) (params : Parameters α) : QMap α :=
  let settingsMap : QMap α := QMap.empty
  let settingsMap := settingsMap.insert "listName" (QVariant.string params.listName)
  let settingsMap := settingsMap.insert "apertureShape" (QVariant.int params.apertureShape)
  let settingsMap := settingsMap.insert "kron_fact" (QVariant.double params.kron_fact)
  let settingsMap := settingsMap.insert "subpix" (QVariant.int params.subpix)
  let settingsMap := settingsMap.insert "r_min" (QVariant.double params.r_min)
  let settingsMap := settingsMap.insert "magzero" (QVariant.double params.magzero)
  let settingsMap := settingsMap.insert "minarea" (QVariant.double params.minarea)
  let settingsMap := settingsMap.insert "deblend_thresh" (QVariant.int params.deblend_thresh)
  let settingsMap :=
    settingsMap.insert "deblend_contrast" (QVariant.double params.deblend_contrast)
  let settingsMap := settingsMap.insert "clean" (QVariant.int params.clean)
  let settingsMap := settingsMap.insert "clean_param" (QVariant.double params.clean_param)
  let settingsMap := settingsMap.insert "fwhm" (QVariant.double params.fwhm)
  let conv : List String := params.convFilter.map (fun num => (QVariant.double num).toString t)
  let settingsMap := settingsMap.insert "convFilter" (QVariant.string (QStringList.join conv ","))
  let settingsMap := settingsMap.insert "maxSize" (QVariant.double params.maxSize)
  let settingsMap := settingsMap.insert "minSize" (QVariant.double params.minSize)
  let settingsMap := settingsMap.insert "maxEllipse" (QVariant.double params.maxEllipse)
  let settingsMap := settingsMap.insert "keepNum" (QVariant.int params.keepNum)
  let settingsMap :=
    settingsMap.insert "removeBrightest" (QVariant.double params.removeBrightest)
  let settingsMap := settingsMap.insert "removeDimmest" (QVariant.double params.removeDimmest)
  let settingsMap :=
    settingsMap.insert "saturationLimit" (QVariant.double params.saturationLimit)
  let settingsMap := settingsMap.insert "maxwidth" (QVariant.double params.maxwidth)
  let settingsMap := settingsMap.insert "minwidth" (QVariant.double params.minwidth)
  let settingsMap := settingsMap.insert "inParallel" (QVariant.bool params.inParallel)
  let settingsMap := settingsMap.insert "multiAlgo" (QVariant.int params.multiAlgorithm.toInt)
  let settingsMap :=
    settingsMap.insert "solverTimeLimit" (QVariant.int params.solverTimeLimit)
  let settingsMap := settingsMap.insert "resort" (QVariant.bool params.resort)
  let settingsMap := settingsMap.insert "downsample" (QVariant.int params.downsample)
  let settingsMap := settingsMap.insert "search_radius" (QVariant.double params.search_radius)
  let settingsMap :=
    settingsMap.insert "logratio_tokeep" (QVariant.double params.logratio_tokeep)
  let settingsMap :=
    settingsMap.insert "logratio_totune" (QVariant.double params.logratio_totune)
  let settingsMap :=
    settingsMap.insert "logratio_tosolve" (QVariant.double params.logratio_tosolve)
  settingsMap

/-- The function `SexySolver::convertFromMap` (sexysolver.cpp:696).  The local
`params` starts as the default-constructed record `defaults`. -/
def SexySolver.convertFromMap {α : Type} [LinearOrderedField α] [FloorRing α] (t : QtText α)
    (defaults : Parameters α) (settingsMap : QMap α) : Parameters α :=
  let params : Parameters α := defaults
  let params : Parameters α := { params with
    listName := (settingsMap.value "listName" (QVariant.string params.listName)).toString t }
  let params : Parameters α := { params with
    apertureShape :=
      (settingsMap.value "apertureShape" (QVariant.string params.listName)).toInt t }
  let params : Parameters α := { params with
    kron_fact := (settingsMap.value "kron_fact" (QVariant.string params.listName)).toDouble t }
  let params : Parameters α := { params with
    subpix := (settingsMap.value "subpix" (QVariant.string params.listName)).toInt t }
  let params : Parameters α := { params with
    r_min := (settingsMap.value "r_min" (QVariant.string params.listName)).toDouble t }
  let params : Parameters α := { params with
    magzero := (settingsMap.value "magzero" (QVariant.double params.magzero)).toDouble t }
  let params : Parameters α := { params with
    minarea := (settingsMap.value "minarea" (QVariant.double params.minarea)).toDouble t }
  let params : Parameters α := { params with
    deblend_thresh :=
      (settingsMap.value "deblend_thresh" (QVariant.int params.deblend_thresh)).toInt t }
  let params : Parameters α := { params with
    deblend_contrast :=
      (settingsMap.value "deblend_contrast"
        (QVariant.double params.deblend_contrast)).toDouble t }
  let params : Parameters α := { params with
    clean := (settingsMap.value "clean" (QVariant.int params.clean)).toInt t }
  let params : Parameters α := { params with
    clean_param :=
      (settingsMap.value "clean_param" (QVariant.double params.clean_param)).toDouble t }
  let params : Parameters α := { params with
    fwhm := (settingsMap.value "fwhm" (QVariant.double params.fwhm)).toDouble t }
  let params : Parameters α :=
    if settingsMap.contains "convFilter" then
      let conv : List String :=
        QString.split ((settingsMap.value "convFilter" (QVariant.string "")).toString t) ','
      let filter : List α := conv.map (fun item => (QVariant.string item).toDouble t)
      { params with convFilter := filter }
    else params
  let params : Parameters α := { params with
    maxSize := (settingsMap.value "maxSize" (QVariant.double params.maxSize)).toDouble t }
  let params : Parameters α := { params with
    minSize := (settingsMap.value "minSize" (QVariant.double params.minSize)).toDouble t }
  let params : Parameters α := { params with
    maxEllipse :=
      (settingsMap.value "maxEllipse" (QVariant.double params.maxEllipse)).toDouble t }
  let params : Parameters α := { params with
    keepNum :=
      truncToInt ((settingsMap.value "keepNum" (QVariant.int params.keepNum)).toDouble t) }
  let params : Parameters α := { params with
    removeBrightest :=
      (settingsMap.value "removeBrightest" (QVariant.double params.removeBrightest)).toDouble t }
  let params : Parameters α := { params with
    removeDimmest :=
      (settingsMap.value "removeDimmest" (QVariant.double params.removeDimmest)).toDouble t }
  let params : Parameters α := { params with
    saturationLimit :=
      (settingsMap.value "saturationLimit" (QVariant.double params.saturationLimit)).toDouble t }
  let params : Parameters α := { params with
    maxwidth := (settingsMap.value "maxwidth" (QVariant.double params.maxwidth)).toDouble t }
  let params : Parameters α := { params with
    minwidth := (settingsMap.value "minwidth" (QVariant.double params.minwidth)).toDouble t }
  let params : Parameters α := { params with
    inParallel := (settingsMap.value "inParallel" (QVariant.bool params.inParallel)).toBool }
  let params : Parameters α := { params with
    multiAlgorithm :=
      MultiAlgo.ofInt
        ((settingsMap.value "multiAlgo" (QVariant.int params.multiAlgorithm.toInt)).toInt t) }
  let params : Parameters α := { params with
    solverTimeLimit :=
      (settingsMap.value "solverTimeLimit" (QVariant.int params.solverTimeLimit)).toInt t }
  let params : Parameters α := { params with
    resort := (settingsMap.value "resort" (QVariant.bool params.resort)).toBool }
  let params : Parameters α := { params with
    downsample :=
      if (settingsMap.value "downsample" (QVariant.int params.downsample)).toBool then 1
      else 0 }
  let params : Parameters α := { params with
    search_radius :=
      (settingsMap.value "search_radius" (QVariant.double params.search_radius)).toDouble t }
  let params : Parameters α := { params with
    logratio_tokeep :=
      (settingsMap.value "logratio_tokeep" (QVariant.double params.logratio_tokeep)).toDouble t }
  let params : Parameters α := { params with
    logratio_totune :=
      (settingsMap.value "logratio_totune" (QVariant.double params.logratio_totune)).toDouble t }
  let params : Parameters α := { params with
    logratio_tosolve :=
      (settingsMap.value "logratio_tosolve"
        (QVariant.double params.logratio_tosolve)).toDouble t }
  params

/-- A small text conversion for running the definitions on rationals: it reads the
one-digit numerals and writes whole numbers in decimal. -/
def demoText : QtText ℚ :=
  { numberToString := fun q => toString q.num
    intToString := fun i => toString i
    stringToDouble := fun s =>
      if s = "0" then some 0 else if s = "1" then some 1 else if s = "2" then some 2
      else if s = "3" then some 3 else if s = "4" then some 4 else if s = "5" then some 5
      else if s = "6" then some 6 else if s = "7" then some 7 else if s = "8" then some 8
      else if s = "9" then some 9 else none
    stringToInt := fun s =>
      if s = "0" then some 0 else if s = "1" then some 1 else if s = "2" then some 2
      else if s = "3" then some 3 else if s = "4" then some 4 else if s = "5" then some 5
      else if s = "6" then some 6 else if s = "7" then some 7 else if s = "8" then some 8
      else if s = "9" then some 9 else none }


/-- A settings map that holds nothing but a profile named `7`. -/
def demoMapSeven : QMap ℚ := QMap.empty.insert "listName" (QVariant.string "7")

/-- A settings map that holds nothing but a profile named `8`. -/
def demoMapEight : QMap ℚ := QMap.empty.insert "listName" (QVariant.string "8")


/-! ## `abort` -/

/-- Modelled from the spec: `SextractorSolver::abort` is pure virtual; the call is
recorded on the primary worker. -/
def PrimarySolver.abort (p : PrimarySolver) : PrimarySolver :=
  { p with abortCalls := p.abortCalls + 1 }

/-- The function `SexySolver::abort` (sexysolver.cpp:402). -/
def SexySolver.abort (s : SexySolver) : SexySolver :=
  let s1 := { s with parallelSolvers := s.parallelSolvers.map ChildSolver.abort }
  let s2 := { s1 with sextractorSolver := s1.sextractorSolver.map PrimarySolver.abort }
  { s2 with wasAborted := true }

/-- The setting `keepNum = 32` with the strategy `MULTI_DEPTHS`. -/
def demoKeepThirtyTwo : SexySolver :=
  { demoSolver with
    params := { demoSolver.params with multiAlgorithm := MultiAlgo.MULTI_DEPTHS, keepNum := 32 } }

/-- A race of three children: the first two are running, the third has already
stopped. -/
def demoRaceOfThree : SexySolver :=
  { demoScales with
    parallelSolvers :=
      [{ demoChild 0 with finishedConnected := true, started := true, running := true },
       { demoChild 1 with finishedConnected := true, started := true, running := true },
       { demoChild 2 with finishedConnected := true, started := true, running := false }]
    parallelFails := 0 }


/-! ## The scale hint given by unit name -/

/-- The function `SextractorSolver::getScaleUnitString` (sextractorsolver.h:70), with
the member `scaleunit` it reads as argument.  The `default` label of the
`switch`, which returns the empty text, has no enumerator left to serve. -/
def SextractorSolver.getScaleUnitString (scaleunit : ScaleUnits) : String :=
  match scaleunit with
  | ScaleUnits.DEG_WIDTH => "degwidth"
  | ScaleUnits.ARCMIN_WIDTH => "arcminwidth"
  | ScaleUnits.ARCSEC_PER_PIX => "arcsecperpix"
  | ScaleUnits.FOCAL_MM => "focalmm"

/-- The function `SexySolver::setSearchScale(double, double, ScaleUnits)`
(sexysolver.cpp:565). -/
def SexySolver.setSearchScale (s : SexySolver) (fov_low fov_high : ℚ) (units : ScaleUnits) :
    SexySolver :=
  { s with use_scale := true, scalelo := fov_low, scalehi := fov_high, scaleunit := units }

/-- The function `SexySolver::setSearchScale(double, double, QString)`
(sexysolver.cpp:552): four `if` statements in a row, none of them an `else`. -/
def SexySolver.setSearchScaleQString (s : SexySolver) (fov_low fov_high : ℚ)
    (scaleUnits : String) : SexySolver :=
  let s1 : SexySolver :=
    if scaleUnits = "dw" ∨ scaleUnits = "degw" ∨ scaleUnits = "degwidth" then
      s.setSearchScale fov_low fov_high ScaleUnits.DEG_WIDTH
    else s
  let s2 : SexySolver :=
    if scaleUnits = "app" ∨ scaleUnits = "arcsecperpix" then
      s1.setSearchScale fov_low fov_high ScaleUnits.ARCSEC_PER_PIX
    else s1
  let s3 : SexySolver :=
    if scaleUnits = "aw" ∨ scaleUnits = "amw" ∨ scaleUnits = "arcminwidth" then
      s2.setSearchScale fov_low fov_high ScaleUnits.ARCMIN_WIDTH
    else s2
  if scaleUnits = "focalmm" then
    s3.setSearchScale fov_low fov_high ScaleUnits.FOCAL_MM
  else s3


/-! ## The `MULTI_SCALES` branch in `double` arithmetic -/

/-- The value of `scaleConst` (sexysolver.cpp:260),
`(maxScale - minScale) / pow(threads,2)`, each of the three operations rounded
to `double`. -/
def scaleConstDouble (minScale maxScale : ℚ) (threads : Int) : ℚ :=
  roundToDouble (roundToDouble (maxScale - minScale) / roundToDouble ((threads : ℚ) ^ 2))

/-- The value `minScale + scaleConst * pow(thread, 2)` given to `low` and, with
`thread + 1` for `thread`, to `high` (sexysolver.cpp:265-266), each of the
three operations rounded to `double`.  The counter `thread` holds a whole
number, and so does `thread + 1`, without rounding. -/
def sliceBoundDouble (minScale scaleConst : ℚ) (thread : Nat) : ℚ :=
  roundToDouble (minScale + roundToDouble (scaleConst * roundToDouble ((thread : ℚ) ^ 2)))

/-- The loop `for(double thread = 0; thread < threads; thread++)` of the
`MULTI_SCALES` branch (sexysolver.cpp:263-273) with the `double` arithmetic of
its body rounded: `SexySolver.scalesLoop` with `sliceBoundDouble` for the two
bounds. -/
def SexySolver.scalesLoopDouble (env : Env) (threads : Int) (minScale scaleConst : ℚ)
    (units : ScaleUnits) (thread : Nat) (s : SexySolver) : SexySolver :=
  if (thread : Int) < threads then
    let low := sliceBoundDouble minScale scaleConst thread
    let high := sliceBoundDouble minScale scaleConst (thread + 1)
    let solver := (env.spawnChildSolver thread).connectFinished
    let solver := solver.setSearchScale low high units
    let s1 := { s with parallelSolvers := s.parallelSolvers ++ [solver] }
    let s2 := s1.log (LogMsg.scaleSolver s1.parallelSolvers.length low high s1.scaleunit)
    SexySolver.scalesLoopDouble env threads minScale scaleConst units (thread + 1) s2
  else s
termination_by (threads - thread).toNat
decreasing_by omega

/-- The function `SexySolver::parallelSolve` (sexysolver.cpp:232) with the `double`
arithmetic of the `MULTI_SCALES` branch rounded: `SexySolver.parallelSolve`
with `scaleConstDouble` and `SexySolver.scalesLoopDouble`.  The rest of the
function has no arithmetic on `double`. -/
def SexySolver.parallelSolveDouble (env : Env) (s : SexySolver) : SexySolver :=
  if s.params.multiAlgorithm = MultiAlgo.NOT_MULTI ∨
      ¬ (s.processType = ProcessType.SEXYSOLVER ∨
         s.processType = ProcessType.EXT_SEXTRACTORSOLVER ∨
         s.processType = ProcessType.INT_SEP_EXT_SOLVER) then s
  else
    let s0 := { s with parallelSolvers := [], parallelFails := 0 }
    let threads := env.idealThreadCount
    let s3 :=
      if s0.params.multiAlgorithm = MultiAlgo.MULTI_SCALES then
        let minScale := s0.minScale
        let maxScale := s0.maxScale
        let units := s0.units
        let scaleConst := scaleConstDouble minScale maxScale threads
        let s1 := s0.log (LogMsg.startingScaleThreads threads)
        s1.scalesLoopDouble env threads minScale scaleConst units 0
      else if s0.params.multiAlgorithm = MultiAlgo.MULTI_DEPTHS then
        let sourceNum := depthSourceNum s0.params.keepNum
        let inc := depthInc sourceNum threads
        let s1 := s0.log (LogMsg.startingDepthThreads (Int.tdiv sourceNum inc))
        s1.depthsLoop env sourceNum inc
          (by show 0 < depthInc _ _; unfold depthInc; split <;> omega) 1
      else s0
    { s3 with parallelSolvers := s3.parallelSolvers.map ChildSolver.startProcess }

/-- A scale hint from 0.2 to 0.9 degrees, the two bounds being the `double` values
of these literals, with the strategy `MULTI_SCALES`. -/
def demoTenths : SexySolver :=
  { demoScales with
    use_scale := true, scalelo := roundToDouble (2 / 10), scalehi := roundToDouble (9 / 10),
    scaleunit := ScaleUnits.DEG_WIDTH }

/-- A scale hint from 0.1 to 3.0 degrees, the two bounds being the `double` values
of these literals, with the strategy `MULTI_SCALES`. -/
def demoThreeDegrees : SexySolver :=
  { demoScales with
    use_scale := true, scalelo := roundToDouble (1 / 10), scalehi := roundToDouble 3,
    scaleunit := ScaleUnits.DEG_WIDTH }

/-! ## Lemmas on logging: only `logOutput` changes -/

@[simp] theorem SexySolver.log_processType (s : SexySolver) (m : LogMsg) :
    (s.log m).processType = s.processType := by
  unfold SexySolver.log; split <;> rfl

@[simp] theorem SexySolver.log_params (s : SexySolver) (m : LogMsg) :
    (s.log m).params = s.params := by
  unfold SexySolver.log; split <;> rfl

@[simp] theorem SexySolver.log_indexFolderPaths (s : SexySolver) (m : LogMsg) :
    (s.log m).indexFolderPaths = s.indexFolderPaths := by
  unfold SexySolver.log; split <;> rfl

@[simp] theorem SexySolver.log_logLevel (s : SexySolver) (m : LogMsg) :
    (s.log m).logLevel = s.logLevel := by
  unfold SexySolver.log; split <;> rfl

@[simp] theorem SexySolver.log_use_scale (s : SexySolver) (m : LogMsg) :
    (s.log m).use_scale = s.use_scale := by
  unfold SexySolver.log; split <;> rfl

@[simp] theorem SexySolver.log_scalelo (s : SexySolver) (m : LogMsg) :
    (s.log m).scalelo = s.scalelo := by
  unfold SexySolver.log; split <;> rfl

@[simp] theorem SexySolver.log_scalehi (s : SexySolver) (m : LogMsg) :
    (s.log m).scalehi = s.scalehi := by
  unfold SexySolver.log; split <;> rfl

@[simp] theorem SexySolver.log_scaleunit (s : SexySolver) (m : LogMsg) :
    (s.log m).scaleunit = s.scaleunit := by
  unfold SexySolver.log; split <;> rfl

@[simp] theorem SexySolver.log_use_position (s : SexySolver) (m : LogMsg) :
    (s.log m).use_position = s.use_position := by
  unfold SexySolver.log; split <;> rfl

@[simp] theorem SexySolver.log_parallelSolvers (s : SexySolver) (m : LogMsg) :
    (s.log m).parallelSolvers = s.parallelSolvers := by
  unfold SexySolver.log; split <;> rfl

@[simp] theorem SexySolver.log_parallelFails (s : SexySolver) (m : LogMsg) :
    (s.log m).parallelFails = s.parallelFails := by
  unfold SexySolver.log; split <;> rfl

@[simp] theorem SexySolver.log_numStars (s : SexySolver) (m : LogMsg) :
    (s.log m).numStars = s.numStars := by
  unfold SexySolver.log; split <;> rfl

@[simp] theorem SexySolver.log_solution (s : SexySolver) (m : LogMsg) :
    (s.log m).solution = s.solution := by
  unfold SexySolver.log; split <;> rfl

@[simp] theorem SexySolver.log_hasSolved (s : SexySolver) (m : LogMsg) :
    (s.log m).hasSolved = s.hasSolved := by
  unfold SexySolver.log; split <;> rfl

@[simp] theorem SexySolver.log_hasWCS (s : SexySolver) (m : LogMsg) :
    (s.log m).hasWCS = s.hasWCS := by
  unfold SexySolver.log; split <;> rfl

@[simp] theorem SexySolver.log_solverWithWCS (s : SexySolver) (m : LogMsg) :
    (s.log m).solverWithWCS = s.solverWithWCS := by
  unfold SexySolver.log; split <;> rfl

@[simp] theorem SexySolver.log_finished (s : SexySolver) (m : LogMsg) :
    (s.log m).finished = s.finished := by
  unfold SexySolver.log; split <;> rfl

/-! ## Rounding to `double` -/

/-- The rounded value is at most one half away. -/
theorem roundHalfEven_abs_sub_le {α : Type} [LinearOrderedField α] [FloorRing α]
    (x : α) : |(roundHalfEven x : α) - x| ≤ 1 / 2 := by
  have h1 := Int.floor_le x
  have h2 := Int.lt_floor_add_one x
  unfold roundHalfEven
  split_ifs with ha hb hc
  · rw [abs_le]; constructor <;> linarith
  · rw [abs_le]; push_cast; constructor <;> linarith
  · rw [abs_le]; constructor <;> linarith
  · rw [abs_le]; push_cast; constructor <;> linarith

/-- A whole number less than one half away is the rounded value. -/
theorem roundHalfEven_eq_of_abs_lt {α : Type} [LinearOrderedField α] [FloorRing α]
    (x : α) (m : Int) (h : |x - (m : α)| < 1 / 2) :
    roundHalfEven x = m := by
  have h1 := roundHalfEven_abs_sub_le x
  have h2 : |((roundHalfEven x : Int) : α) - (m : α)| < 1 := by
    calc |((roundHalfEven x : Int) : α) - (m : α)|
        = |(((roundHalfEven x : Int) : α) - x) + (x - (m : α))| := by ring_nf
      _ ≤ |((roundHalfEven x : Int) : α) - x| + |x - (m : α)| := abs_add _ _
      _ < 1 := by linarith
  have h3 : |roundHalfEven x - m| < 1 := by
    have : ((|roundHalfEven x - m| : Int) : α) < ((1 : Int) : α) := by
      push_cast; exact h2
    exact_mod_cast this
  have h4 : roundHalfEven x - m = 0 := by
    rw [abs_lt] at h3; omega
  omega

/-- A whole number rounds to itself. -/
theorem roundHalfEven_intCast {α : Type} [LinearOrderedField α] [FloorRing α]
    (m : Int) : roundHalfEven (m : α) = m :=
  roundHalfEven_eq_of_abs_lt _ m (by simp)

/-- A tie goes to the even neighbour. -/
theorem roundHalfEven_tie {α : Type} [LinearOrderedField α] [FloorRing α]
    (m : Int) :
    roundHalfEven ((m : α) + 1 / 2) = if m % 2 = 0 then m else m + 1 := by
  have hf : Int.floor ((m : α) + 1 / 2) = m := by
    rw [Int.floor_eq_iff]; constructor <;> linarith
  unfold roundHalfEven
  rw [hf]
  have e : (m : α) + 1 / 2 - (m : α) = 1 / 2 := by ring
  rw [e]
  simp

/-- Rounding to a whole number is monotone. -/
theorem roundHalfEven_mono {α : Type} [LinearOrderedField α] [FloorRing α]
    {x y : α} (h : x ≤ y) : roundHalfEven x ≤ roundHalfEven y := by
  by_contra hlt
  push_neg at hlt
  have hx := roundHalfEven_abs_sub_le x
  have hy := roundHalfEven_abs_sub_le y
  rw [abs_le] at hx hy
  have h1 : ((roundHalfEven y : Int) : α) + 1 ≤ (roundHalfEven x : α) := by
    exact_mod_cast hlt
  have hxy : x = y := by linarith
  rw [hxy] at hlt
  exact lt_irrefl _ hlt

/-- Zero is a `double`. -/
theorem roundToDouble_zero {α : Type} [LinearOrderedField α] [FloorRing α]
    : roundToDouble (0 : α) = 0 := by
  simp [roundToDouble]

/-- A non-zero number is at least the lower end of its binade. -/
theorem two_zpow_log_le {α : Type} [LinearOrderedField α] [FloorRing α]
    {x : α} (hx : x ≠ 0) : (2 : α) ^ (Int.log 2 |x|) ≤ |x| := by
  have := Int.zpow_log_le_self (b := 2) (r := |x|) (by norm_num) (abs_pos.mpr hx)
  simpa using this

/-- A number is below the upper end of its binade. -/
theorem lt_two_zpow_log_succ {α : Type} [LinearOrderedField α] [FloorRing α]
    (x : α) : |x| < (2 : α) ^ (Int.log 2 |x| + 1) := by
  have := Int.lt_zpow_succ_log_self (b := 2) (by norm_num) |x|
  simpa using this

/-- The error of rounding is at most half a unit in the last place. -/
theorem roundToDouble_abs_sub_le {α : Type} [LinearOrderedField α] [FloorRing α]
    (x : α) : |roundToDouble x - x| ≤ |x| / 2 ^ 53 := by
  by_cases hx : x = 0
  · subst hx; simp [roundToDouble_zero]
  · unfold roundToDouble
    rw [if_neg hx]
    have hp : (0 : α) < (2 : α) ^ (Int.log 2 |x| - 52) := by positivity
    have h1 := roundHalfEven_abs_sub_le (x / (2 : α) ^ (Int.log 2 |x| - 52))
    have h2 : |(roundHalfEven (x / (2 : α) ^ (Int.log 2 |x| - 52)) : α)
          * (2 : α) ^ (Int.log 2 |x| - 52) - x|
        = |(roundHalfEven (x / (2 : α) ^ (Int.log 2 |x| - 52)) : α)
            - x / (2 : α) ^ (Int.log 2 |x| - 52)| * (2 : α) ^ (Int.log 2 |x| - 52) := by
      rw [← abs_of_pos hp, ← abs_mul, abs_of_pos hp]
      congr 1
      field_simp
    rw [h2]
    have h3 : (2 : α) ^ (Int.log 2 |x| - 52) = (2 : α) ^ (Int.log 2 |x|) / 2 ^ 52 := by
      rw [zpow_sub₀ (by norm_num)]
      norm_num
    have h4 := two_zpow_log_le hx
    calc |(roundHalfEven (x / (2 : α) ^ (Int.log 2 |x| - 52)) : α)
            - x / (2 : α) ^ (Int.log 2 |x| - 52)| * (2 : α) ^ (Int.log 2 |x| - 52)
        ≤ 1 / 2 * (2 : α) ^ (Int.log 2 |x| - 52) := by gcongr
      _ = (2 : α) ^ (Int.log 2 |x|) / 2 ^ 53 := by rw [h3]; ring
      _ ≤ |x| / 2 ^ 53 := by gcongr



/-- A number that is not negative rounds to one that is not negative. -/
theorem roundHalfEven_nonneg {α : Type} [LinearOrderedField α] [FloorRing α]
    {x : α} (h : 0 ≤ x) : 0 ≤ roundHalfEven x := by
  have := roundHalfEven_mono h
  rwa [show (0 : α) = ((0 : Int) : α) by simp, roundHalfEven_intCast] at this

/-- A number that is not positive rounds to one that is not positive. -/
theorem roundHalfEven_nonpos {α : Type} [LinearOrderedField α] [FloorRing α]
    {x : α} (h : x ≤ 0) : roundHalfEven x ≤ 0 := by
  have := roundHalfEven_mono h
  rwa [show (0 : α) = ((0 : Int) : α) by simp, roundHalfEven_intCast] at this

/-- Rounding to `double` keeps the sign: numbers that are not negative. -/
theorem roundToDouble_nonneg {α : Type} [LinearOrderedField α] [FloorRing α]
    {x : α} (h : 0 ≤ x) : 0 ≤ roundToDouble x := by
  unfold roundToDouble
  split_ifs with hx
  · exact le_refl _
  · have hp : (0 : α) < (2 : α) ^ (Int.log 2 |x| - 52) := by positivity
    have : 0 ≤ roundHalfEven (x / (2 : α) ^ (Int.log 2 |x| - 52)) :=
      roundHalfEven_nonneg (div_nonneg h hp.le)
    have h' : (0 : α) ≤ (roundHalfEven (x / (2 : α) ^ (Int.log 2 |x| - 52)) : α) := by
      exact_mod_cast this
    positivity

/-- Rounding to `double` keeps the sign: numbers that are not positive. -/
theorem roundToDouble_nonpos {α : Type} [LinearOrderedField α] [FloorRing α]
    {x : α} (h : x ≤ 0) : roundToDouble x ≤ 0 := by
  unfold roundToDouble
  split_ifs with hx
  · exact le_refl _
  · have hp : (0 : α) < (2 : α) ^ (Int.log 2 |x| - 52) := by positivity
    have : roundHalfEven (x / (2 : α) ^ (Int.log 2 |x| - 52)) ≤ 0 :=
      roundHalfEven_nonpos (div_nonpos_of_nonpos_of_nonneg h hp.le)
    have h' : (roundHalfEven (x / (2 : α) ^ (Int.log 2 |x| - 52)) : α) ≤ 0 := by
      exact_mod_cast this
    exact mul_nonpos_of_nonpos_of_nonneg h' hp.le

/-- The exponent of the binade of `x`. -/
theorem log_two_abs_eq {α : Type} [LinearOrderedField α] [FloorRing α]
    {x : α} {n : Int} (hlo : (2 : α) ^ n ≤ |x|) (hhi : |x| < (2 : α) ^ (n + 1)) :
    Int.log 2 |x| = n := by
  have hpos : 0 < |x| := lt_of_lt_of_le (by positivity) hlo
  apply le_antisymm
  · have := (Int.lt_zpow_iff_log_lt (b := 2) (by norm_num) hpos (x := n + 1)).mp
      (by simpa using hhi)
    omega
  · exact (Int.zpow_le_iff_le_log (b := 2) (by norm_num) hpos).mp (by simpa using hlo)

/-- Evaluation of the rounding once the binade of `x` is known. -/
theorem roundToDouble_eval {α : Type} [LinearOrderedField α] [FloorRing α]
    (x : α) (e m : Int) (hlo : (2 : α) ^ (e + 52) ≤ |x|)
    (hhi : |x| < (2 : α) ^ (e + 53)) (hm : roundHalfEven (x / (2 : α) ^ e) = m) :
    roundToDouble x = (m : α) * (2 : α) ^ e := by
  have hpos : 0 < |x| := lt_of_lt_of_le (by positivity) hlo
  have hx : x ≠ 0 := abs_pos.mp hpos
  have hlog : Int.log 2 |x| = e + 52 :=
    log_two_abs_eq hlo (by rw [show e + 52 + 1 = e + 53 by ring]; exact hhi)
  unfold roundToDouble
  rw [if_neg hx, hlog, show e + 52 - 52 = e by ring, hm]

/-- Arithmetic of the exponents: `2^52 * 2^(n-52) = 2^n`. -/
theorem two_pow_mul_zpow_sub {α : Type} [LinearOrderedField α]
    (n : Int) :
    (2 : α) ^ 52 * (2 : α) ^ (n - 52) = (2 : α) ^ n := by
  have h : (2 : α) ^ 52 = (2 : α) ^ (52 : Int) := by norm_cast
  rw [h, ← zpow_add₀ (two_ne_zero)]
  congr 1; ring

/-- Arithmetic of the exponents: `2^53 * 2^(n-52) = 2^(n+1)`. -/
theorem two_pow_succ_mul_zpow_sub {α : Type} [LinearOrderedField α]
    (n : Int) :
    (2 : α) ^ 53 * (2 : α) ^ (n - 52) = (2 : α) ^ (n + 1) := by
  have h : (2 : α) ^ 53 = (2 : α) ^ (53 : Int) := by norm_cast
  rw [h, ← zpow_add₀ (two_ne_zero)]
  congr 1; ring

/-- The scaled significand of a non-zero number lies between `2^52` and `2^53`. -/
theorem significand_bounds {α : Type} [LinearOrderedField α] [FloorRing α]
    {x : α} (hx : x ≠ 0) :
    (2 : α) ^ 52 ≤ |x| / (2 : α) ^ (Int.log 2 |x| - 52) ∧
    |x| / (2 : α) ^ (Int.log 2 |x| - 52) ≤ (2 : α) ^ 53 := by
  have hp : (0 : α) < (2 : α) ^ (Int.log 2 |x| - 52) := by positivity
  constructor
  · rw [le_div_iff₀ hp, two_pow_mul_zpow_sub]; exact two_zpow_log_le hx
  · rw [div_le_iff₀ hp, two_pow_succ_mul_zpow_sub]; exact (lt_two_zpow_log_succ x).le

/-- The rounded significand of a positive number lies between `2^52` and `2^53`. -/
theorem roundHalfEven_significand_pos {α : Type} [LinearOrderedField α] [FloorRing α]
    {x : α} (hx : 0 < x) :
    (2 : α) ^ 52 ≤ (roundHalfEven (x / (2 : α) ^ (Int.log 2 |x| - 52)) : α) ∧
    (roundHalfEven (x / (2 : α) ^ (Int.log 2 |x| - 52)) : α) ≤ (2 : α) ^ 53 := by
  obtain ⟨h1, h2⟩ := significand_bounds (ne_of_gt hx)
  have hd : |x| / (2 : α) ^ (Int.log 2 |x| - 52) = x / (2 : α) ^ (Int.log 2 |x| - 52) := by
    congr 1; exact abs_of_pos hx
  rw [hd] at h1 h2
  have e52 : (2 : α) ^ 52 = (((2 ^ 52 : Int) : Int) : α) := by norm_num
  have e53 : (2 : α) ^ 53 = (((2 ^ 53 : Int) : Int) : α) := by norm_num
  rw [e52] at h1
  rw [e53] at h2
  have r1 := roundHalfEven_mono h1
  have r2 := roundHalfEven_mono h2
  rw [roundHalfEven_intCast] at r1 r2
  rw [e52, e53]
  constructor
  · exact_mod_cast r1
  · exact_mod_cast r2

/-- The rounded significand of a negative number lies between `-2^53` and `-2^52`. -/
theorem roundHalfEven_significand_neg {α : Type} [LinearOrderedField α] [FloorRing α]
    {x : α} (hx : x < 0) :
    -(2 : α) ^ 53 ≤ (roundHalfEven (x / (2 : α) ^ (Int.log 2 |x| - 52)) : α) ∧
    (roundHalfEven (x / (2 : α) ^ (Int.log 2 |x| - 52)) : α) ≤ -(2 : α) ^ 52 := by
  obtain ⟨h1, h2⟩ := significand_bounds (ne_of_lt hx)
  have hd : |x| / (2 : α) ^ (Int.log 2 |x| - 52) = -(x / (2 : α) ^ (Int.log 2 |x| - 52)) := by
    rw [← neg_div]; congr 1; exact abs_of_neg hx
  rw [hd] at h1 h2
  have e52 : -(2 : α) ^ 52 = (((-(2 ^ 52) : Int) : Int) : α) := by norm_num
  have e53 : -(2 : α) ^ 53 = (((-(2 ^ 53) : Int) : Int) : α) := by norm_num
  have h1' : x / (2 : α) ^ (Int.log 2 |x| - 52) ≤ (((-(2 ^ 52) : Int) : Int) : α) := by
    rw [← e52]; linarith
  have h2' : (((-(2 ^ 53) : Int) : Int) : α) ≤ x / (2 : α) ^ (Int.log 2 |x| - 52) := by
    rw [← e53]; linarith
  have r1 := roundHalfEven_mono h1'
  have r2 := roundHalfEven_mono h2'
  rw [roundHalfEven_intCast] at r1 r2
  rw [e52, e53]
  constructor
  · exact_mod_cast r2
  · exact_mod_cast r1

/-- Rounding is monotone. -/
theorem roundToDouble_mono {α : Type} [LinearOrderedField α] [FloorRing α]
    {x y : α} (h : x ≤ y) : roundToDouble x ≤ roundToDouble y := by
  rcases le_or_lt x 0 with hx0 | hx0
  · rcases le_or_lt 0 y with hy0 | hy0
    · exact le_trans (roundToDouble_nonpos hx0) (roundToDouble_nonneg hy0)
    · have hxneg : x < 0 := lt_of_le_of_lt h hy0
      have hxne : x ≠ 0 := ne_of_lt hxneg
      have hyne : y ≠ 0 := ne_of_lt hy0
      have habs : |y| ≤ |x| := by
        rw [abs_of_neg hxneg, abs_of_neg hy0]; linarith
      have hlog : Int.log 2 |y| ≤ Int.log 2 |x| :=
        Int.log_mono_right (abs_pos.mpr hyne) habs
      unfold roundToDouble
      rw [if_neg hxne, if_neg hyne]
      rcases eq_or_lt_of_le hlog with heq | hlt
      · rw [heq]
        have hp : (0 : α) < (2 : α) ^ (Int.log 2 |x| - 52) := by positivity
        have := roundHalfEven_mono (div_le_div_of_nonneg_right h hp.le)
        have h' : (roundHalfEven (x / (2 : α) ^ (Int.log 2 |x| - 52)) : α)
            ≤ (roundHalfEven (y / (2 : α) ^ (Int.log 2 |x| - 52)) : α) := by exact_mod_cast this
        exact mul_le_mul_of_nonneg_right h' hp.le
      · have hpx : (0 : α) < (2 : α) ^ (Int.log 2 |x| - 52) := by positivity
        have hpy : (0 : α) < (2 : α) ^ (Int.log 2 |y| - 52) := by positivity
        have hrx := (roundHalfEven_significand_neg hxneg).2
        have hry := (roundHalfEven_significand_neg hy0).1
        have hstep : (2 : α) ^ (Int.log 2 |y| + 1) ≤ (2 : α) ^ (Int.log 2 |x|) :=
          zpow_le_zpow_right₀ (by norm_num) (by omega)
        calc (roundHalfEven (x / (2 : α) ^ (Int.log 2 |x| - 52)) : α)
                * (2 : α) ^ (Int.log 2 |x| - 52)
            ≤ -(2 : α) ^ 52 * (2 : α) ^ (Int.log 2 |x| - 52) :=
              mul_le_mul_of_nonneg_right hrx hpx.le
          _ = -(2 : α) ^ (Int.log 2 |x|) := by rw [neg_mul, two_pow_mul_zpow_sub]
          _ ≤ -(2 : α) ^ (Int.log 2 |y| + 1) := by linarith
          _ = -(2 : α) ^ 53 * (2 : α) ^ (Int.log 2 |y| - 52) := by
              rw [neg_mul, two_pow_succ_mul_zpow_sub]
          _ ≤ _ := mul_le_mul_of_nonneg_right hry hpy.le
  · have hy0 : 0 < y := lt_of_lt_of_le hx0 h
    have hxne : x ≠ 0 := ne_of_gt hx0
    have hyne : y ≠ 0 := ne_of_gt hy0
    have habs : |x| ≤ |y| := by
      rw [abs_of_pos hx0, abs_of_pos hy0]; exact h
    have hlog : Int.log 2 |x| ≤ Int.log 2 |y| :=
      Int.log_mono_right (abs_pos.mpr hxne) habs
    unfold roundToDouble
    rw [if_neg hxne, if_neg hyne]
    rcases eq_or_lt_of_le hlog with heq | hlt
    · rw [heq]
      have hp : (0 : α) < (2 : α) ^ (Int.log 2 |y| - 52) := by positivity
      have := roundHalfEven_mono (div_le_div_of_nonneg_right h hp.le)
      have h' : (roundHalfEven (x / (2 : α) ^ (Int.log 2 |y| - 52)) : α)
          ≤ (roundHalfEven (y / (2 : α) ^ (Int.log 2 |y| - 52)) : α) := by exact_mod_cast this
      exact mul_le_mul_of_nonneg_right h' hp.le
    · have hpx : (0 : α) < (2 : α) ^ (Int.log 2 |x| - 52) := by positivity
      have hpy : (0 : α) < (2 : α) ^ (Int.log 2 |y| - 52) := by positivity
      have hrx := (roundHalfEven_significand_pos hx0).2
      have hry := (roundHalfEven_significand_pos hy0).1
      have hstep : (2 : α) ^ (Int.log 2 |x| + 1) ≤ (2 : α) ^ (Int.log 2 |y|) :=
        zpow_le_zpow_right₀ (by norm_num) (by omega)
      calc (roundHalfEven (x / (2 : α) ^ (Int.log 2 |x| - 52)) : α)
              * (2 : α) ^ (Int.log 2 |x| - 52)
          ≤ (2 : α) ^ 53 * (2 : α) ^ (Int.log 2 |x| - 52) :=
            mul_le_mul_of_nonneg_right hrx hpx.le
        _ = (2 : α) ^ (Int.log 2 |x| + 1) := two_pow_succ_mul_zpow_sub _
        _ ≤ (2 : α) ^ (Int.log 2 |y|) := hstep
        _ = (2 : α) ^ 52 * (2 : α) ^ (Int.log 2 |y| - 52) := (two_pow_mul_zpow_sub _).symm
        _ ≤ _ := mul_le_mul_of_nonneg_right hry hpy.le

/-! ## `checkParameters` -/

/-- The strategy is settled by `resolveMultiAlgorithm`; the RAM admission that
follows leaves it alone. -/
theorem SexySolver.checkParameters_multiAlgorithm (env : Env) (s : SexySolver) :
    (s.checkParameters env).2.params.multiAlgorithm
      = s.resolveMultiAlgorithm.params.multiAlgorithm := by
  unfold SexySolver.checkParameters SexySolver.enoughRAMisAvailableFor
  simp only
  split
  · split <;> split <;> simp
  · rfl

/-- C1: when `multiAlgorithm` is `MULTI_AUTO` on entry, `checkParameters` resolves it
by the table: no hint gives `MULTI_SCALES`, a position hint alone gives
`MULTI_SCALES`, a scale hint alone gives `MULTI_DEPTHS`, both hints give
`NOT_MULTI`. -/
theorem checkParameters_resolves_multiAuto (env : Env) (s : SexySolver)
    (hauto : s.params.multiAlgorithm = MultiAlgo.MULTI_AUTO) :
    (s.checkParameters env).2.params.multiAlgorithm =
      (match s.use_scale, s.use_position with
       | false, false => MultiAlgo.MULTI_SCALES
       | false, true => MultiAlgo.MULTI_SCALES
       | true, false => MultiAlgo.MULTI_DEPTHS
       | true, true => MultiAlgo.NOT_MULTI) := by
  rw [SexySolver.checkParameters_multiAlgorithm]
  unfold SexySolver.resolveMultiAlgorithm
  rw [if_pos hauto]
  cases s.use_scale <;> cases s.use_position <;> simp

/-- Scenario E3: with a scale hint and a position hint `MULTI_AUTO` becomes
`NOT_MULTI`. -/
theorem checkParameters_resolves_multiAuto_witness :
    demoHinted.params.multiAlgorithm = MultiAlgo.MULTI_AUTO ∧
      (demoHinted.checkParameters demoEnv).2.params.multiAlgorithm = MultiAlgo.NOT_MULTI :=
  ⟨by decide, checkParameters_resolves_multiAuto demoEnv demoHinted (by decide)⟩

/-- C7: RAM admission.  If `inParallel` is set on entry and the total size of the
index files exceeds the installed RAM, `inParallel` is false on exit. -/
theorem checkParameters_ram_admission (env : Env) (s : SexySolver)
    (hpar : s.params.inParallel = true)
    (htotal : env.availableRAM < totalIndexSize env s.indexFolderPaths) :
    (s.checkParameters env).2.params.inParallel = false := by
  have hres : s.resolveMultiAlgorithm.params.inParallel = true := by
    unfold SexySolver.resolveMultiAlgorithm
    split
    · split
      · exact hpar
      · split
        · exact hpar
        · split <;> exact hpar
    · exact hpar
  have hidx : s.resolveMultiAlgorithm.indexFolderPaths = s.indexFolderPaths := by
    unfold SexySolver.resolveMultiAlgorithm
    split
    · split
      · rfl
      · split
        · rfl
        · split <;> rfl
    · rfl
  unfold SexySolver.checkParameters
  simp only [hres, if_true]
  unfold SexySolver.enoughRAMisAvailableFor
  simp only [hidx]
  by_cases h0 : env.availableRAM = 0
  · simp [h0]
  · have hle : ¬ env.availableRAM > totalIndexSize env s.indexFolderPaths := by omega
    simp [h0, hle]

/-- Scenario E4: an index folder of 8 GB against 4 GB of RAM switches
`inParallel` off. -/
theorem checkParameters_ram_admission_witness :
    demoSolver.params.inParallel = true ∧
      demoEnv.availableRAM < totalIndexSize demoEnv demoSolver.indexFolderPaths ∧
      (demoSolver.checkParameters demoEnv).2.params.inParallel = false :=
  ⟨by decide, by decide,
    checkParameters_ram_admission demoEnv demoSolver (by decide) (by decide)⟩

/-! ## The `MULTI_SCALES` loop -/

/-- The loop appends to `parallelSolvers` one child per value of the counter
from `thread` up to `threads - 1`, in order. -/
theorem SexySolver.scalesLoop_parallelSolvers (env : Env) (threads : Int)
    (minScale scaleConst : ℚ) (units : ScaleUnits) (d : Nat) :
    ∀ (thread : Nat) (s : SexySolver), (threads - thread).toNat = d →
      (s.scalesLoop env threads minScale scaleConst units thread).parallelSolvers
        = s.parallelSolvers ++ (List.range' thread d).map (fun i : Nat =>
            ((env.spawnChildSolver i).connectFinished).setSearchScale
              (minScale + scaleConst * (i : ℚ) ^ 2)
              (minScale + scaleConst * ((i : ℚ) + 1) ^ 2) units) := by
  induction d with
  | zero =>
    intro thread s hd
    have hlt : ¬ ((thread : Int) < threads) := by omega
    rw [SexySolver.scalesLoop, if_neg hlt]
    simp
  | succ d ih =>
    intro thread s hd
    have hlt : (thread : Int) < threads := by omega
    rw [SexySolver.scalesLoop, if_pos hlt]
    simp only
    rw [ih (thread + 1) _ (by push_cast; omega)]
    simp [List.range'_succ]

/-- The children of the `MULTI_SCALES` branch, as a list. -/
theorem SexySolver.parallelSolve_multiScales_list (env : Env) (s : SexySolver) (T : Nat)
    (hthreads : env.idealThreadCount = T)
    (hmulti : s.params.multiAlgorithm = MultiAlgo.MULTI_SCALES)
    (hproc : s.processType = ProcessType.SEXYSOLVER ∨
      s.processType = ProcessType.EXT_SEXTRACTORSOLVER ∨
      s.processType = ProcessType.INT_SEP_EXT_SOLVER) :
    (s.parallelSolve env).parallelSolvers
      = (List.range' 0 T).map (fun i : Nat =>
          (((env.spawnChildSolver i).connectFinished).setSearchScale
            (s.minScale + (s.maxScale - s.minScale) / (T : ℚ) ^ 2 * (i : ℚ) ^ 2)
            (s.minScale + (s.maxScale - s.minScale) / (T : ℚ) ^ 2 * ((i : ℚ) + 1) ^ 2)
            s.units).startProcess) := by
  have hguard : ¬ (s.params.multiAlgorithm = MultiAlgo.NOT_MULTI ∨
      ¬ (s.processType = ProcessType.SEXYSOLVER ∨
         s.processType = ProcessType.EXT_SEXTRACTORSOLVER ∨
         s.processType = ProcessType.INT_SEP_EXT_SOLVER)) := by
    rw [hmulti]; simp [hproc]
  unfold SexySolver.parallelSolve
  rw [if_neg hguard]
  simp only [hmulti, if_true]
  rw [SexySolver.scalesLoop_parallelSolvers env _ _ _ _ T 0 _ (by rw [hthreads]; simp)]
  simp [hthreads, SexySolver.minScale, SexySolver.maxScale, SexySolver.units, Function.comp_def]

/-- C2: in the `MULTI_SCALES` branch with `T = idealThreadCount() ≥ 1`, exactly `T`
children are created, and the child at position `i` is `spawnChildSolver(i)`
given the search scale `[minScale + k*i^2, minScale + k*(i+1)^2]` in the unit
`units`, with `k = (maxScale - minScale)/T^2`; `(minScale, maxScale, units)` is
the scale hint when one is set and `(minwidth, maxwidth, DEG_WIDTH)` otherwise. -/
theorem parallelSolve_multiScales_children (env : Env) (s : SexySolver) (T : Nat)
    (hT : 1 ≤ T) (hthreads : env.idealThreadCount = T)
    (hmulti : s.params.multiAlgorithm = MultiAlgo.MULTI_SCALES)
    (hproc : s.processType = ProcessType.SEXYSOLVER ∨
      s.processType = ProcessType.EXT_SEXTRACTORSOLVER ∨
      s.processType = ProcessType.INT_SEP_EXT_SOLVER) :
    (s.parallelSolve env).parallelSolvers.length = T ∧
    (s.minScale = (if s.use_scale then s.scalelo else s.params.minwidth) ∧
     s.maxScale = (if s.use_scale then s.scalehi else s.params.maxwidth) ∧
     s.units = (if s.use_scale then s.scaleunit else ScaleUnits.DEG_WIDTH)) ∧
    ∀ i : Nat, i < T →
      ∃ c : ChildSolver, (s.parallelSolve env).parallelSolvers[i]? = some c ∧
        c = (((env.spawnChildSolver i).connectFinished).setSearchScale
              (s.minScale + (s.maxScale - s.minScale) / (T : ℚ) ^ 2 * (i : ℚ) ^ 2)
              (s.minScale + (s.maxScale - s.minScale) / (T : ℚ) ^ 2 * ((i : ℚ) + 1) ^ 2)
              s.units).startProcess ∧
        c.use_scale = true ∧
        c.scalelo = s.minScale + (s.maxScale - s.minScale) / (T : ℚ) ^ 2 * (i : ℚ) ^ 2 ∧
        c.scalehi = s.minScale + (s.maxScale - s.minScale) / (T : ℚ) ^ 2 * ((i : ℚ) + 1) ^ 2 ∧
        c.scaleunit = s.units := by
  have hlist := SexySolver.parallelSolve_multiScales_list env s T hthreads hmulti hproc
  have _ := hT
  refine ⟨by rw [hlist]; simp, ⟨rfl, rfl, rfl⟩, ?_⟩
  intro i hi
  refine ⟨_, ?_, rfl, rfl, rfl, rfl, rfl⟩
  rw [hlist, List.getElem?_map, List.getElem?_range' 0 1 hi]
  simp

/-- Position `i` of the `MULTI_SCALES` children holds the slice
`[minScale + k*i^2, minScale + k*(i+1)^2]`. -/
theorem SexySolver.parallelSolve_multiScales_getElem (env : Env) (s : SexySolver) (T : Nat)
    (hthreads : env.idealThreadCount = T)
    (hmulti : s.params.multiAlgorithm = MultiAlgo.MULTI_SCALES)
    (hproc : s.processType = ProcessType.SEXYSOLVER ∨
      s.processType = ProcessType.EXT_SEXTRACTORSOLVER ∨
      s.processType = ProcessType.INT_SEP_EXT_SOLVER)
    (i : Nat) (c : ChildSolver)
    (hc : (s.parallelSolve env).parallelSolvers[i]? = some c) :
    i < T ∧
      c.scalelo = s.minScale + (s.maxScale - s.minScale) / (T : ℚ) ^ 2 * (i : ℚ) ^ 2 ∧
      c.scalehi = s.minScale + (s.maxScale - s.minScale) / (T : ℚ) ^ 2 * ((i : ℚ) + 1) ^ 2 := by
  rw [SexySolver.parallelSolve_multiScales_list env s T hthreads hmulti hproc,
    List.getElem?_map] at hc
  by_cases hi : i < T
  · rw [List.getElem?_range' 0 1 hi] at hc
    simp only [Option.map_some', Option.some.injEq] at hc
    subst hc
    refine ⟨hi, ?_, ?_⟩ <;> simp [ChildSolver.startProcess, ChildSolver.setSearchScale]
  · rw [List.getElem?_eq_none (by simp; omega)] at hc
    simp at hc

/-! ## What `checkParameters` leaves alone -/

theorem SexySolver.log_frame (s : SexySolver) (m : LogMsg) :
    ∃ l : List LogMsg, s.log m = { s with logOutput := l } := by
  unfold SexySolver.log
  split_ifs <;> exact ⟨_, rfl⟩

theorem SexySolver.resolveMultiAlgorithm_frame (s : SexySolver) :
    ∃ m : MultiAlgo,
      s.resolveMultiAlgorithm = { s with params := { s.params with multiAlgorithm := m } } := by
  unfold SexySolver.resolveMultiAlgorithm
  split_ifs <;> exact ⟨_, rfl⟩

theorem SexySolver.enoughRAMisAvailableFor_frame (env : Env) (folders : List String)
    (s : SexySolver) :
    ∃ l : List LogMsg, (s.enoughRAMisAvailableFor env folders).2 = { s with logOutput := l } := by
  unfold SexySolver.enoughRAMisAvailableFor
  simp only
  split_ifs
  · exact SexySolver.log_frame _ _
  · exact SexySolver.log_frame _ _

/-- Apart from `params.multiAlgorithm`, `params.inParallel` and the log,
`checkParameters` returns the state it was given. -/
theorem SexySolver.checkParameters_frame (env : Env) (s : SexySolver) :
    ∃ (m : MultiAlgo) (p : Bool) (l : List LogMsg),
      (s.checkParameters env).2 =
        { s with params := { s.params with multiAlgorithm := m, inParallel := p },
                 logOutput := l } := by
  obtain ⟨m, hm⟩ := SexySolver.resolveMultiAlgorithm_frame s
  unfold SexySolver.checkParameters
  simp only
  generalize s.resolveMultiAlgorithm = s1 at hm
  obtain ⟨l1, h1⟩ := SexySolver.enoughRAMisAvailableFor_frame env s1.indexFolderPaths s1
  generalize s1.enoughRAMisAvailableFor env s1.indexFolderPaths = r at h1
  split_ifs
  · obtain ⟨l2, h2⟩ := SexySolver.log_frame r.2 LogMsg.enoughRAM
    refine ⟨m, s.params.inParallel, l2, ?_⟩
    rw [h2, h1, hm]
  · obtain ⟨l2, h2⟩ := SexySolver.log_frame r.2 LogMsg.notEnoughRAM
    obtain ⟨l3, h3⟩ := SexySolver.log_frame (r.2.log LogMsg.notEnoughRAM)
      LogMsg.disablingInParallel
    refine ⟨m, false, l3, ?_⟩
    rw [h3, h2, h1, hm]
  · exact ⟨m, s.params.inParallel, s.logOutput, by rw [hm]⟩

/-! ## Scenario E2 -/

/-- With `MULTI_AUTO`, no hints, four threads, `minwidth = 1` and
`maxwidth = 10`, `checkParameters` followed by `parallelSolve` produces four
children with the slices below. -/
theorem SexySolver.scenarioE2_slices (env : Env) (s : SexySolver)
    (hthreads : env.idealThreadCount = 4)
    (hauto : s.params.multiAlgorithm = MultiAlgo.MULTI_AUTO)
    (hscale : s.use_scale = false) (hpos : s.use_position = false)
    (hmin : s.params.minwidth = 1) (hmax : s.params.maxwidth = 10)
    (hproc : s.processType = ProcessType.SEXYSOLVER ∨
      s.processType = ProcessType.EXT_SEXTRACTORSOLVER ∨
      s.processType = ProcessType.INT_SEP_EXT_SOLVER) :
    (s.checkParameters env).2.params.multiAlgorithm = MultiAlgo.MULTI_SCALES ∧
    (((s.checkParameters env).2).parallelSolve env).parallelSolvers.map
        (fun c => (c.scalelo, c.scalehi, c.scaleunit))
      = [(1, 1.5625, ScaleUnits.DEG_WIDTH), (1.5625, 3.25, ScaleUnits.DEG_WIDTH),
         (3.25, 6.0625, ScaleUnits.DEG_WIDTH), (6.0625, 10, ScaleUnits.DEG_WIDTH)] := by
  have hres : (s.checkParameters env).2.params.multiAlgorithm = MultiAlgo.MULTI_SCALES := by
    rw [SexySolver.checkParameters_multiAlgorithm]
    unfold SexySolver.resolveMultiAlgorithm
    simp [hauto, hscale, hpos]
  obtain ⟨m, p, l, hframe⟩ := SexySolver.checkParameters_frame env s
  refine ⟨hres, ?_⟩
  generalize (s.checkParameters env).2 = s2 at hres hframe
  have hproc2 : s2.processType = ProcessType.SEXYSOLVER ∨
      s2.processType = ProcessType.EXT_SEXTRACTORSOLVER ∨
      s2.processType = ProcessType.INT_SEP_EXT_SOLVER := by
    rw [hframe]; exact hproc
  have hmin2 : s2.minScale = 1 := by
    rw [hframe]; simp [SexySolver.minScale, hscale, hmin]
  have hmax2 : s2.maxScale = 10 := by
    rw [hframe]; simp [SexySolver.maxScale, hscale, hmax]
  have hunits2 : s2.units = ScaleUnits.DEG_WIDTH := by
    rw [hframe]; simp [SexySolver.units, hscale]
  rw [SexySolver.parallelSolve_multiScales_list env s2 4 (by rw [hthreads]; rfl) hres hproc2,
    hmin2, hmax2, hunits2]
  have hrange : List.range' 0 4 = [0, 1, 2, 3] := rfl
  rw [hrange]
  simp [ChildSolver.startProcess, ChildSolver.setSearchScale]
  norm_num

/-- C2 at four threads: four children are created. -/
theorem parallelSolve_multiScales_children_witness :
    (demoScales.parallelSolve demoEnv).parallelSolvers.length = 4 :=
  (parallelSolve_multiScales_children demoEnv demoScales 4 (by decide) (by decide)
    (by decide) (by decide)).1

/-! ## The `MULTI_DEPTHS` loop -/

/-- The loop appends to `parallelSolvers` one child per value
`i, i + inc, i + 2*inc, ...` of the counter below `sourceNum`, in order. -/
theorem SexySolver.depthsLoop_parallelSolvers (env : Env) (sourceNum inc : Int)
    (hinc : 0 < inc) (n : Nat) :
    ∀ (i : Int) (s : SexySolver), (sourceNum - i).toNat ≤ n →
      ∃ rest : List ChildSolver,
        (s.depthsLoop env sourceNum inc hinc i).parallelSolvers = s.parallelSolvers ++ rest ∧
        ∀ j : Nat, rest[j]? =
          if i + j * inc < sourceNum then
            some { (env.spawnChildSolver (i + j * inc)).connectFinished with
                    depthlo := i + j * inc, depthhi := i + j * inc + inc }
          else none := by
  induction n with
  | zero =>
    intro i s hn
    have hlt : ¬ (i < sourceNum) := by omega
    rw [SexySolver.depthsLoop, if_neg hlt]
    refine ⟨[], by simp, ?_⟩
    intro j
    have hj : ¬ (i + j * inc < sourceNum) := by
      have : 0 ≤ (j : Int) * inc := by positivity
      omega
    simp [hj]
  | succ n ih =>
    intro i s hn
    by_cases hlt : i < sourceNum
    · rw [SexySolver.depthsLoop, if_pos hlt]
      simp only
      obtain ⟨rest, hrest, hget⟩ := ih (i + inc)
        (({ s with parallelSolvers := s.parallelSolvers ++
            [{ (env.spawnChildSolver i).connectFinished with
                depthlo := i, depthhi := i + inc }] } : SexySolver).log
          (LogMsg.depthSolver (s.parallelSolvers ++
            [{ (env.spawnChildSolver i).connectFinished with
                depthlo := i, depthhi := i + inc }]).length i (i + inc)))
        (by omega)
      refine ⟨{ (env.spawnChildSolver i).connectFinished with
                depthlo := i, depthhi := i + inc } :: rest, ?_, ?_⟩
      · rw [hrest]; simp
      · intro j
        cases j with
        | zero => simp [hlt]
        | succ j =>
          rw [List.getElem?_cons_succ, hget j]
          have e : i + inc + (j : Int) * inc = i + ((j + 1 : Nat) : Int) * inc := by
            push_cast; ring
          rw [e]
    · rw [SexySolver.depthsLoop, if_neg hlt]
      refine ⟨[], by simp, ?_⟩
      intro j
      have hj : ¬ (i + j * inc < sourceNum) := by
        have : 0 ≤ (j : Int) * inc := by positivity
        omega
      simp [hj]

/-- The step of the `MULTI_DEPTHS` branch is at least 10. -/
theorem depthInc_ge_ten (sourceNum threads : Int) : 10 ≤ depthInc sourceNum threads := by
  unfold depthInc
  split <;> omega

/-- The children of the `MULTI_DEPTHS` branch, position by position. -/
theorem SexySolver.parallelSolve_multiDepths_getElem (env : Env) (s : SexySolver)
    (hmulti : s.params.multiAlgorithm = MultiAlgo.MULTI_DEPTHS)
    (hproc : s.processType = ProcessType.SEXYSOLVER ∨
      s.processType = ProcessType.EXT_SEXTRACTORSOLVER ∨
      s.processType = ProcessType.INT_SEP_EXT_SOLVER) (j : Nat) :
    (s.parallelSolve env).parallelSolvers[j]? =
      if 1 + j * depthInc (depthSourceNum s.params.keepNum) env.idealThreadCount
          < depthSourceNum s.params.keepNum then
        some ({ (env.spawnChildSolver
                  (1 + j * depthInc (depthSourceNum s.params.keepNum)
                    env.idealThreadCount)).connectFinished with
                depthlo := 1 + j * depthInc (depthSourceNum s.params.keepNum)
                  env.idealThreadCount,
                depthhi := 1 + j * depthInc (depthSourceNum s.params.keepNum)
                  env.idealThreadCount
                  + depthInc (depthSourceNum s.params.keepNum)
                    env.idealThreadCount } : ChildSolver).startProcess
      else none := by
  have hguard : ¬ (s.params.multiAlgorithm = MultiAlgo.NOT_MULTI ∨
      ¬ (s.processType = ProcessType.SEXYSOLVER ∨
         s.processType = ProcessType.EXT_SEXTRACTORSOLVER ∨
         s.processType = ProcessType.INT_SEP_EXT_SOLVER)) := by
    rw [hmulti]; simp [hproc]
  have hns : ¬ (MultiAlgo.MULTI_DEPTHS = MultiAlgo.MULTI_SCALES) := by decide
  unfold SexySolver.parallelSolve
  rw [if_neg hguard]
  simp only [hmulti, hns, if_false, if_true]
  obtain ⟨rest, hrest, hget⟩ := SexySolver.depthsLoop_parallelSolvers env
    (depthSourceNum s.params.keepNum)
    (depthInc (depthSourceNum s.params.keepNum) env.idealThreadCount)
    (lt_of_lt_of_le (by norm_num) (depthInc_ge_ten _ _)) _ 1
    (({ s with parallelSolvers := [], parallelFails := 0 } : SexySolver).log
      (LogMsg.startingDepthThreads (Int.tdiv (depthSourceNum s.params.keepNum)
        (depthInc (depthSourceNum s.params.keepNum) env.idealThreadCount))))
    (le_refl _)
  rw [hrest, List.getElem?_map]
  simp only [SexySolver.log_parallelSolvers, List.nil_append]
  rw [hget j]
  split <;> rfl

/-- When no `i + inc` computed by the loop exceeds the largest `int`, every
`depthlo` and `depthhi` of the `MULTI_DEPTHS` children is an `int` value. -/
theorem SexySolver.parallelSolve_multiDepths_int_range (env : Env) (s : SexySolver)
    (hmulti : s.params.multiAlgorithm = MultiAlgo.MULTI_DEPTHS)
    (hproc : s.processType = ProcessType.SEXYSOLVER ∨
      s.processType = ProcessType.EXT_SEXTRACTORSOLVER ∨
      s.processType = ProcessType.INT_SEP_EXT_SOLVER)
    (hint : ∀ j : Nat,
      1 + (j : Int) * depthInc (depthSourceNum s.params.keepNum) env.idealThreadCount
          < depthSourceNum s.params.keepNum →
      1 + (j : Int) * depthInc (depthSourceNum s.params.keepNum) env.idealThreadCount
          + depthInc (depthSourceNum s.params.keepNum) env.idealThreadCount ≤ 2147483647) :
    ∀ c ∈ (s.parallelSolve env).parallelSolvers,
      1 ≤ c.depthlo ∧ c.depthlo ≤ 2147483647 ∧ 1 ≤ c.depthhi ∧ c.depthhi ≤ 2147483647 := by
  intro c hc
  obtain ⟨j, hj⟩ := List.mem_iff_getElem?.mp hc
  rw [SexySolver.parallelSolve_multiDepths_getElem env s hmulti hproc j] at hj
  have hinc := depthInc_ge_ten (depthSourceNum s.params.keepNum) env.idealThreadCount
  split at hj
  · rename_i hlt
    have hb := hint j hlt
    simp only [Option.some.injEq] at hj
    subst hj
    simp only [ChildSolver.startProcess]
    have h0 : 0 ≤ (j : Int) * depthInc (depthSourceNum s.params.keepNum) env.idealThreadCount := by
      positivity
    refine ⟨?_, ?_, ?_, ?_⟩ <;> omega
  · simp at hj

/-- C5, amended: in the `MULTI_DEPTHS` branch, for every `int` value `keepNum`
and every `T ≥ 1` such that no `i + inc` computed by the loop exceeds the
largest `int` (2147483647), `sourceNum` is `keepNum` when `keepNum` is not 0
(negative values included) and 200 otherwise, `inc = max(10, sourceNum / T)`
with the truncating division of C++, and the children are exactly, in order,
one per `i = 1, 1+inc, 1+2*inc, ...` with `i ≤ sourceNum - 1`, each being
`spawnChildSolver(i)` with `depthlo = i` and `depthhi = i + inc`, both `int`
values. -/
theorem parallelSolve_multiDepths_children (env : Env) (s : SexySolver) (T : Nat)
    (hT : 1 ≤ T) (hthreads : env.idealThreadCount = T)
    (hmulti : s.params.multiAlgorithm = MultiAlgo.MULTI_DEPTHS)
    (hproc : s.processType = ProcessType.SEXYSOLVER ∨
      s.processType = ProcessType.EXT_SEXTRACTORSOLVER ∨
      s.processType = ProcessType.INT_SEP_EXT_SOLVER)
    (hkeep : -2147483648 ≤ s.params.keepNum ∧ s.params.keepNum ≤ 2147483647)
    (hint : ∀ j : Nat,
      1 + (j : Int) * depthInc (depthSourceNum s.params.keepNum) T
          < depthSourceNum s.params.keepNum →
      1 + (j : Int) * depthInc (depthSourceNum s.params.keepNum) T
          + depthInc (depthSourceNum s.params.keepNum) T ≤ 2147483647) :
    ∃ sourceNum inc : Int,
      sourceNum = (if s.params.keepNum ≠ 0 then s.params.keepNum else 200) ∧
      inc = max 10 (Int.tdiv sourceNum T) ∧
      ∀ j : Nat,
        (1 + j * inc ≤ sourceNum - 1 →
          ∃ c : ChildSolver, (s.parallelSolve env).parallelSolvers[j]? = some c ∧
            c = ({ (env.spawnChildSolver (1 + j * inc)).connectFinished with
                    depthlo := 1 + j * inc,
                    depthhi := 1 + j * inc + inc } : ChildSolver).startProcess ∧
            c.depthlo = 1 + j * inc ∧ c.depthhi = 1 + j * inc + inc ∧
            1 ≤ c.depthlo ∧ c.depthhi ≤ 2147483647) ∧
        (¬ (1 + j * inc ≤ sourceNum - 1) → (s.parallelSolve env).parallelSolvers[j]? = none) := by
  have _ := hT
  have _ := hkeep
  rw [← hthreads] at hint
  have hrange := SexySolver.parallelSolve_multiDepths_int_range env s hmulti hproc hint
  refine ⟨depthSourceNum s.params.keepNum,
    depthInc (depthSourceNum s.params.keepNum) env.idealThreadCount, rfl, ?_, ?_⟩
  · rw [hthreads]
    unfold depthInc
    split <;> omega
  · intro j
    have hget := SexySolver.parallelSolve_multiDepths_getElem env s hmulti hproc j
    constructor
    · intro hle
      rw [if_pos (by omega)] at hget
      obtain ⟨h1, _, _, h4⟩ := hrange _ (List.getElem?_mem hget)
      exact ⟨_, hget, rfl, rfl, rfl, h1, h4⟩
    · intro hle
      rw [if_neg (by omega)] at hget
      exact hget

/-- The amended C5 at `keepNum = 50` and four threads (`inc = 12`): the third
child has the depth window `[25, 37]`. -/
theorem parallelSolve_multiDepths_children_witness :
    ∃ c : ChildSolver, (demoDepths.parallelSolve demoEnv).parallelSolvers[2]? = some c ∧
      c.depthlo = 25 ∧ c.depthhi = 37 := by
  have hS : depthSourceNum demoDepths.params.keepNum = 50 := by decide
  have hI : depthInc 50 ((4 : Nat) : Int) = 12 := by decide
  obtain ⟨sourceNum, inc, h1, h2, h3⟩ :=
    parallelSolve_multiDepths_children demoEnv demoDepths 4 (by decide) (by decide)
      (by decide) (by decide) (by decide)
      (by intro j h; rw [hS, hI] at h ⊢; omega)
  have hs : sourceNum = 50 := by rw [h1]; decide
  have hi : inc = 12 := by rw [h2, hs]; decide
  subst hs hi
  obtain ⟨c, hc, _, hlo, hhi, _⟩ := (h3 2).1 (by decide)
  exact ⟨c, hc, by rw [hlo]; decide, by rw [hhi]; decide⟩

/-- C5 as stated fails at `keepNum = -5` with four threads: `keepNum > 0` does not
hold, so the claim takes `sourceNum = 200`, `inc = 50` and the four children
`[1,51]`, `[51,101]`, `[101,151]`, `[151,201]`; the code takes
`sourceNum = -5` and creates no child. -/
theorem parallelSolve_multiDepths_positive_keepNum_counterexample :
    ¬ (0 < demoNegativeKeep.params.keepNum) ∧
    (demoNegativeKeep.parallelSolve demoEnv).parallelSolvers = [] ∧
    (demoNegativeKeep.parallelSolve demoEnv).parallelSolvers.map
        (fun c => (c.depthlo, c.depthhi))
      ≠ [(1, 51), (51, 101), (101, 151), (151, 201)] := by
  have h0 := SexySolver.parallelSolve_multiDepths_getElem demoEnv demoNegativeKeep
    (by decide) (by decide) 0
  rw [if_neg (by decide)] at h0
  have hnil : (demoNegativeKeep.parallelSolve demoEnv).parallelSolvers = [] := by
    cases hl : (demoNegativeKeep.parallelSolve demoEnv).parallelSolvers with
    | nil => rfl
    | cons a l => rw [hl] at h0; simp at h0
  refine ⟨by decide, hnil, ?_⟩
  rw [hnil]
  simp

/-- C6, amended: for every `int` value `keepNum` and every `T ≥ 1` such that no
`i + inc` computed by the loop exceeds the largest `int` (2147483647), the
step of the `MULTI_DEPTHS` branch is at least 10, consecutive children are
contiguous (`depthhi` of one is `depthlo` of the next), every `depthlo` and
`depthhi` is an `int` value, and when `sourceNum` is not 1 every depth `d`
with `1 ≤ d ≤ sourceNum` lies in the window of some child; when
`sourceNum ≤ 1` no child is created. -/
theorem multiDepths_children_cover (env : Env) (s : SexySolver) (T : Nat)
    (hT : 1 ≤ T) (hthreads : env.idealThreadCount = T)
    (hmulti : s.params.multiAlgorithm = MultiAlgo.MULTI_DEPTHS)
    (hproc : s.processType = ProcessType.SEXYSOLVER ∨
      s.processType = ProcessType.EXT_SEXTRACTORSOLVER ∨
      s.processType = ProcessType.INT_SEP_EXT_SOLVER)
    (hkeep : -2147483648 ≤ s.params.keepNum ∧ s.params.keepNum ≤ 2147483647)
    (hint : ∀ j : Nat,
      1 + (j : Int) * depthInc (depthSourceNum s.params.keepNum) T
          < depthSourceNum s.params.keepNum →
      1 + (j : Int) * depthInc (depthSourceNum s.params.keepNum) T
          + depthInc (depthSourceNum s.params.keepNum) T ≤ 2147483647) :
    10 ≤ depthInc (depthSourceNum s.params.keepNum) T ∧
    (∀ (j : Nat) (c d : ChildSolver),
      (s.parallelSolve env).parallelSolvers[j]? = some c →
      (s.parallelSolve env).parallelSolvers[j + 1]? = some d → c.depthhi = d.depthlo) ∧
    (∀ c ∈ (s.parallelSolve env).parallelSolvers,
      1 ≤ c.depthlo ∧ c.depthlo ≤ 2147483647 ∧ 1 ≤ c.depthhi ∧ c.depthhi ≤ 2147483647) ∧
    (depthSourceNum s.params.keepNum ≠ 1 →
      ∀ d : Int, 1 ≤ d → d ≤ depthSourceNum s.params.keepNum →
        ∃ c ∈ (s.parallelSolve env).parallelSolvers, c.depthlo ≤ d ∧ d ≤ c.depthhi) ∧
    (depthSourceNum s.params.keepNum ≤ 1 → (s.parallelSolve env).parallelSolvers = []) := by
  have _ := hT
  have _ := hkeep
  have hrange := SexySolver.parallelSolve_multiDepths_int_range env s hmulti hproc
    (by rw [hthreads]; exact hint)
  have hget := SexySolver.parallelSolve_multiDepths_getElem env s hmulti hproc
  rw [hthreads] at hget
  have hinc := depthInc_ge_ten (depthSourceNum s.params.keepNum) T
  clear hint
  generalize depthInc (depthSourceNum s.params.keepNum) T = inc at hget hinc
  generalize depthSourceNum s.params.keepNum = S at hget
  refine ⟨hinc, ?_, hrange, ?_, ?_⟩
  · intro j c d hc hd
    rw [hget j] at hc
    rw [hget (j + 1)] at hd
    split at hc
    · split at hd
      · simp only [Option.some.injEq] at hc hd
        subst hc hd
        simp only [ChildSolver.startProcess]
        push_cast; ring
      · simp at hd
    · simp at hc
  · intro hS d hd1 hdS
    by_cases hd : d = 1
    · subst hd
      have h0 := hget 0
      rw [if_pos (by simp; omega)] at h0
      refine ⟨_, List.getElem?_mem h0, ?_, ?_⟩
      · simp [ChildSolver.startProcess]
      · simp [ChildSolver.startProcess]; omega
    · have hpos : 0 < inc := by omega
      have hq0 : 0 ≤ (d - 2) / inc := Int.ediv_nonneg (by omega) (by omega)
      have hq1 : (d - 2) / inc * inc ≤ d - 2 := Int.ediv_mul_le _ (by omega)
      have hq2 : d - 2 < ((d - 2) / inc + 1) * inc := Int.lt_ediv_add_one_mul_self _ hpos
      generalize (d - 2) / inc = q at hq0 hq1 hq2
      have hj : ((q.toNat : Nat) : Int) = q := Int.toNat_of_nonneg hq0
      have hq2' : d - 2 < q * inc + inc := by
        have : (q + 1) * inc = q * inc + inc := by ring
        rw [this] at hq2; exact hq2
      have hq := hget q.toNat
      rw [hj] at hq
      rw [if_pos (by omega)] at hq
      refine ⟨_, List.getElem?_mem hq, ?_, ?_⟩
      · simp only [ChildSolver.startProcess]; omega
      · simp only [ChildSolver.startProcess]; omega
  · intro hS
    have h0 := hget 0
    rw [if_neg (by simp; omega)] at h0
    cases hl : (s.parallelSolve env).parallelSolvers with
    | nil => rfl
    | cons a l => rw [hl] at h0; simp at h0

/-- The amended C6 at `keepNum = 50` and four threads: depth 50 lies in the window
of some child. -/
theorem multiDepths_children_cover_witness :
    ∃ c ∈ (demoDepths.parallelSolve demoEnv).parallelSolvers, c.depthlo ≤ 50 ∧ 50 ≤ c.depthhi :=
  (multiDepths_children_cover demoEnv demoDepths 4 (by decide) (by decide) (by decide)
    (by decide) (by decide)
    (by
      intro j h
      have hS : depthSourceNum demoDepths.params.keepNum = 50 := by decide
      have hI : depthInc 50 ((4 : Nat) : Int) = 12 := by decide
      rw [hS, hI] at h ⊢
      omega)).2.2.2.1 (by decide) 50 (by decide) (by decide)

/-- C6 as stated fails at `keepNum = 1`: `sourceNum` is 1, no child is created, and
depth 1 of `[1, sourceNum]` lies in no child's window. -/
theorem multiDepths_cover_keepNum_one_counterexample :
    ¬ (∀ d : Int, 1 ≤ d → d ≤ depthSourceNum demoKeepOne.params.keepNum →
        ∃ c ∈ (demoKeepOne.parallelSolve demoEnv).parallelSolvers,
          c.depthlo ≤ d ∧ d ≤ c.depthhi) := by
  intro h
  have h0 := SexySolver.parallelSolve_multiDepths_getElem demoEnv demoKeepOne
    (by decide) (by decide) 0
  rw [if_neg (by decide)] at h0
  obtain ⟨c, hc, _⟩ := h 1 (by decide) (by decide)
  cases hl : (demoKeepOne.parallelSolve demoEnv).parallelSolvers with
  | nil => rw [hl] at hc; simp at hc
  | cons a l => rw [hl] at h0; simp at h0

/-! ## The slot `finishParallelSolve` -/

/-- C8: winner rule.  When a child whose `finished` signal is still connected
reports code 0, the orchestrator takes over that child's solution, sets
`hasSolved`, emits `finished(0)`, and records the child as `solverWithWCS`
with `hasWCS = true` if the child has WCS data; if it has none,
`solverWithWCS` and `hasWCS` keep their values. -/
theorem finishParallelSolve_winner (s : SexySolver) (r : Nat) (c : ChildSolver)
    (hr : s.parallelSolvers[r]? = some c) (hconn : c.finishedConnected = true) :
    (s.childFinished r 0).solution = c.solution ∧
    (s.childFinished r 0).hasSolved = true ∧
    (s.childFinished r 0).finished = s.finished ++ [0] ∧
    (c.hasWCS = true →
      (s.childFinished r 0).solverWithWCS = some (SolverRef.child r) ∧
      (s.childFinished r 0).hasWCS = true) ∧
    (c.hasWCS = false →
      (s.childFinished r 0).solverWithWCS = s.solverWithWCS ∧
      (s.childFinished r 0).hasWCS = s.hasWCS) := by
  unfold SexySolver.childFinished
  simp only [hr, hconn, if_true]
  unfold SexySolver.finishParallelSolve
  simp only [hr, if_true]
  cases hw : c.hasWCS <;> simp

/-- C8 on a race of two children: the second child, which has WCS data, wins. -/
theorem finishParallelSolve_winner_witness :
    (demoRaceStart.childFinished 1 0).solution = demoSolution ∧
    (demoRaceStart.childFinished 1 0).hasSolved = true ∧
    (demoRaceStart.childFinished 1 0).finished = [0] ∧
    (demoRaceStart.childFinished 1 0).solverWithWCS = some (SolverRef.child 1) ∧
    (demoRaceStart.childFinished 1 0).hasWCS = true := by
  obtain ⟨h1, h2, h3, h4, _⟩ := finishParallelSolve_winner demoRaceStart 1
    { demoChild 1 with finishedConnected := true, started := true, running := true,
                       hasWCS := true } rfl rfl
  exact ⟨h1, h2, h3, (h4 rfl).1, (h4 rfl).2⟩

/-! ## The race -/

/-- A failing report of a connected child: the failure counter goes up by one,
the children are left alone, and `finished(-1)` is emitted exactly when the
counter reaches the number of children. -/
theorem SexySolver.childFinished_fail (s : SexySolver) (r : Nat) (code : Int)
    (hr : r < s.parallelSolvers.length)
    (hconn : ∀ c ∈ s.parallelSolvers, c.finishedConnected = true) (hcode : code ≠ 0) :
    (s.childFinished r code).parallelSolvers = s.parallelSolvers ∧
    (s.childFinished r code).parallelFails = s.parallelFails + 1 ∧
    (s.childFinished r code).hasSolved = s.hasSolved ∧
    (s.childFinished r code).finished =
      (if s.parallelFails + 1 = (s.parallelSolvers.length : Int) then s.finished ++ [-1]
       else s.finished) := by
  have hsome : s.parallelSolvers[r]? = some s.parallelSolvers[r] :=
    List.getElem?_eq_getElem hr
  have hc : s.parallelSolvers[r].finishedConnected = true :=
    hconn _ (List.getElem_mem hr)
  unfold SexySolver.childFinished
  simp only [hsome, hc, if_true]
  unfold SexySolver.finishParallelSolve
  simp only [hsome, hcode, if_false]
  simp only [SexySolver.log_parallelFails, SexySolver.log_parallelSolvers]
  split <;> simp

/-- A run of failing reports of connected children. -/
theorem SexySolver.race_fail (N : Nat) :
    ∀ (reports : List (Nat × Int)) (s : SexySolver),
      s.parallelSolvers.length = N →
      (∀ c ∈ s.parallelSolvers, c.finishedConnected = true) →
      (∀ rep ∈ reports, rep.1 < N ∧ rep.2 ≠ 0) →
      (s.race reports).parallelSolvers = s.parallelSolvers ∧
      (s.race reports).parallelFails = s.parallelFails + reports.length ∧
      (s.race reports).hasSolved = s.hasSolved ∧
      (s.parallelFails + reports.length < N → (s.race reports).finished = s.finished) ∧
      (reports ≠ [] → s.parallelFails + reports.length = N →
        (s.race reports).finished = s.finished ++ [-1]) := by
  intro reports
  induction reports with
  | nil =>
    intro s _ _ _
    simp [SexySolver.race]
  | cons rep rest ih =>
    intro s hlen hconn hreps
    have hrep := hreps rep (List.mem_cons_self _ _)
    obtain ⟨h1, h2, h3, h4⟩ :=
      SexySolver.childFinished_fail s rep.1 rep.2 (by rw [hlen]; exact hrep.1) hconn hrep.2
    have hstep : s.race (rep :: rest) = (s.childFinished rep.1 rep.2).race rest := by
      simp [SexySolver.race]
    obtain ⟨i1, i2, i3, i4, i5⟩ := ih (s.childFinished rep.1 rep.2)
      (by rw [h1]; exact hlen) (by rw [h1]; exact hconn)
      (fun x hx => hreps x (List.mem_cons_of_mem _ hx))
    rw [hstep]
    rw [hlen] at h4
    refine ⟨by rw [i1, h1], ?_, by rw [i3, h3], ?_, ?_⟩
    · rw [i2, h2]; simp only [List.length_cons]; push_cast; ring
    · intro hlt
      simp only [List.length_cons] at hlt
      push_cast at hlt
      rw [i4 (by rw [h2]; omega), h4, if_neg (by omega)]
    · intro _ heq
      simp only [List.length_cons] at heq
      push_cast at heq
      by_cases hrest : rest = []
      · subst hrest
        simp only [List.length_nil] at heq
        simp only [SexySolver.race, List.foldl_nil]
        rw [h4, if_pos (by simpa using heq)]
      · rw [i5 hrest (by rw [h2]; omega), h4, if_neg]
        have : 0 < rest.length := List.length_pos.mpr hrest
        omega

/-- C9, amended: for every race of `N ≥ 1` children in which every child reports a
non-zero code, the first `N - 1` reports are absorbed (no `finished` event is
emitted and `hasSolved` keeps its value), and on the `N`-th report the
orchestrator emits `finished(-1)`, whatever codes the children reported. -/
theorem race_total_failure (s : SexySolver) (N : Nat) (reports : List (Nat × Int))
    (hN : 1 ≤ N) (hlen : s.parallelSolvers.length = N) (hfails : s.parallelFails = 0)
    (hconn : ∀ c ∈ s.parallelSolvers, c.finishedConnected = true)
    (hperm : (reports.map Prod.fst).Perm (List.range N))
    (hcodes : ∀ rep ∈ reports, rep.2 ≠ 0) :
    (∀ k : Nat, k < N →
      (s.race (reports.take k)).finished = s.finished ∧
      (s.race (reports.take k)).hasSolved = s.hasSolved) ∧
    (s.race reports).finished = s.finished ++ [-1] := by
  have hrlen : reports.length = N := by
    have := hperm.length_eq
    simpa using this
  have hreps : ∀ rep ∈ reports, rep.1 < N ∧ rep.2 ≠ 0 := by
    intro rep hrep
    refine ⟨?_, hcodes rep hrep⟩
    have : rep.1 ∈ reports.map Prod.fst := List.mem_map_of_mem _ hrep
    exact List.mem_range.mp (hperm.subset this)
  constructor
  · intro k hk
    obtain ⟨_, _, h3, h4, _⟩ := SexySolver.race_fail N (reports.take k) s hlen hconn
      (fun x hx => hreps x (List.mem_of_mem_take hx))
    refine ⟨h4 ?_, h3⟩
    rw [hfails, List.length_take]
    have : min k reports.length ≤ k := Nat.min_le_left _ _
    omega
  · obtain ⟨_, _, _, _, h5⟩ := SexySolver.race_fail N reports s hlen hconn hreps
    apply h5
    · intro h; rw [h] at hrlen; simp at hrlen; omega
    · rw [hfails, hrlen]; simp

/-- The amended C9 on a race of two children reporting the codes 1 and 2. -/
theorem race_total_failure_witness :
    (demoRaceStart.race [(1, 1), (0, 2)]).finished = demoRaceStart.finished ++ [-1] :=
  (race_total_failure demoRaceStart 2 [(1, 1), (0, 2)] (by decide) (by decide) (by decide)
    (by decide) (by decide) (by decide)).2

/-- C9 as stated fails: when the two children report the codes 1 and 2, the
orchestrator emits `finished(-1)`, not the code 2 reported by the last child. -/
theorem race_total_failure_last_code_counterexample :
    (demoRaceStart.race [(1, 1), (0, 2)]).finished = [-1] ∧
    (demoRaceStart.race [(1, 1), (0, 2)]).finished ≠ [2] := by
  have h := (SexySolver.race_fail 2 [(1, 1), (0, 2)] demoRaceStart (by decide) (by decide)
    (by decide)).2.2.2.2 (by decide) (by decide)
  have hf : demoRaceStart.finished = [] := rfl
  rw [hf] at h
  rw [h]
  exact ⟨rfl, by decide⟩

/-- The `MULTI_SCALES` loop changes only `parallelSolvers` and the log. -/
theorem SexySolver.scalesLoop_frame (env : Env) (threads : Int)
    (minScale scaleConst : ℚ) (units : ScaleUnits) (d : Nat) :
    ∀ (thread : Nat) (s : SexySolver), (threads - thread).toNat = d →
      ∃ (ps : List ChildSolver) (l : List LogMsg),
        s.scalesLoop env threads minScale scaleConst units thread
          = { s with parallelSolvers := ps, logOutput := l } := by
  induction d with
  | zero =>
    intro thread s hd
    have hlt : ¬ ((thread : Int) < threads) := by omega
    rw [SexySolver.scalesLoop, if_neg hlt]
    exact ⟨_, _, rfl⟩
  | succ d ih =>
    intro thread s hd
    have hlt : (thread : Int) < threads := by omega
    rw [SexySolver.scalesLoop, if_pos hlt]
    simp only
    obtain ⟨ps, l, h⟩ := ih (thread + 1)
      (({ s with parallelSolvers := s.parallelSolvers ++
          [((env.spawnChildSolver thread).connectFinished).setSearchScale
            (minScale + scaleConst * (thread : ℚ) ^ 2)
            (minScale + scaleConst * ((thread : ℚ) + 1) ^ 2) units] } : SexySolver).log
        (LogMsg.scaleSolver (s.parallelSolvers ++
          [((env.spawnChildSolver thread).connectFinished).setSearchScale
            (minScale + scaleConst * (thread : ℚ) ^ 2)
            (minScale + scaleConst * ((thread : ℚ) + 1) ^ 2) units]).length
          (minScale + scaleConst * (thread : ℚ) ^ 2)
          (minScale + scaleConst * ((thread : ℚ) + 1) ^ 2) s.scaleunit))
      (by push_cast; omega)
    obtain ⟨l2, h2⟩ := SexySolver.log_frame
      ({ s with parallelSolvers := s.parallelSolvers ++
          [((env.spawnChildSolver thread).connectFinished).setSearchScale
            (minScale + scaleConst * (thread : ℚ) ^ 2)
            (minScale + scaleConst * ((thread : ℚ) + 1) ^ 2) units] } : SexySolver)
      (LogMsg.scaleSolver (s.parallelSolvers ++
          [((env.spawnChildSolver thread).connectFinished).setSearchScale
            (minScale + scaleConst * (thread : ℚ) ^ 2)
            (minScale + scaleConst * ((thread : ℚ) + 1) ^ 2) units]).length
          (minScale + scaleConst * (thread : ℚ) ^ 2)
          (minScale + scaleConst * ((thread : ℚ) + 1) ^ 2) s.scaleunit)
    refine ⟨ps, l, ?_⟩
    rw [h, h2]

/-- The `MULTI_DEPTHS` loop changes only `parallelSolvers` and the log. -/
theorem SexySolver.depthsLoop_frame (env : Env) (sourceNum inc : Int) (hinc : 0 < inc)
    (n : Nat) :
    ∀ (i : Int) (s : SexySolver), (sourceNum - i).toNat ≤ n →
      ∃ (ps : List ChildSolver) (l : List LogMsg),
        s.depthsLoop env sourceNum inc hinc i
          = { s with parallelSolvers := ps, logOutput := l } := by
  induction n with
  | zero =>
    intro i s hn
    have hlt : ¬ (i < sourceNum) := by omega
    rw [SexySolver.depthsLoop, if_neg hlt]
    exact ⟨_, _, rfl⟩
  | succ n ih =>
    intro i s hn
    by_cases hlt : i < sourceNum
    · rw [SexySolver.depthsLoop, if_pos hlt]
      simp only
      obtain ⟨ps, l, h⟩ := ih (i + inc)
        (({ s with parallelSolvers := s.parallelSolvers ++
            [{ (env.spawnChildSolver i).connectFinished with
                depthlo := i, depthhi := i + inc }] } : SexySolver).log
          (LogMsg.depthSolver (s.parallelSolvers ++
            [{ (env.spawnChildSolver i).connectFinished with
                depthlo := i, depthhi := i + inc }]).length i (i + inc)))
        (by omega)
      obtain ⟨l2, h2⟩ := SexySolver.log_frame
        ({ s with parallelSolvers := s.parallelSolvers ++
            [{ (env.spawnChildSolver i).connectFinished with
                depthlo := i, depthhi := i + inc }] } : SexySolver)
        (LogMsg.depthSolver (s.parallelSolvers ++
            [{ (env.spawnChildSolver i).connectFinished with
                depthlo := i, depthhi := i + inc }]).length i (i + inc))
      refine ⟨ps, l, ?_⟩
      rw [h, h2]
    · rw [SexySolver.depthsLoop, if_neg hlt]
      exact ⟨_, _, rfl⟩

/-- The call `parallelSolve` changes only `parallelSolvers`, `parallelFails` and
the log. -/
theorem SexySolver.parallelSolve_frame (env : Env) (s : SexySolver) :
    ∃ (ps : List ChildSolver) (f : Int) (l : List LogMsg),
      s.parallelSolve env = { s with parallelSolvers := ps, parallelFails := f, logOutput := l } := by
  unfold SexySolver.parallelSolve
  split
  · exact ⟨_, _, _, rfl⟩
  · simp only
    split
    · obtain ⟨l1, h1⟩ := SexySolver.log_frame
        ({ s with parallelSolvers := [], parallelFails := 0 } : SexySolver)
        (LogMsg.startingScaleThreads env.idealThreadCount)
      rw [h1]
      obtain ⟨ps, l, h⟩ := SexySolver.scalesLoop_frame env env.idealThreadCount
        ({ s with parallelSolvers := [], parallelFails := 0 } : SexySolver).minScale
        ((({ s with parallelSolvers := [], parallelFails := 0 } : SexySolver).maxScale
          - ({ s with parallelSolvers := [], parallelFails := 0 } : SexySolver).minScale)
          / (env.idealThreadCount : ℚ) ^ 2)
        ({ s with parallelSolvers := [], parallelFails := 0 } : SexySolver).units _ 0
        ({ s with parallelSolvers := [], parallelFails := 0, logOutput := l1 } : SexySolver) rfl
      rw [h]
      exact ⟨_, _, _, rfl⟩
    · split
      · obtain ⟨l1, h1⟩ := SexySolver.log_frame
          ({ s with parallelSolvers := [], parallelFails := 0 } : SexySolver)
          (LogMsg.startingDepthThreads (Int.tdiv (depthSourceNum s.params.keepNum)
            (depthInc (depthSourceNum s.params.keepNum) env.idealThreadCount)))
        obtain ⟨ps, l, h⟩ := SexySolver.depthsLoop_frame env
          (depthSourceNum s.params.keepNum)
          (depthInc (depthSourceNum s.params.keepNum) env.idealThreadCount)
          (lt_of_lt_of_le (by norm_num) (depthInc_ge_ten _ _)) _ 1
          (({ s with parallelSolvers := [], parallelFails := 0 } : SexySolver).log
            (LogMsg.startingDepthThreads (Int.tdiv (depthSourceNum s.params.keepNum)
              (depthInc (depthSourceNum s.params.keepNum) env.idealThreadCount))))
          (le_refl _)
        rw [h, h1]
        exact ⟨_, _, _, rfl⟩
      · exact ⟨_, _, _, rfl⟩

/-- After the `foreach` of the success branch no child is connected any more. -/
theorem shutDownLoop_disconnected (r : Nat) (l : List ChildSolver) :
    ∀ (i : Nat), ∀ c ∈ shutDownLoop r i l, c.finishedConnected = false := by
  induction l with
  | nil => intro i c hc; simp [shutDownLoop] at hc
  | cons a rest ih =>
    intro i c hc
    simp only [shutDownLoop, List.mem_cons] at hc
    rcases hc with hc | hc
    · subst hc
      split <;> simp [ChildSolver.abort]
    · exact ih (i + 1) c hc

/-- A successful report of a connected child emits `finished(0)` and cuts every
connection. -/
theorem SexySolver.childFinished_success (s : SexySolver) (r : Nat)
    (hr : r < s.parallelSolvers.length)
    (hconn : ∀ c ∈ s.parallelSolvers, c.finishedConnected = true) :
    (s.childFinished r 0).finished = s.finished ++ [0] ∧
    ∀ c ∈ (s.childFinished r 0).parallelSolvers, c.finishedConnected = false := by
  have hsome : s.parallelSolvers[r]? = some s.parallelSolvers[r] :=
    List.getElem?_eq_getElem hr
  have hc : s.parallelSolvers[r].finishedConnected = true :=
    hconn _ (List.getElem_mem hr)
  unfold SexySolver.childFinished
  simp only [hsome, hc, if_true]
  unfold SexySolver.finishParallelSolve
  simp only [hsome, if_true]
  constructor
  · split <;> simp
  · intro c hcm
    have hps : ∀ (x : SexySolver), x.parallelSolvers = shutDownLoop r 0 s.parallelSolvers →
        c ∈ x.parallelSolvers → c.finishedConnected = false := by
      intro x hx hm
      rw [hx] at hm
      exact shutDownLoop_disconnected r s.parallelSolvers 0 c hm
    apply hps _ _ hcm
    split <;> simp

/-- The report of a child whose connection has been cut is ignored. -/
theorem SexySolver.childFinished_ignored (s : SexySolver) (r : Nat) (code : Int)
    (hdis : ∀ c ∈ s.parallelSolvers, c.finishedConnected = false) :
    s.childFinished r code = s := by
  unfold SexySolver.childFinished
  cases h : s.parallelSolvers[r]? with
  | none => rfl
  | some c =>
    have := hdis c (List.getElem?_mem h)
    simp [this]

/-- Once every connection has been cut, no report changes the state. -/
theorem SexySolver.race_ignored (reports : List (Nat × Int)) (s : SexySolver)
    (hdis : ∀ c ∈ s.parallelSolvers, c.finishedConnected = false) :
    s.race reports = s := by
  induction reports with
  | nil => rfl
  | cons rep rest ih =>
    have hstep : s.race (rep :: rest) = (s.childFinished rep.1 rep.2).race rest := by
      simp [SexySolver.race]
    rw [hstep, SexySolver.childFinished_ignored s rep.1 rep.2 hdis, ih]

/-- A race in which the outstanding reports are exactly as many as the failures
still missing for a total failure emits one event: `finished(0)` if some
report carries the code 0, `finished(-1)` otherwise. -/
theorem SexySolver.race_one_event (N : Nat) :
    ∀ (reports : List (Nat × Int)) (s : SexySolver),
      s.parallelSolvers.length = N →
      (∀ c ∈ s.parallelSolvers, c.finishedConnected = true) →
      (∀ rep ∈ reports, rep.1 < N) →
      reports ≠ [] → s.parallelFails + reports.length = N →
      (s.race reports).finished =
        s.finished ++ [if reports.any (fun rep => decide (rep.2 = 0)) then 0 else -1] := by
  intro reports
  induction reports with
  | nil => intro s _ _ _ hne; exact absurd rfl hne
  | cons rep rest ih =>
    intro s hlen hconn hidx _ hcount
    have hstep : s.race (rep :: rest) = (s.childFinished rep.1 rep.2).race rest := by
      simp [SexySolver.race]
    have hr : rep.1 < s.parallelSolvers.length := by
      rw [hlen]; exact hidx rep (List.mem_cons_self _ _)
    simp only [List.length_cons] at hcount
    push_cast at hcount
    rw [hstep]
    by_cases hcode : rep.2 = 0
    · obtain ⟨h1, h2⟩ := SexySolver.childFinished_success s rep.1 hr hconn
      rw [hcode, SexySolver.race_ignored rest _ h2, h1]
      simp [hcode]
    · obtain ⟨h1, h2, _, h4⟩ := SexySolver.childFinished_fail s rep.1 rep.2 hr hconn hcode
      rw [hlen] at h4
      by_cases hrest : rest = []
      · subst hrest
        simp only [List.length_nil] at hcount
        simp only [SexySolver.race, List.foldl_nil]
        rw [h4, if_pos (by simpa using hcount)]
        simp [hcode]
      · have hpos : 0 < rest.length := List.length_pos.mpr hrest
        rw [ih (s.childFinished rep.1 rep.2) (by rw [h1]; exact hlen)
          (by rw [h1]; exact hconn) (fun x hx => hidx x (List.mem_cons_of_mem _ hx)) hrest
          (by rw [h2]; omega), h4, if_neg (by omega)]
        have hd : decide (rep.2 = 0) = false := decide_eq_false hcode
        simp only [List.any_cons, hd, Bool.false_or]

/-- Every child that `parallelSolve` leaves in `parallelSolvers` has its
`finished` signal connected, and the failure counter is zero. -/
theorem SexySolver.parallelSolve_connected (env : Env) (s : SexySolver)
    (hmulti : s.params.multiAlgorithm ≠ MultiAlgo.NOT_MULTI)
    (hproc : s.processType = ProcessType.SEXYSOLVER ∨
      s.processType = ProcessType.EXT_SEXTRACTORSOLVER ∨
      s.processType = ProcessType.INT_SEP_EXT_SOLVER) :
    (s.parallelSolve env).parallelFails = 0 ∧
    ∀ c ∈ (s.parallelSolve env).parallelSolvers, c.finishedConnected = true := by
  have hguard : ¬ (s.params.multiAlgorithm = MultiAlgo.NOT_MULTI ∨
      ¬ (s.processType = ProcessType.SEXYSOLVER ∨
         s.processType = ProcessType.EXT_SEXTRACTORSOLVER ∨
         s.processType = ProcessType.INT_SEP_EXT_SOLVER)) := by
    simp [hmulti, hproc]
  constructor
  · unfold SexySolver.parallelSolve
    rw [if_neg hguard]
    simp only
    split
    · obtain ⟨ps, l, h⟩ := SexySolver.scalesLoop_frame env env.idealThreadCount
        ({ s with parallelSolvers := [], parallelFails := 0 } : SexySolver).minScale
        ((({ s with parallelSolvers := [], parallelFails := 0 } : SexySolver).maxScale
          - ({ s with parallelSolvers := [], parallelFails := 0 } : SexySolver).minScale)
          / (env.idealThreadCount : ℚ) ^ 2)
        ({ s with parallelSolvers := [], parallelFails := 0 } : SexySolver).units _ 0
        (({ s with parallelSolvers := [], parallelFails := 0 } : SexySolver).log
          (LogMsg.startingScaleThreads env.idealThreadCount)) rfl
      rw [h]
      simp
    · split
      · obtain ⟨ps, l, h⟩ := SexySolver.depthsLoop_frame env
          (depthSourceNum s.params.keepNum)
          (depthInc (depthSourceNum s.params.keepNum) env.idealThreadCount)
          (lt_of_lt_of_le (by norm_num) (depthInc_ge_ten _ _)) _ 1
          (({ s with parallelSolvers := [], parallelFails := 0 } : SexySolver).log
            (LogMsg.startingDepthThreads (Int.tdiv (depthSourceNum s.params.keepNum)
              (depthInc (depthSourceNum s.params.keepNum) env.idealThreadCount))))
          (le_refl _)
        rw [h]
        simp
      · rfl
  · intro c hc
    by_cases hs : s.params.multiAlgorithm = MultiAlgo.MULTI_SCALES
    · unfold SexySolver.parallelSolve at hc
      rw [if_neg hguard] at hc
      simp only [hs, if_true] at hc
      rw [SexySolver.scalesLoop_parallelSolvers env _ _ _ _ _ 0 _ rfl] at hc
      simp only [SexySolver.log_parallelSolvers, List.nil_append, List.map_map,
        List.mem_map] at hc
      obtain ⟨i, _, hi⟩ := hc
      rw [← hi]
      rfl
    · by_cases hd : s.params.multiAlgorithm = MultiAlgo.MULTI_DEPTHS
      · obtain ⟨j, hj⟩ := List.mem_iff_getElem?.mp hc
        rw [SexySolver.parallelSolve_multiDepths_getElem env s hd hproc j] at hj
        split at hj
        · simp only [Option.some.injEq] at hj
          rw [← hj]
          rfl
        · simp at hj
      · unfold SexySolver.parallelSolve at hc
        rw [if_neg hguard] at hc
        simp only [hs, hd, if_false] at hc
        simp at hc

/-- When `parallelSolve` creates at least one child and every child reports once,
in any order and with any codes, the orchestrator emits exactly one `finished`
event: `finished(0)` if some child reports 0 and `finished(-1)` otherwise. -/
theorem SexySolver.parallelSolve_race_one_event (env : Env) (s : SexySolver)
    (reports : List (Nat × Int))
    (hmulti : s.params.multiAlgorithm ≠ MultiAlgo.NOT_MULTI)
    (hproc : s.processType = ProcessType.SEXYSOLVER ∨
      s.processType = ProcessType.EXT_SEXTRACTORSOLVER ∨
      s.processType = ProcessType.INT_SEP_EXT_SOLVER)
    (hN : 1 ≤ (s.parallelSolve env).parallelSolvers.length)
    (hperm : (reports.map Prod.fst).Perm
      (List.range (s.parallelSolve env).parallelSolvers.length)) :
    ((s.parallelSolve env).race reports).finished =
      s.finished ++ [if reports.any (fun rep => decide (rep.2 = 0)) then 0 else -1] := by
  obtain ⟨hfails, hconn⟩ := SexySolver.parallelSolve_connected env s hmulti hproc
  have hfin : (s.parallelSolve env).finished = s.finished := by
    obtain ⟨ps, f, l, h⟩ := SexySolver.parallelSolve_frame env s
    rw [h]
  have hrlen : reports.length = (s.parallelSolve env).parallelSolvers.length := by
    have := hperm.length_eq
    simpa using this
  have hidx : ∀ rep ∈ reports, rep.1 < (s.parallelSolve env).parallelSolvers.length := by
    intro rep hrep
    have : rep.1 ∈ reports.map Prod.fst := List.mem_map_of_mem _ hrep
    exact List.mem_range.mp (hperm.subset this)
  rw [SexySolver.race_one_event _ reports (s.parallelSolve env) rfl hconn hidx
    (by intro h; rw [h] at hrlen; simp at hrlen; omega)
    (by rw [hfails, hrlen]; simp), hfin]

/-- C10 at the failing input `keepNum = 1` with the strategy `MULTI_DEPTHS`:
`parallelSolve` creates no child, so no report can arrive, and whatever is
delivered the orchestrator has emitted no `finished` event at all. -/
theorem parallelSolve_without_children_emits_no_finished :
    (demoKeepOne.parallelSolve demoEnv).parallelSolvers = [] ∧
    ∀ reports : List (Nat × Int),
      ((demoKeepOne.parallelSolve demoEnv).race reports).finished = [] := by
  have h0 := SexySolver.parallelSolve_multiDepths_getElem demoEnv demoKeepOne
    (by decide) (by decide) 0
  rw [if_neg (by decide)] at h0
  have hnil : (demoKeepOne.parallelSolve demoEnv).parallelSolvers = [] := by
    cases hl : (demoKeepOne.parallelSolve demoEnv).parallelSolvers with
    | nil => rfl
    | cons a l => rw [hl] at h0; simp at h0
  refine ⟨hnil, ?_⟩
  intro reports
  rw [SexySolver.race_ignored reports _ (by rw [hnil]; simp)]
  obtain ⟨ps, f, l, h⟩ := SexySolver.parallelSolve_frame demoEnv demoKeepOne
  rw [h]
  rfl

/-! ## `setUseSubframe` -/

/-- C17, amended: for every image of width `W > 0` and height `H > 0` and every
frame `(x, y, w, h)`, after `setUseSubframe` the stored subframe has its
origin inside `[0, W] x [0, H]` and the size `(|w|, |h|)`, which is not
negative; the size is not clamped. -/
theorem setUseSubframe_origin_clamped (s : SexySolver) (frame : QRect)
    (hW : 0 < s.stats.width) (hH : 0 < s.stats.height) :
    0 ≤ (s.setUseSubframe frame).subframe.x ∧
    (s.setUseSubframe frame).subframe.x ≤ s.stats.width ∧
    0 ≤ (s.setUseSubframe frame).subframe.y ∧
    (s.setUseSubframe frame).subframe.y ≤ s.stats.height ∧
    (s.setUseSubframe frame).subframe.width = |frame.width| ∧
    (s.setUseSubframe frame).subframe.height = |frame.height| ∧
    0 ≤ (s.setUseSubframe frame).subframe.width ∧
    0 ≤ (s.setUseSubframe frame).subframe.height := by
  have hw : (if frame.width < 0 then -frame.width else frame.width) = |frame.width| := by
    split
    · rw [abs_of_neg (by assumption)]
    · rw [abs_of_nonneg (by omega)]
  have hh : (if frame.height < 0 then -frame.height else frame.height) = |frame.height| := by
    split
    · rw [abs_of_neg (by assumption)]
    · rw [abs_of_nonneg (by omega)]
  unfold SexySolver.setUseSubframe
  simp only [hw, hh]
  refine ⟨?_, ?_, ?_, ?_, trivial, trivial, abs_nonneg _, abs_nonneg _⟩
  · split <;> split <;> omega
  · split <;> split <;> omega
  · split <;> split <;> omega
  · split <;> split <;> omega

/-- The amended C17 on the image of 1024 by 1024 pixels with a frame dragged from
right to left across the left border: `(10, 20, -30, 40)` is stored as
`(0, 20, 30, 40)`. -/
theorem setUseSubframe_origin_clamped_witness :
    (demoSolver.setUseSubframe { x := 10, y := 20, width := -30, height := 40 }).subframe.width
      = |(-30 : Int)| :=
  (setUseSubframe_origin_clamped demoSolver { x := 10, y := 20, width := -30, height := 40 }
    (by decide) (by decide)).2.2.2.2.1

/-- C17 as stated fails: on the image of 1024 by 1024 pixels the frame
`(0, 0, 2048, 2048)` is stored unchanged, so the stored subframe does not lie
within the image. -/
theorem setUseSubframe_within_image_counterexample :
    ¬ (0 ≤ (demoSolver.setUseSubframe
              { x := 0, y := 0, width := 2048, height := 2048 }).subframe.x ∧
       0 ≤ (demoSolver.setUseSubframe
              { x := 0, y := 0, width := 2048, height := 2048 }).subframe.y ∧
       (demoSolver.setUseSubframe { x := 0, y := 0, width := 2048, height := 2048 }).subframe.x
         + (demoSolver.setUseSubframe
              { x := 0, y := 0, width := 2048, height := 2048 }).subframe.width
         ≤ demoSolver.stats.width ∧
       (demoSolver.setUseSubframe { x := 0, y := 0, width := 2048, height := 2048 }).subframe.y
         + (demoSolver.setUseSubframe
              { x := 0, y := 0, width := 2048, height := 2048 }).subframe.height
         ≤ demoSolver.stats.height ∧
       0 < (demoSolver.setUseSubframe
              { x := 0, y := 0, width := 2048, height := 2048 }).subframe.width ∧
       0 < (demoSolver.setUseSubframe
              { x := 0, y := 0, width := 2048, height := 2048 }).subframe.height) := by
  decide

/-! ## Unit conversion of the scale hint -/

/-- C18: for every scale `s` and image height `h`, `convertToDegreeHeight` returns
`s` for `DEG_WIDTH`, `s/60` for `ARCMIN_WIDTH` and `s*h/3600` for
`ARCSEC_PER_PIX`. -/
theorem convertToDegreeHeight_linear_units {α : Type} [Field α] (m : MathLib α)
    (stats : Statistic) (s : α) :
    SextractorSolver.convertToDegreeHeight m ScaleUnits.DEG_WIDTH stats s = s ∧
    SextractorSolver.convertToDegreeHeight m ScaleUnits.ARCMIN_WIDTH stats s = s / 60 ∧
    SextractorSolver.convertToDegreeHeight m ScaleUnits.ARCSEC_PER_PIX stats s
      = s * (stats.height : α) / 3600 := by
  refine ⟨rfl, rfl, ?_⟩
  simp only [SextractorSolver.convertToDegreeHeight, arcsec2deg]
  ring

/-- C19, amended: with the unit `FOCAL_MM`, `convertToDegreeHeight` returns for every
focal length `f` the angle `atan(36 / (2*f))` expressed in degrees, without the
factor 2; for `f > 0` this lies strictly between 0 and 90 degrees. -/
theorem convertToDegreeHeight_focal_mm (stats : Statistic) (f : ℝ) :
    SextractorSolver.convertToDegreeHeight realMath ScaleUnits.FOCAL_MM stats f
      = Real.arctan (36 / (2 * f)) * (180 / Real.pi) ∧
    (0 < f →
      0 < SextractorSolver.convertToDegreeHeight realMath ScaleUnits.FOCAL_MM stats f ∧
      SextractorSolver.convertToDegreeHeight realMath ScaleUnits.FOCAL_MM stats f < 90) := by
  refine ⟨rfl, ?_⟩
  intro hf
  have hval : SextractorSolver.convertToDegreeHeight realMath ScaleUnits.FOCAL_MM stats f
      = Real.arctan (36 / (2 * f)) * (180 / Real.pi) := rfl
  rw [hval]
  have hpi : 0 < Real.pi := Real.pi_pos
  have hx : 0 < 36 / (2 * f) := by positivity
  have hpos : 0 < Real.arctan (36 / (2 * f)) := by
    rw [← Real.arctan_zero]; exact Real.arctan_strictMono hx
  have hlt : Real.arctan (36 / (2 * f)) < Real.pi / 2 := Real.arctan_lt_pi_div_two _
  constructor
  · positivity
  · have h180 : 0 < 180 / Real.pi := by positivity
    calc Real.arctan (36 / (2 * f)) * (180 / Real.pi)
        < Real.pi / 2 * (180 / Real.pi) := mul_lt_mul_of_pos_right hlt h180
      _ = 90 := by field_simp; ring

/-- C19 as stated fails at `f = 18`: the code returns 45 degrees, the claimed
`2*atan(36 / (2*f))` is 90 degrees. -/
theorem convertToDegreeHeight_focal_mm_counterexample :
    SextractorSolver.convertToDegreeHeight realMath ScaleUnits.FOCAL_MM demoSolver.stats 18 = 45 ∧
    2 * Real.arctan (36 / (2 * 18)) * (180 / Real.pi) = 90 ∧
    SextractorSolver.convertToDegreeHeight realMath ScaleUnits.FOCAL_MM demoSolver.stats 18
      ≠ 2 * Real.arctan (36 / (2 * 18)) * (180 / Real.pi) := by
  have hpi : Real.pi ≠ 0 := Real.pi_ne_zero
  have harg : (36 : ℝ) / (2 * 18) = 1 := by norm_num
  have h1 : SextractorSolver.convertToDegreeHeight realMath ScaleUnits.FOCAL_MM
      demoSolver.stats 18 = 45 := by
    show Real.arctan (36 / (2 * 18)) * (180 / Real.pi) = 45
    rw [harg, Real.arctan_one]; field_simp; ring
  have h2 : 2 * Real.arctan (36 / (2 * 18)) * (180 / Real.pi) = 90 := by
    rw [harg, Real.arctan_one]; field_simp; ring
  refine ⟨h1, h2, ?_⟩
  rw [h1, h2]; norm_num

/-! ## Which back-ends race -/

/-- C20: when `multiAlgorithm` is `NOT_MULTI` or `processType` is none of
`SEXYSOLVER`, `EXT_SEXTRACTORSOLVER` and `INT_SEP_EXT_SOLVER`, `parallelSolve`
returns the state unchanged (no child is created or started, `parallelSolvers`
and `parallelFails` keep their values), and `run` does not touch them either
but connects the primary worker to `processFinished` and starts it alone:
with `startProcess` for the two online types, with `executeProcess`
otherwise. -/
theorem parallelSolve_only_parallel_backends (env : Env) (s : SexySolver)
    (h : s.params.multiAlgorithm = MultiAlgo.NOT_MULTI ∨
      ¬ (s.processType = ProcessType.SEXYSOLVER ∨
         s.processType = ProcessType.EXT_SEXTRACTORSOLVER ∨
         s.processType = ProcessType.INT_SEP_EXT_SOLVER)) :
    s.parallelSolve env = s ∧
    (s.run env).parallelSolvers = s.parallelSolvers ∧
    (s.run env).parallelFails = s.parallelFails ∧
    (s.run env).sextractorSolver =
      s.sextractorSolver.map (fun p =>
        if s.processType = ProcessType.ONLINE_ASTROMETRY_NET ∨
            s.processType = ProcessType.INT_SEP_ONLINE_ASTROMETRY_NET then
          p.connectProcessFinished.startProcess
        else p.connectProcessFinished.executeProcess) := by
  have hrun : ¬ (s.params.multiAlgorithm ≠ MultiAlgo.NOT_MULTI ∧
      (s.processType = ProcessType.SEXYSOLVER ∨
       s.processType = ProcessType.EXT_SEXTRACTORSOLVER ∨
       s.processType = ProcessType.INT_SEP_EXT_SOLVER)) := by
    rintro ⟨h1, h2⟩
    rcases h with h | h
    · exact h1 h
    · exact h h2
  refine ⟨?_, ?_, ?_, ?_⟩
  · unfold SexySolver.parallelSolve
    rw [if_pos h]
  all_goals
    unfold SexySolver.run
    simp only
    split <;> simp only [hrun, if_false] <;> split <;> simp_all

/-- C20 for an online solve: `run` leaves `parallelSolvers` empty. -/
theorem parallelSolve_only_parallel_backends_witness :
    demoOnline.parallelSolve demoEnv = demoOnline ∧
    (demoOnline.run demoEnv).parallelSolvers = demoOnline.parallelSolvers := by
  have h := parallelSolve_only_parallel_backends demoEnv demoOnline (by decide)
  exact ⟨h.1, h.2.1⟩

/-! ## `createConvFilterFromFWHM` -/

/-- The inner loop appends the cells `x, x+1, ..., size` of row `y`. -/
theorem convFilterRowLoop_eq {α : Type} [Field α] (m : MathLib α) (fwhm a : α)
    (size y : Int) (n : Nat) :
    ∀ (x : Int) (acc : List α), (size + 1 - x).toNat = n →
      convFilterRowLoop m fwhm a size y x acc
        = acc ++ (List.range n).map (fun i : Nat => convFilterValue m fwhm a (x + i) y) := by
  induction n with
  | zero =>
    intro x acc hn
    have hlt : ¬ (x ≤ size) := by omega
    rw [convFilterRowLoop, if_neg hlt]
    simp
  | succ n ih =>
    intro x acc hn
    have hle : x ≤ size := by omega
    rw [convFilterRowLoop, if_pos hle, ih (x + 1) _ (by omega), List.range_succ_eq_map]
    simp only [List.map_cons, List.map_map, List.append_assoc, List.singleton_append,
      Nat.cast_zero, add_zero]
    congr 2
    apply List.map_congr_left
    intro i _
    simp only [Function.comp_apply, Nat.succ_eq_add_one, Nat.cast_add, Nat.cast_one]
    congr 1
    ring

/-- The outer loop appends the rows `y, y+1, ..., size`, each of
`2*size + 1` cells, one after the other. -/
theorem convFilterLoop_eq {α : Type} [Field α] (m : MathLib α) (fwhm a : α)
    (size : Int) (hsize : 0 ≤ size) (n : Nat) :
    ∀ (y : Int) (acc : List α), (size + 1 - y).toNat = n →
      ∃ rest : List α,
        convFilterLoop m fwhm a size y acc = acc ++ rest ∧
        rest.length = n * (2 * size + 1).toNat ∧
        ∀ (j i : Nat), j < n → i < (2 * size + 1).toNat →
          rest[j * (2 * size + 1).toNat + i]?
            = some (convFilterValue m fwhm a (-size + i) (y + j)) := by
  induction n with
  | zero =>
    intro y acc hn
    have hlt : ¬ (y ≤ size) := by omega
    rw [convFilterLoop, if_neg hlt]
    exact ⟨[], by simp, by simp, by intro j i hj; omega⟩
  | succ n ih =>
    intro y acc hn
    have hle : y ≤ size := by omega
    rw [convFilterLoop, if_pos hle,
      convFilterRowLoop_eq m fwhm a size y (2 * size + 1).toNat (-size) acc (by omega)]
    obtain ⟨rest, hrest, hlen, hget⟩ := ih (y + 1)
      (acc ++ (List.range (2 * size + 1).toNat).map
        (fun i : Nat => convFilterValue m fwhm a (-size + i) y)) (by omega)
    refine ⟨(List.range (2 * size + 1).toNat).map
        (fun i : Nat => convFilterValue m fwhm a (-size + i) y) ++ rest, ?_, ?_, ?_⟩
    · rw [hrest, List.append_assoc]
    · simp only [List.length_append, List.length_map, List.length_range, hlen]
      ring
    · intro j i hj hi
      cases j with
      | zero =>
        rw [Nat.zero_mul, Nat.zero_add, List.getElem?_append_left (by simpa using hi),
          List.getElem?_map, List.getElem?_range hi]
        simp
      | succ j =>
        have hidx : (j + 1) * (2 * size + 1).toNat + i
            = (2 * size + 1).toNat + (j * (2 * size + 1).toNat + i) := by ring
        rw [hidx, List.getElem?_append_right (by simp)]
        simp only [List.length_map, List.length_range, Nat.add_sub_cancel_left]
        rw [hget j i (by omega) hi]
        congr 2
        push_cast
        ring

/-- The half-width is not negative. -/
theorem convFilterSize_nonneg {α : Type} [LinearOrderedField α] [FloorRing α] (fwhm : α) :
    0 ≤ convFilterSize fwhm := abs_nonneg _

/-- The filter that `createConvFilterFromFWHM` leaves: `(2*size + 1)^2` cells, the
cell `(x, y)` at position `(y + size)*(2*size + 1) + (x + size)`. -/
theorem SexySolver.createConvFilterFromFWHM_cells {α : Type} [LinearOrderedField α]
    [FloorRing α] (m : MathLib α) (params : Parameters α) (fwhm : α) :
    ((SexySolver.createConvFilterFromFWHM m params fwhm).convFilter.length : Int)
      = (2 * convFilterSize fwhm + 1) ^ 2 ∧
    ∀ x y : Int, -convFilterSize fwhm ≤ x → x ≤ convFilterSize fwhm →
      -convFilterSize fwhm ≤ y → y ≤ convFilterSize fwhm →
      (SexySolver.createConvFilterFromFWHM m params fwhm).convFilter[
          ((y + convFilterSize fwhm) * (2 * convFilterSize fwhm + 1)
            + (x + convFilterSize fwhm)).toNat]?
        = some (convFilterValue m fwhm 1 x y) := by
  have hs := convFilterSize_nonneg fwhm
  generalize hsz : convFilterSize fwhm = size at hs
  obtain ⟨rest, hrest, hlen, hget⟩ := convFilterLoop_eq m fwhm 1 size hs
    (2 * size + 1).toNat (-size) [] (by omega)
  have hconv : (SexySolver.createConvFilterFromFWHM m params fwhm).convFilter = rest := by
    unfold SexySolver.createConvFilterFromFWHM
    simp only [hsz, hrest, List.nil_append]
  rw [hconv]
  constructor
  · rw [hlen]
    push_cast
    rw [Int.toNat_of_nonneg (by omega)]
    ring
  · intro x y hx1 hx2 hy1 hy2
    have hj := hget (y + size).toNat (x + size).toNat (by omega) (by omega)
    have hidx : ((y + size) * (2 * size + 1) + (x + size)).toNat
        = (y + size).toNat * (2 * size + 1).toNat + (x + size).toNat := by
      have h1 : ((y + size).toNat : Int) = y + size := Int.toNat_of_nonneg (by omega)
      have h2 : ((x + size).toNat : Int) = x + size := Int.toNat_of_nonneg (by omega)
      have h3 : ((2 * size + 1).toNat : Int) = 2 * size + 1 := Int.toNat_of_nonneg (by omega)
      have h4 : ((y + size) * (2 * size + 1) + (x + size))
          = (((y + size).toNat * (2 * size + 1).toNat + (x + size).toNat : Nat) : Int) := by
        push_cast
        rw [h1, h2, h3]
      rw [h4, Int.toNat_natCast]
    rw [hidx, hj]
    congr 2
    · rw [Int.toNat_of_nonneg (by omega)]; ring
    · rw [Int.toNat_of_nonneg (by omega)]; ring

/-- On the real numbers the value of the cell `(x, y)` is the Gaussian
`exp(-4 ln 2 (x^2 + y^2) / fwhm^2)`. -/
theorem convFilterValue_real (fwhm : ℝ) (x y : Int) :
    convFilterValue realMath fwhm 1 x y
      = Real.exp (-4 * Real.log 2 * ((x : ℝ) ^ 2 + (y : ℝ) ^ 2) / fwhm ^ 2) := by
  unfold convFilterValue
  show 1 * Real.exp (-4 * Real.log 2 * (Real.sqrt ((x : ℝ) ^ 2 + (y : ℝ) ^ 2)) ^ 2 / fwhm ^ 2) = _
  rw [Real.sq_sqrt (by positivity), one_mul]

/-- The `double` nearest to 6/10 is within `2^-53` of it, relatively. -/
theorem roundToDouble_six_tenths {α : Type} [LinearOrderedField α] [FloorRing α] :
    (6 / 10 : α) - 1 / 2 ^ 53 ≤ roundToDouble (0.6 : α) ∧
    roundToDouble (0.6 : α) ≤ 6 / 10 + 1 / 2 ^ 53 := by
  have h := roundToDouble_abs_sub_le (0.6 : α)
  have e : |(0.6 : α)| = 6 / 10 := by rw [abs_of_pos (by norm_num)]; norm_num
  rw [e, abs_le] at h
  have e2 : (0.6 : α) = 6 / 10 := by norm_num
  rw [e2] at h ⊢
  constructor
  · have : (6 / 10 : α) / 2 ^ 53 ≤ 1 / 2 ^ 53 := by gcongr; norm_num
    linarith [h.1]
  · have : (6 / 10 : α) / 2 ^ 53 ≤ 1 / 2 ^ 53 := by gcongr; norm_num
    linarith [h.2]

/-- The half-width for `fwhm = 2` is 2: the rounded product lies between 1 and 2. -/
theorem convFilterSize_two : convFilterSize (2 : ℝ) = 2 := by
  unfold convFilterSize
  obtain ⟨l6, u6⟩ := roundToDouble_six_tenths (α := ℝ)
  have hy := roundToDouble_abs_sub_le (2 * roundToDouble (0.6 : ℝ))
  have hyabs : |2 * roundToDouble (0.6 : ℝ)| ≤ 2 := by
    rw [abs_le]; constructor <;> norm_num at l6 u6 ⊢ <;> linarith
  have hy2 : |roundToDouble (2 * roundToDouble (0.6 : ℝ)) - 2 * roundToDouble (0.6 : ℝ)|
      ≤ 2 / 2 ^ 53 := le_trans hy (by gcongr)
  rw [abs_le] at hy2
  have h : Int.ceil (roundToDouble (2 * roundToDouble (0.6 : ℝ))) = 2 := by
    rw [Int.ceil_eq_iff]
    constructor <;> norm_num at l6 u6 hy2 ⊢ <;> linarith [hy2.1, hy2.2]
  rw [h]; rfl

/-- C13, amended: with `fwhm = 2` the half-width is `ceil(1.2) = 2`, so
`createConvFilterFromFWHM` produces a 5x5 kernel (25 entries); its centre
entry (index 12) is 1 and the four entries at distance 1 from the centre
(indices 7, 11, 13 and 17) equal `exp(-4 ln 2 * 1 / 4) = 0.5`. -/
theorem createConvFilterFromFWHM_fwhm_two (params : Parameters ℝ) :
    (SexySolver.createConvFilterFromFWHM realMath params 2).convFilter.length = 25 ∧
    (SexySolver.createConvFilterFromFWHM realMath params 2).convFilter[12]? = some 1 ∧
    (SexySolver.createConvFilterFromFWHM realMath params 2).convFilter[7]? = some (1 / 2) ∧
    (SexySolver.createConvFilterFromFWHM realMath params 2).convFilter[11]? = some (1 / 2) ∧
    (SexySolver.createConvFilterFromFWHM realMath params 2).convFilter[13]? = some (1 / 2) ∧
    (SexySolver.createConvFilterFromFWHM realMath params 2).convFilter[17]? = some (1 / 2) ∧
    Real.exp (-4 * Real.log 2 * 1 / 4) = 1 / 2 := by
  obtain ⟨hlen, hget⟩ := SexySolver.createConvFilterFromFWHM_cells realMath params 2
  rw [convFilterSize_two] at hlen hget
  have hhalf : Real.exp (-4 * Real.log 2 * 1 / 4) = 1 / 2 := by
    have : -4 * Real.log 2 * 1 / 4 = -Real.log 2 := by ring
    rw [this, Real.exp_neg, Real.exp_log (by norm_num)]; norm_num
  have hcell : ∀ x y : Int, -2 ≤ x → x ≤ 2 → -2 ≤ y → y ≤ 2 →
      (SexySolver.createConvFilterFromFWHM realMath params 2).convFilter[
          ((y + 2) * (2 * 2 + 1) + (x + 2)).toNat]?
        = some (Real.exp (-4 * Real.log 2 * ((x : ℝ) ^ 2 + (y : ℝ) ^ 2) / 2 ^ 2)) := by
    intro x y hx1 hx2 hy1 hy2
    rw [hget x y hx1 hx2 hy1 hy2, convFilterValue_real]
  have hedge : ∀ x y : Int, (x : ℝ) ^ 2 + (y : ℝ) ^ 2 = 1 →
      Real.exp (-4 * Real.log 2 * ((x : ℝ) ^ 2 + (y : ℝ) ^ 2) / 2 ^ 2) = 1 / 2 := by
    intro x y h
    rw [h, ← hhalf]; norm_num
  refine ⟨?_, ?_, ?_, ?_, ?_, ?_, hhalf⟩
  · have : ((SexySolver.createConvFilterFromFWHM realMath params 2).convFilter.length : Int)
        = 25 := by rw [hlen]; norm_num
    exact_mod_cast this
  · have h := hcell 0 0 (by norm_num) (by norm_num) (by norm_num) (by norm_num)
    have hidx : (((0 : Int) + 2) * (2 * 2 + 1) + (0 + 2)).toNat = 12 := by decide
    rw [hidx] at h
    rw [h]; norm_num
  · have h := hcell 0 (-1) (by norm_num) (by norm_num) (by norm_num) (by norm_num)
    have hidx : (((-1 : Int) + 2) * (2 * 2 + 1) + (0 + 2)).toNat = 7 := by decide
    rw [hidx] at h
    rw [h, hedge 0 (-1) (by norm_num)]
  · have h := hcell (-1) 0 (by norm_num) (by norm_num) (by norm_num) (by norm_num)
    have hidx : (((0 : Int) + 2) * (2 * 2 + 1) + (-1 + 2)).toNat = 11 := by decide
    rw [hidx] at h
    rw [h, hedge (-1) 0 (by norm_num)]
  · have h := hcell 1 0 (by norm_num) (by norm_num) (by norm_num) (by norm_num)
    have hidx : (((0 : Int) + 2) * (2 * 2 + 1) + (1 + 2)).toNat = 13 := by decide
    rw [hidx] at h
    rw [h, hedge 1 0 (by norm_num)]
  · have h := hcell 0 1 (by norm_num) (by norm_num) (by norm_num) (by norm_num)
    have hidx : (((1 : Int) + 2) * (2 * 2 + 1) + (0 + 2)).toNat = 17 := by decide
    rw [hidx] at h
    rw [h, hedge 0 1 (by norm_num)]

/-- C13 as stated fails: with `fwhm = 2` the filter has 25 entries, not the 9 of a
3x3 kernel. -/
theorem createConvFilterFromFWHM_fwhm_two_counterexample :
    (SexySolver.createConvFilterFromFWHM realMath demoRealDefaults 2).convFilter.length ≠ 9 := by
  have hlen := (SexySolver.createConvFilterFromFWHM_cells realMath demoRealDefaults 2).1
  rw [convFilterSize_two] at hlen
  intro h9
  rw [h9] at hlen
  norm_num at hlen

/-! ## Built-in profiles and the conversion to and from a map -/

/-- The filter generator leaves `listName` alone. -/
theorem SexySolver.createConvFilterFromFWHM_listName {α : Type} [LinearOrderedField α]
    [FloorRing α] (m : MathLib α) (params : Parameters α) (fwhm : α) :
    (SexySolver.createConvFilterFromFWHM m params fwhm).listName = params.listName := rfl

/-- The filter generator leaves `downsample` alone. -/
theorem SexySolver.createConvFilterFromFWHM_downsample {α : Type} [LinearOrderedField α]
    [FloorRing α] (m : MathLib α) (params : Parameters α) (fwhm : α) :
    (SexySolver.createConvFilterFromFWHM m params fwhm).downsample = params.downsample := rfl

/-- C14: `getBuiltInProfiles` returns eight profiles whose `listName` values are, in
this order, FastSolving, ParallelSolving, ParallelLargeScale,
ParallelSmallScale, AllStars, SmallSizedStars, MidSizedStars, BigSizedStars;
these names are pairwise distinct. -/
theorem getBuiltInProfiles_listNames {α : Type} [LinearOrderedField α] [FloorRing α]
    (m : MathLib α) (defaults : Parameters α) :
    (SexySolver.getBuiltInProfiles m defaults).map (fun p => p.listName)
      = ["FastSolving", "ParallelSolving", "ParallelLargeScale", "ParallelSmallScale",
         "AllStars", "SmallSizedStars", "MidSizedStars", "BigSizedStars"] ∧
    ((SexySolver.getBuiltInProfiles m defaults).map (fun p => p.listName)).Nodup := by
  have h : (SexySolver.getBuiltInProfiles m defaults).map (fun p => p.listName)
      = ["FastSolving", "ParallelSolving", "ParallelLargeScale", "ParallelSmallScale",
         "AllStars", "SmallSizedStars", "MidSizedStars", "BigSizedStars"] := by
    simp [SexySolver.getBuiltInProfiles, SexySolver.createConvFilterFromFWHM_listName]
  refine ⟨h, ?_⟩
  rw [h]
  decide

/-- The value that `convertToMap` stores under the key `downsample`. -/
theorem SexySolver.convertToMap_downsample {α : Type} (t : QtText α) (params : Parameters α) :
    SexySolver.convertToMap t params "downsample" = some (QVariant.int params.downsample) := by
  simp [SexySolver.convertToMap, QMap.insert]

/-- What `convertFromMap` makes of the key `downsample`: 1 when the stored value
converts to `true`, 0 otherwise. -/
theorem SexySolver.convertFromMap_downsample {α : Type} [LinearOrderedField α] [FloorRing α]
    (t : QtText α) (defaults : Parameters α) (settingsMap : QMap α) :
    (SexySolver.convertFromMap t defaults settingsMap).downsample
      = if (settingsMap.value "downsample" (QVariant.int defaults.downsample)).toBool then 1
        else 0 := by
  unfold SexySolver.convertFromMap
  simp only
  split <;> rfl

/-- After `convertToMap` and `convertFromMap` the field `downsample` is 1 when it
was not 0, whatever it was. -/
theorem SexySolver.roundTrip_downsample {α : Type} [LinearOrderedField α] [FloorRing α]
    (t : QtText α) (defaults params : Parameters α) :
    (SexySolver.convertFromMap t defaults (SexySolver.convertToMap t params)).downsample
      = if params.downsample ≠ 0 then 1 else 0 := by
  rw [SexySolver.convertFromMap_downsample]
  simp [QMap.value, SexySolver.convertToMap_downsample, QVariant.toBool]

/-- C15 at the failing input: the built-in profile FastSolving has
`downsample = 2`, and after `convertToMap` followed by `convertFromMap` its
`downsample` is 1. -/
theorem convertFromMap_convertToMap_FastSolving_downsample {α : Type}
    [LinearOrderedField α] [FloorRing α] (m : MathLib α) (t : QtText α)
    (defaults : Parameters α) :
    ∃ p : Parameters α, (SexySolver.getBuiltInProfiles m defaults)[0]? = some p ∧
      p.listName = "FastSolving" ∧ p.downsample = 2 ∧
      (SexySolver.convertFromMap t defaults (SexySolver.convertToMap t p)).downsample = 1 := by
  refine ⟨SexySolver.createConvFilterFromFWHM m
      { defaults with listName := "FastSolving", downsample := 2, minwidth := 1,
                      maxwidth := 10, keepNum := 50, maxEllipse := 1.5 } 4, ?_, rfl, rfl, ?_⟩
  · simp [SexySolver.getBuiltInProfiles]
  · rw [SexySolver.roundTrip_downsample, SexySolver.createConvFilterFromFWHM_downsample]
    simp

/-- Dropping the fraction of a whole number gives the number back. -/
theorem truncToInt_intCast {α : Type} [LinearOrderedField α] [FloorRing α] (i : Int) :
    truncToInt (i : α) = i := by
  unfold truncToInt
  split <;> simp

/-- The cast of an enumerator's value is the enumerator. -/
theorem MultiAlgo.ofInt_toInt (a : MultiAlgo) : MultiAlgo.ofInt a.toInt = a := by
  cases a <;> rfl

/-- Every field other than `downsample` and `convFilter` comes back unchanged from
`convertToMap` followed by `convertFromMap`. -/
theorem SexySolver.roundTrip_other_fields {α : Type} [LinearOrderedField α] [FloorRing α]
    (t : QtText α) (defaults params : Parameters α) :
    SexySolver.convertFromMap t defaults (SexySolver.convertToMap t params)
      = { params with
          downsample :=
            (SexySolver.convertFromMap t defaults (SexySolver.convertToMap t params)).downsample
          convFilter :=
            (SexySolver.convertFromMap t defaults
              (SexySolver.convertToMap t params)).convFilter } := by
  have hc : (SexySolver.convertToMap t params).contains "convFilter" = true := by
    simp [SexySolver.convertToMap, QMap.insert, QMap.contains]
  unfold SexySolver.convertFromMap
  simp only [hc, if_true]
  simp [QMap.value, SexySolver.convertToMap, QMap.insert, QVariant.toDouble, QVariant.toInt,
    QVariant.toBool, QVariant.toString, truncToInt_intCast, MultiAlgo.ofInt_toInt]

/-- On the empty map `convertFromMap` returns the defaults except in
`apertureShape`, `kron_fact`, `subpix` and `r_min`, which receive the
conversion of the default `listName` to a number, and in `downsample`, which
passes through `toBool`. -/
theorem SexySolver.convertFromMap_empty {α : Type} [LinearOrderedField α] [FloorRing α]
    (t : QtText α) (defaults : Parameters α) :
    SexySolver.convertFromMap t defaults QMap.empty
      = { defaults with
          apertureShape := (QVariant.string defaults.listName).toInt t
          kron_fact := (QVariant.string defaults.listName).toDouble t
          subpix := (QVariant.string defaults.listName).toInt t
          r_min := (QVariant.string defaults.listName).toDouble t
          downsample := if defaults.downsample = 0 then 0 else 1 } := by
  unfold SexySolver.convertFromMap
  simp [QMap.value, QMap.empty, QMap.contains, QVariant.toDouble, QVariant.toInt,
    QVariant.toBool, QVariant.toString, truncToInt_intCast, MultiAlgo.ofInt_toInt]

/-- Two maps that agree on the keys that `convertFromMap` reads give the same
result: other keys have no effect. -/
theorem SexySolver.convertFromMap_unknown_keys {α : Type} [LinearOrderedField α]
    [FloorRing α] (t : QtText α) (defaults : Parameters α) (m1 m2 : QMap α)
    (h : ∀ k ∈ ["listName", "apertureShape", "kron_fact", "subpix", "r_min", "magzero",
      "minarea", "deblend_thresh", "deblend_contrast", "clean", "clean_param", "fwhm",
      "convFilter", "maxSize", "minSize", "maxEllipse", "keepNum", "removeBrightest",
      "removeDimmest", "saturationLimit", "maxwidth", "minwidth", "inParallel", "multiAlgo",
      "solverTimeLimit", "resort", "downsample", "search_radius", "logratio_tokeep",
      "logratio_totune", "logratio_tosolve"], m1 k = m2 k) :
    SexySolver.convertFromMap t defaults m1 = SexySolver.convertFromMap t defaults m2 := by
  unfold SexySolver.convertFromMap
  simp only [QMap.value, QMap.contains]
  simp only [h _ (by decide : "listName" ∈ _), h _ (by decide : "apertureShape" ∈ _),
    h _ (by decide : "kron_fact" ∈ _), h _ (by decide : "subpix" ∈ _),
    h _ (by decide : "r_min" ∈ _), h _ (by decide : "magzero" ∈ _),
    h _ (by decide : "minarea" ∈ _), h _ (by decide : "deblend_thresh" ∈ _),
    h _ (by decide : "deblend_contrast" ∈ _), h _ (by decide : "clean" ∈ _),
    h _ (by decide : "clean_param" ∈ _), h _ (by decide : "fwhm" ∈ _),
    h _ (by decide : "convFilter" ∈ _), h _ (by decide : "maxSize" ∈ _),
    h _ (by decide : "minSize" ∈ _), h _ (by decide : "maxEllipse" ∈ _),
    h _ (by decide : "keepNum" ∈ _), h _ (by decide : "removeBrightest" ∈ _),
    h _ (by decide : "removeDimmest" ∈ _), h _ (by decide : "saturationLimit" ∈ _),
    h _ (by decide : "maxwidth" ∈ _), h _ (by decide : "minwidth" ∈ _),
    h _ (by decide : "inParallel" ∈ _), h _ (by decide : "multiAlgo" ∈ _),
    h _ (by decide : "solverTimeLimit" ∈ _), h _ (by decide : "resort" ∈ _),
    h _ (by decide : "downsample" ∈ _), h _ (by decide : "search_radius" ∈ _),
    h _ (by decide : "logratio_tokeep" ∈ _), h _ (by decide : "logratio_totune" ∈ _),
    h _ (by decide : "logratio_tosolve" ∈ _)]

/-- C16 at the failing input: neither the map holding only `listName = 7` nor the
map holding only `listName = 8` has the keys `apertureShape`, `kron_fact`,
`subpix` and `r_min`, yet `convertFromMap` gives these four fields the value 7
for the first map and 8 for the second, whatever the library defaults are; so
for no defaults do both results hold the default `kron_fact`. -/
theorem convertFromMap_absent_key_takes_listName (defaults : Parameters ℚ) :
    demoMapSeven "kron_fact" = none ∧ demoMapEight "kron_fact" = none ∧
    (SexySolver.convertFromMap demoText defaults demoMapSeven).kron_fact = 7 ∧
    (SexySolver.convertFromMap demoText defaults demoMapSeven).apertureShape = 7 ∧
    (SexySolver.convertFromMap demoText defaults demoMapSeven).subpix = 7 ∧
    (SexySolver.convertFromMap demoText defaults demoMapSeven).r_min = 7 ∧
    (SexySolver.convertFromMap demoText defaults demoMapEight).kron_fact = 8 ∧
    ¬ ((SexySolver.convertFromMap demoText defaults demoMapSeven).kron_fact
          = defaults.kron_fact ∧
       (SexySolver.convertFromMap demoText defaults demoMapEight).kron_fact
          = defaults.kron_fact) := by
  have h7 : (SexySolver.convertFromMap demoText defaults demoMapSeven).kron_fact = 7 := by
    unfold SexySolver.convertFromMap
    simp only
    split <;> simp [QMap.value, demoMapSeven, QMap.insert, QMap.empty, QVariant.toDouble,
      QVariant.toString, demoText]
  have h8 : (SexySolver.convertFromMap demoText defaults demoMapEight).kron_fact = 8 := by
    unfold SexySolver.convertFromMap
    simp only
    split <;> simp [QMap.value, demoMapEight, QMap.insert, QMap.empty, QVariant.toDouble,
      QVariant.toString, demoText]
  refine ⟨by simp [demoMapSeven, QMap.insert, QMap.empty],
    by simp [demoMapEight, QMap.insert, QMap.empty], h7, ?_, ?_, ?_, h8, ?_⟩
  · unfold SexySolver.convertFromMap
    simp only
    split <;> simp [QMap.value, demoMapSeven, QMap.insert, QMap.empty, QVariant.toInt,
      QVariant.toString, demoText]
  · unfold SexySolver.convertFromMap
    simp only
    split <;> simp [QMap.value, demoMapSeven, QMap.insert, QMap.empty, QVariant.toInt,
      QVariant.toString, demoText]
  · unfold SexySolver.convertFromMap
    simp only
    split <;> simp [QMap.value, demoMapSeven, QMap.insert, QMap.empty, QVariant.toDouble,
      QVariant.toString, demoText]
  · rw [h7, h8]
    rintro ⟨ha, hb⟩
    rw [← ha] at hb
    norm_num at hb

/-! ## `abort` -/

/-- C21: `abort` calls `abort` on every child of `parallelSolvers` and on the
primary worker when there is one, and leaves `wasAborted = true`; a second
call changes nothing in the orchestrator's own fields (everything but the
workers, which receive one more call), and `solution`, `hasSolved`,
`hasSextracted`, `hasFailed` and `hasWCS` are never changed. -/
theorem abort_reaches_all_workers (s : SexySolver) :
    s.abort.parallelSolvers = s.parallelSolvers.map ChildSolver.abort ∧
    (∀ (i : Nat) (c : ChildSolver), s.parallelSolvers[i]? = some c →
      ∃ d, s.abort.parallelSolvers[i]? = some d ∧ d.abortCalls = c.abortCalls + 1) ∧
    s.abort.sextractorSolver = s.sextractorSolver.map PrimarySolver.abort ∧
    (∀ p : PrimarySolver, s.sextractorSolver = some p →
      ∃ q, s.abort.sextractorSolver = some q ∧ q.abortCalls = p.abortCalls + 1) ∧
    s.abort.wasAborted = true ∧
    ({ s.abort.abort with parallelSolvers := [], sextractorSolver := none } : SexySolver)
      = { s.abort with parallelSolvers := [], sextractorSolver := none } ∧
    s.abort.solution = s.solution ∧ s.abort.hasSolved = s.hasSolved ∧
    s.abort.hasSextracted = s.hasSextracted ∧ s.abort.hasFailed = s.hasFailed ∧
    s.abort.hasWCS = s.hasWCS := by
  refine ⟨rfl, ?_, rfl, ?_, rfl, rfl, rfl, rfl, rfl, rfl, rfl⟩
  · intro i c hc
    refine ⟨c.abort, ?_, rfl⟩
    show (s.parallelSolvers.map ChildSolver.abort)[i]? = some c.abort
    rw [List.getElem?_map, hc]
    rfl
  · intro p hp
    refine ⟨p.abort, ?_, rfl⟩
    show s.sextractorSolver.map PrimarySolver.abort = some p.abort
    rw [hp]
    rfl

/-! ## The winner shuts the others down -/

/-- The `foreach` of the success branch, position by position. -/
theorem shutDownLoop_getElem (r : Nat) (l : List ChildSolver) :
    ∀ (i j : Nat), (shutDownLoop r i l)[j]? =
      (l[j]?).map (fun solver =>
        if i + j ≠ r ∧ solver.running then
          ({ solver with finishedConnected := false, logConnected := false } : ChildSolver).abort
        else { solver with finishedConnected := false, logConnected := false }) := by
  induction l with
  | nil => intro i j; simp [shutDownLoop]
  | cons a rest ih =>
    intro i j
    cases j with
    | zero => simp [shutDownLoop]
    | succ j =>
      simp only [shutDownLoop, List.getElem?_cons_succ]
      rw [ih (i + 1) j]
      have : i + 1 + j = i + (j + 1) := by omega
      rw [this]

/-- C24: when a child reports code 0, every child of `parallelSolvers` loses its
`finished` and `logOutput` connections, the winner included, and `abort` is
called once on exactly the children that are running and are not the
reporting child; nothing else changes on a child. -/
theorem finishParallelSolve_shuts_down_others (s : SexySolver) (r : Nat) (w : ChildSolver)
    (hr : s.parallelSolvers[r]? = some w) :
    (s.finishParallelSolve r 0).parallelSolvers.length = s.parallelSolvers.length ∧
    ∀ (i : Nat) (c : ChildSolver), s.parallelSolvers[i]? = some c →
      ∃ d, (s.finishParallelSolve r 0).parallelSolvers[i]? = some d ∧
        d.finishedConnected = false ∧ d.logConnected = false ∧
        d.abortCalls = (if i ≠ r ∧ c.running = true then c.abortCalls + 1 else c.abortCalls) ∧
        d = { c with finishedConnected := false, logConnected := false,
                     abortCalls := d.abortCalls } := by
  have hps : (s.finishParallelSolve r 0).parallelSolvers = shutDownLoop r 0 s.parallelSolvers := by
    unfold SexySolver.finishParallelSolve
    simp only [hr, if_true]
    split <;> simp
  rw [hps]
  constructor
  · have hlen : ∀ (l : List ChildSolver) (i : Nat), (shutDownLoop r i l).length = l.length := by
      intro l
      induction l with
      | nil => intro i; rfl
      | cons a rest ih => intro i; simp [shutDownLoop, ih]
    exact hlen _ _
  · intro i c hc
    rw [shutDownLoop_getElem, hc]
    simp only [Option.map_some', Nat.zero_add]
    by_cases hcond : i ≠ r ∧ c.running = true
    · rw [if_pos hcond, if_pos hcond]
      exact ⟨_, rfl, rfl, rfl, rfl, rfl⟩
    · rw [if_neg hcond, if_neg hcond]
      exact ⟨_, rfl, rfl, rfl, rfl, rfl⟩

/-- C24 on a race of three children won by the first: the second, still running,
is aborted once; the third, already stopped, and the winner are not. -/
theorem finishParallelSolve_shuts_down_others_witness :
    (∃ d, (demoRaceOfThree.finishParallelSolve 0 0).parallelSolvers[1]? = some d ∧
      d.finishedConnected = false ∧ d.abortCalls = 1) ∧
    (∃ d, (demoRaceOfThree.finishParallelSolve 0 0).parallelSolvers[2]? = some d ∧
      d.finishedConnected = false ∧ d.abortCalls = 0) ∧
    (∃ d, (demoRaceOfThree.finishParallelSolve 0 0).parallelSolvers[0]? = some d ∧
      d.finishedConnected = false ∧ d.abortCalls = 0) := by
  have h := (finishParallelSolve_shuts_down_others demoRaceOfThree 0
    { demoChild 0 with finishedConnected := true, started := true, running := true } rfl).2
  refine ⟨?_, ?_, ?_⟩
  · obtain ⟨d, h1, h2, _, h4, _⟩ := h 1 _ rfl
    exact ⟨d, h1, h2, by rw [h4]; decide⟩
  · obtain ⟨d, h1, h2, _, h4, _⟩ := h 2 _ rfl
    exact ⟨d, h1, h2, by rw [h4]; decide⟩
  · obtain ⟨d, h1, h2, _, h4, _⟩ := h 0 _ rfl
    exact ⟨d, h1, h2, by rw [h4]; decide⟩

/-! ## `setUseSubframe`, what is stored -/

/-- C25: for every frame `(x, y, w, h)`, `setUseSubframe` stores the width `|w|`
and the height `|h|`, stores as origin the point
`(x + w if w < 0 else x, y + h if h < 0 else y)` with each coordinate raised to
0 and then lowered to the image size (the clamp to `[0, W] x [0, H]`), and
sets `useSubframe` to true. -/
theorem setUseSubframe_stores (s : SexySolver) (frame : QRect) :
    (s.setUseSubframe frame).subframe.width = |frame.width| ∧
    (s.setUseSubframe frame).subframe.height = |frame.height| ∧
    (s.setUseSubframe frame).subframe.x
      = min (max (if frame.width < 0 then frame.x + frame.width else frame.x) 0)
          s.stats.width ∧
    (s.setUseSubframe frame).subframe.y
      = min (max (if frame.height < 0 then frame.y + frame.height else frame.y) 0)
          s.stats.height ∧
    (0 ≤ s.stats.width →
      (s.setUseSubframe frame).subframe.x
        = max 0 (min (if frame.width < 0 then frame.x + frame.width else frame.x)
            s.stats.width)) ∧
    (0 ≤ s.stats.height →
      (s.setUseSubframe frame).subframe.y
        = max 0 (min (if frame.height < 0 then frame.y + frame.height else frame.y)
            s.stats.height)) ∧
    (s.setUseSubframe frame).useSubframe = true := by
  have hw : (if frame.width < 0 then -frame.width else frame.width) = |frame.width| := by
    split
    · rw [abs_of_neg (by assumption)]
    · rw [abs_of_nonneg (by omega)]
  have hh : (if frame.height < 0 then -frame.height else frame.height) = |frame.height| := by
    split
    · rw [abs_of_neg (by assumption)]
    · rw [abs_of_nonneg (by omega)]
  unfold SexySolver.setUseSubframe
  simp only [hw, hh]
  refine ⟨trivial, trivial, ?_, ?_, ?_, ?_, trivial⟩
  · generalize (if frame.width < 0 then frame.x + frame.width else frame.x) = x1
    split <;> split <;> omega
  · generalize (if frame.height < 0 then frame.y + frame.height else frame.y) = y1
    split <;> split <;> omega
  · intro hW
    generalize (if frame.width < 0 then frame.x + frame.width else frame.x) = x1
    split <;> split <;> omega
  · intro hH
    generalize (if frame.height < 0 then frame.y + frame.height else frame.y) = y1
    split <;> split <;> omega

/-! ## The profiles ParallelLargeScale and ParallelSmallScale -/

/-- C27: in the list returned by `getBuiltInProfiles` the entry ParallelLargeScale
(position 2) has `minwidth = 1` and the entry ParallelSmallScale (position 3)
has the `minwidth` of a default-constructed `Parameters`: the assignment to
`parLargeSolving.minwidth` in the ParallelSmallScale block reaches no entry of
the list. -/
theorem getBuiltInProfiles_minwidth {α : Type} [LinearOrderedField α] [FloorRing α]
    (m : MathLib α) (defaults : Parameters α) :
    (∃ p, (SexySolver.getBuiltInProfiles m defaults)[2]? = some p ∧
      p.listName = "ParallelLargeScale" ∧ p.minwidth = 1) ∧
    (∃ p, (SexySolver.getBuiltInProfiles m defaults)[3]? = some p ∧
      p.listName = "ParallelSmallScale" ∧ p.minwidth = defaults.minwidth) := by
  constructor
  · refine ⟨SexySolver.createConvFilterFromFWHM m
      { defaults with listName := "ParallelLargeScale", multiAlgorithm := MultiAlgo.MULTI_AUTO,
                      downsample := 2, minwidth := 1, maxwidth := 10, keepNum := 50,
                      maxEllipse := 1.5 } 2, ?_, rfl, rfl⟩
    simp [SexySolver.getBuiltInProfiles]
  · refine ⟨SexySolver.createConvFilterFromFWHM m
      { defaults with listName := "ParallelSmallScale", multiAlgorithm := MultiAlgo.MULTI_AUTO,
                      downsample := 2, maxwidth := 10, keepNum := 50,
                      maxEllipse := 1.5 } 2, ?_, rfl, rfl⟩
    simp [SexySolver.getBuiltInProfiles]

/-! ## `checkParameters`: the exact admission rule and what is left alone -/

/-- What `checkParameters` makes of `inParallel`. -/
theorem SexySolver.checkParameters_inParallel (env : Env) (s : SexySolver) :
    (s.checkParameters env).2.params.inParallel
      = (s.params.inParallel && decide (env.availableRAM ≠ 0) &&
          decide (env.availableRAM > totalIndexSize env s.indexFolderPaths)) := by
  obtain ⟨m, hm⟩ := SexySolver.resolveMultiAlgorithm_frame s
  unfold SexySolver.checkParameters
  simp only
  generalize s.resolveMultiAlgorithm = s1 at hm
  have hp : s1.params.inParallel = s.params.inParallel := by rw [hm]
  have hi : s1.indexFolderPaths = s.indexFolderPaths := by rw [hm]
  unfold SexySolver.enoughRAMisAvailableFor
  simp only [hi]
  cases hpar : s.params.inParallel
  · simp [hp, hpar]
  · by_cases h0 : env.availableRAM = 0
    · simp [hp, hpar, h0]
    · by_cases hgt : env.availableRAM > totalIndexSize env s.indexFolderPaths
      · simp [hp, hpar, h0, hgt]
      · simp [hp, hpar, h0, hgt]

/-- C28: for every entry state, `inParallel` is true after `checkParameters` if and
only if it was true on entry, the installed RAM is not 0 and the installed RAM
is strictly greater than the total size of the index files; the call never
turns `inParallel` on and always returns true. -/
theorem checkParameters_exact_admission (env : Env) (s : SexySolver) :
    ((s.checkParameters env).2.params.inParallel = true ↔
      (s.params.inParallel = true ∧ env.availableRAM ≠ 0 ∧
        env.availableRAM > totalIndexSize env s.indexFolderPaths)) ∧
    (s.params.inParallel = false → (s.checkParameters env).2.params.inParallel = false) ∧
    (s.checkParameters env).1 = true := by
  refine ⟨?_, ?_, ?_⟩
  · rw [SexySolver.checkParameters_inParallel]
    simp [Bool.and_eq_true, and_assoc]
  · intro h
    rw [SexySolver.checkParameters_inParallel, h]
    rfl
  · unfold SexySolver.checkParameters
    simp only
    split
    · split <;> rfl
    · rfl

/-- C29: after `checkParameters` the strategy is never `MULTI_AUTO`; a strategy
that was `NOT_MULTI`, `MULTI_SCALES` or `MULTI_DEPTHS` on entry is unchanged;
and the state differs from the entry state at most in `params.multiAlgorithm`,
`params.inParallel` and the log, so `use_scale`, `use_position` and every other
field of `Parameters` are unchanged. -/
theorem checkParameters_resolves_and_preserves (env : Env) (s : SexySolver) :
    (s.checkParameters env).2.params.multiAlgorithm ≠ MultiAlgo.MULTI_AUTO ∧
    (s.params.multiAlgorithm ≠ MultiAlgo.MULTI_AUTO →
      (s.checkParameters env).2.params.multiAlgorithm = s.params.multiAlgorithm) ∧
    (s.checkParameters env).2.use_scale = s.use_scale ∧
    (s.checkParameters env).2.use_position = s.use_position ∧
    (s.checkParameters env).2 =
      { s with
        params := { s.params with
                    multiAlgorithm := (s.checkParameters env).2.params.multiAlgorithm
                    inParallel := (s.checkParameters env).2.params.inParallel }
        logOutput := (s.checkParameters env).2.logOutput } := by
  obtain ⟨m, p, l, hframe⟩ := SexySolver.checkParameters_frame env s
  have hm := SexySolver.checkParameters_multiAlgorithm env s
  refine ⟨?_, ?_, ?_, ?_, ?_⟩
  · rw [hm]
    unfold SexySolver.resolveMultiAlgorithm
    split
    · split
      · simp
      · split
        · simp
        · split <;> simp
    · assumption
  · intro hne
    rw [hm]
    unfold SexySolver.resolveMultiAlgorithm
    rw [if_neg hne]
  · rw [hframe]
  · rw [hframe]
  · rw [hframe]

/-! ## How many `MULTI_DEPTHS` children there are -/

/-- Position `n` exists among the `MULTI_DEPTHS` children exactly when the counter
`1 + n*inc` is still below `sourceNum`. -/
theorem SexySolver.parallelSolve_multiDepths_lt_length (env : Env) (s : SexySolver)
    (hmulti : s.params.multiAlgorithm = MultiAlgo.MULTI_DEPTHS)
    (hproc : s.processType = ProcessType.SEXYSOLVER ∨
      s.processType = ProcessType.EXT_SEXTRACTORSOLVER ∨
      s.processType = ProcessType.INT_SEP_EXT_SOLVER) (n : Nat) :
    n < (s.parallelSolve env).parallelSolvers.length ↔
      1 + n * depthInc (depthSourceNum s.params.keepNum) env.idealThreadCount
        < depthSourceNum s.params.keepNum := by
  have hget := SexySolver.parallelSolve_multiDepths_getElem env s hmulti hproc n
  constructor
  · intro hn
    by_contra hc
    rw [if_neg hc, List.getElem?_eq_getElem hn] at hget
    simp at hget
  · intro hc
    rw [if_pos hc] at hget
    by_contra hn
    rw [List.getElem?_eq_none (by omega)] at hget
    simp at hget

/-- For a positive divisor, a truncated quotient below 10 means a dividend below
ten times the divisor. -/
theorem tdiv_lt_ten (a b : Int) (hb : 0 < b) (h : Int.tdiv a b < 10) : a < 10 * b := by
  by_cases ha : 0 ≤ a
  · rw [Int.tdiv_eq_ediv ha (le_of_lt hb)] at h
    exact (Int.ediv_lt_iff_lt_mul hb).mp h
  · have : 0 < 10 * b := by omega
    omega

/-- C22, amended: for every `T ≥ 1` and every `sourceNum` with `sourceNum / T < 10`,
the step is raised to 10 and the number of `MULTI_DEPTHS` children is at most
`T`; it is strictly less than `T` exactly when `sourceNum ≤ 10*T - 9`. -/
theorem multiDepths_children_count_clamped (env : Env) (s : SexySolver) (T : Nat)
    (hT : 1 ≤ T) (hthreads : env.idealThreadCount = T)
    (hmulti : s.params.multiAlgorithm = MultiAlgo.MULTI_DEPTHS)
    (hproc : s.processType = ProcessType.SEXYSOLVER ∨
      s.processType = ProcessType.EXT_SEXTRACTORSOLVER ∨
      s.processType = ProcessType.INT_SEP_EXT_SOLVER)
    (hclamp : Int.tdiv (depthSourceNum s.params.keepNum) T < 10) :
    depthInc (depthSourceNum s.params.keepNum) T = 10 ∧
    (s.parallelSolve env).parallelSolvers.length ≤ T ∧
    ((s.parallelSolve env).parallelSolvers.length < T ↔
      depthSourceNum s.params.keepNum ≤ 10 * (T : Int) - 9) := by
  have hinc : depthInc (depthSourceNum s.params.keepNum) T = 10 := by
    unfold depthInc
    rw [if_pos hclamp]
  have hlt := SexySolver.parallelSolve_multiDepths_lt_length env s hmulti hproc
  rw [hthreads, hinc] at hlt
  have hS := tdiv_lt_ten _ _ (by exact_mod_cast hT : (0 : Int) < T) hclamp
  generalize depthSourceNum s.params.keepNum = S at hlt hS hinc
  generalize (s.parallelSolve env).parallelSolvers.length = len at hlt
  have hlen : ¬ (len < len) := lt_irrefl _
  rw [hlt len] at hlen
  refine ⟨hinc, ?_, ?_⟩
  · by_contra hgt
    have := (hlt T).mp (by omega)
    omega
  · constructor
    · intro h
      have h1 : ¬ (T - 1 < len) := by omega
      rw [hlt (T - 1)] at h1
      have hc : ((T - 1 : Nat) : Int) = (T : Int) - 1 := by omega
      rw [hc] at h1
      omega
    · intro h
      by_contra hge
      have h1 := (hlt (T - 1)).mp (by omega)
      have hc : ((T - 1 : Nat) : Int) = (T : Int) - 1 := by omega
      rw [hc] at h1
      omega

/-- The amended C22 at `keepNum = 50` on a machine of eight threads: the step is
clamped to 10. -/
theorem multiDepths_children_count_clamped_witness :
    depthInc (depthSourceNum demoDepths.params.keepNum) ((8 : Nat) : Int) = 10 :=
  (multiDepths_children_count_clamped { demoEnv with idealThreadCount := 8 } demoDepths 8
    (by decide) (by decide) (by decide) (by decide) (by decide)).1

/-- C22 as stated fails at `keepNum = 32` with `T = 4`: `32 / 4 = 8 < 10`, the step
is 10, and the four children with `depthlo` 1, 11, 21, 31 are created, which is
not fewer than `T`. -/
theorem multiDepths_fewer_than_T_counterexample :
    Int.tdiv (depthSourceNum demoKeepThirtyTwo.params.keepNum) demoEnv.idealThreadCount < 10 ∧
    (demoKeepThirtyTwo.parallelSolve demoEnv).parallelSolvers.length = 4 ∧
    ¬ ((demoKeepThirtyTwo.parallelSolve demoEnv).parallelSolvers.length
        < demoEnv.idealThreadCount.toNat) := by
  have hlt := SexySolver.parallelSolve_multiDepths_lt_length demoEnv demoKeepThirtyTwo
    (by decide) (by decide)
  have h3 := (hlt 3).mpr (by decide)
  have h4 : ¬ (4 < (demoKeepThirtyTwo.parallelSolve demoEnv).parallelSolvers.length) := by
    rw [hlt 4]; decide
  have hlen : (demoKeepThirtyTwo.parallelSolve demoEnv).parallelSolvers.length = 4 := by omega
  refine ⟨by decide, hlen, ?_⟩
  rw [hlen]
  decide

/-- What a log statement does to the log. -/
theorem SexySolver.log_logOutput (s : SexySolver) (m : LogMsg) :
    (s.log m).logOutput
      = if s.logLevel ≠ log_level.LOG_NONE then s.logOutput ++ [m] else s.logOutput := by
  unfold SexySolver.log
  split <;> rfl

/-- The `MULTI_DEPTHS` loop only adds to the log. -/
theorem SexySolver.depthsLoop_logOutput (env : Env) (sourceNum inc : Int) (hinc : 0 < inc)
    (n : Nat) :
    ∀ (i : Int) (s : SexySolver), (sourceNum - i).toNat ≤ n →
      ∃ added : List LogMsg,
        (s.depthsLoop env sourceNum inc hinc i).logOutput = s.logOutput ++ added := by
  induction n with
  | zero =>
    intro i s hn
    have hlt : ¬ (i < sourceNum) := by omega
    rw [SexySolver.depthsLoop, if_neg hlt]
    exact ⟨[], by simp⟩
  | succ n ih =>
    intro i s hn
    by_cases hlt : i < sourceNum
    · rw [SexySolver.depthsLoop, if_pos hlt]
      simp only
      obtain ⟨added, h⟩ := ih (i + inc)
        (({ s with parallelSolvers := s.parallelSolvers ++
            [{ (env.spawnChildSolver i).connectFinished with
                depthlo := i, depthhi := i + inc }] } : SexySolver).log
          (LogMsg.depthSolver (s.parallelSolvers ++
            [{ (env.spawnChildSolver i).connectFinished with
                depthlo := i, depthhi := i + inc }]).length i (i + inc)))
        (by omega)
      rw [h, SexySolver.log_logOutput]
      split
      · exact ⟨_, List.append_assoc _ _ _⟩
      · exact ⟨_, rfl⟩
    · rw [SexySolver.depthsLoop, if_neg hlt]
      exact ⟨[], by simp⟩

/-- With logging on, the `MULTI_DEPTHS` branch announces `sourceNum / inc`
threads. -/
theorem SexySolver.parallelSolve_multiDepths_announces (env : Env) (s : SexySolver)
    (hmulti : s.params.multiAlgorithm = MultiAlgo.MULTI_DEPTHS)
    (hproc : s.processType = ProcessType.SEXYSOLVER ∨
      s.processType = ProcessType.EXT_SEXTRACTORSOLVER ∨
      s.processType = ProcessType.INT_SEP_EXT_SOLVER)
    (hlog : s.logLevel ≠ log_level.LOG_NONE) :
    LogMsg.startingDepthThreads
        (Int.tdiv (depthSourceNum s.params.keepNum)
          (depthInc (depthSourceNum s.params.keepNum) env.idealThreadCount))
      ∈ (s.parallelSolve env).logOutput := by
  have hguard : ¬ (s.params.multiAlgorithm = MultiAlgo.NOT_MULTI ∨
      ¬ (s.processType = ProcessType.SEXYSOLVER ∨
         s.processType = ProcessType.EXT_SEXTRACTORSOLVER ∨
         s.processType = ProcessType.INT_SEP_EXT_SOLVER)) := by
    rw [hmulti]; simp [hproc]
  have hns : ¬ (MultiAlgo.MULTI_DEPTHS = MultiAlgo.MULTI_SCALES) := by decide
  unfold SexySolver.parallelSolve
  rw [if_neg hguard]
  simp only [hmulti, hns, if_false, if_true]
  obtain ⟨added, h⟩ := SexySolver.depthsLoop_logOutput env
    (depthSourceNum s.params.keepNum)
    (depthInc (depthSourceNum s.params.keepNum) env.idealThreadCount)
    (lt_of_lt_of_le (by norm_num) (depthInc_ge_ten _ _)) _ 1
    (({ s with parallelSolvers := [], parallelFails := 0 } : SexySolver).log
      (LogMsg.startingDepthThreads (Int.tdiv (depthSourceNum s.params.keepNum)
        (depthInc (depthSourceNum s.params.keepNum) env.idealThreadCount))))
    (le_refl _)
  rw [h, SexySolver.log_logOutput]
  have hlog2 : ({ s with parallelSolvers := [], parallelFails := 0 } : SexySolver).logLevel
      ≠ log_level.LOG_NONE := hlog
  rw [if_pos hlog2]
  simp

/-- The number of `MULTI_DEPTHS` children for `sourceNum ≥ 1`. -/
theorem SexySolver.parallelSolve_multiDepths_length (env : Env) (s : SexySolver)
    (hmulti : s.params.multiAlgorithm = MultiAlgo.MULTI_DEPTHS)
    (hproc : s.processType = ProcessType.SEXYSOLVER ∨
      s.processType = ProcessType.EXT_SEXTRACTORSOLVER ∨
      s.processType = ProcessType.INT_SEP_EXT_SOLVER)
    (hS : 1 ≤ depthSourceNum s.params.keepNum) :
    ((s.parallelSolve env).parallelSolvers.length : Int)
      = Int.ceil ((((depthSourceNum s.params.keepNum - 1 : Int)) : ℚ)
          / ((depthInc (depthSourceNum s.params.keepNum) env.idealThreadCount : Int) : ℚ)) := by
  have hlt := SexySolver.parallelSolve_multiDepths_lt_length env s hmulti hproc
  have hinc := depthInc_ge_ten (depthSourceNum s.params.keepNum) env.idealThreadCount
  generalize depthInc (depthSourceNum s.params.keepNum) env.idealThreadCount = inc at hlt hinc
  generalize depthSourceNum s.params.keepNum = S at hlt hS
  generalize (s.parallelSolve env).parallelSolvers.length = len at hlt
  have hincq : (0 : ℚ) < (inc : ℚ) := by exact_mod_cast (by omega : (0 : Int) < inc)
  symm
  rw [Int.ceil_eq_iff]
  constructor
  · by_cases h0 : len = 0
    · subst h0
      have : (0 : ℚ) ≤ ((S - 1 : Int) : ℚ) / (inc : ℚ) := by
        apply div_nonneg _ (le_of_lt hincq)
        exact_mod_cast (by omega : (0 : Int) ≤ S - 1)
      simp only [Nat.cast_zero, Int.cast_zero]
      linarith
    · have h1 := (hlt (len - 1)).mp (by omega)
      have hc : ((len - 1 : Nat) : Int) = (len : Int) - 1 := by omega
      rw [hc] at h1
      rw [lt_div_iff₀ hincq]
      have h2 : ((len : Int) - 1) * inc < S - 1 := by linarith
      exact_mod_cast h2
  · have h1 : ¬ (len < len) := lt_irrefl _
    rw [hlt len] at h1
    rw [div_le_iff₀ hincq]
    have h2 : S - 1 ≤ (len : Int) * inc := by linarith
    exact_mod_cast h2

/-- The children created for `keepNum = 50` on four threads. -/
theorem SexySolver.parallelSolve_demoDepths :
    (demoDepths.parallelSolve demoEnv).parallelSolvers.map (fun c => c.depthlo)
      = [1, 13, 25, 37, 49] := by
  have hget := SexySolver.parallelSolve_multiDepths_getElem demoEnv demoDepths
    (by decide) (by decide)
  have hS : depthSourceNum demoDepths.params.keepNum = 50 := by decide
  have hI : depthInc (depthSourceNum demoDepths.params.keepNum) demoEnv.idealThreadCount
      = 12 := by decide
  rw [hI, hS] at hget
  apply List.ext_getElem?
  intro j
  rw [List.getElem?_map, hget j]
  rcases j with _ | _ | _ | _ | _ | j
  · rfl
  · rfl
  · rfl
  · rfl
  · rfl
  · rw [if_neg (by push_cast; omega)]
    simp

/-- C30: for every `sourceNum ≥ 1` and `T ≥ 1`, `keepNum` being an `int` value and
no `i + inc` computed by the loop exceeding the largest `int` (2147483647),
the number of `MULTI_DEPTHS` children is `ceil((sourceNum - 1) / inc)` with
`inc = max(10, sourceNum / T)`; this count can exceed both `T` and the thread
count `sourceNum / inc` announced in the log: for `keepNum = 50` and `T = 4`
the step is 12, the log announces 4 threads and the 5 children with `depthlo`
1, 13, 25, 37, 49 are created. -/
theorem multiDepths_children_count (env : Env) (s : SexySolver) (T : Nat)
    (hT : 1 ≤ T) (hthreads : env.idealThreadCount = T)
    (hmulti : s.params.multiAlgorithm = MultiAlgo.MULTI_DEPTHS)
    (hproc : s.processType = ProcessType.SEXYSOLVER ∨
      s.processType = ProcessType.EXT_SEXTRACTORSOLVER ∨
      s.processType = ProcessType.INT_SEP_EXT_SOLVER)
    (hS : 1 ≤ depthSourceNum s.params.keepNum)
    (hkeep : -2147483648 ≤ s.params.keepNum ∧ s.params.keepNum ≤ 2147483647)
    (hint : ∀ j : Nat,
      1 + (j : Int) * depthInc (depthSourceNum s.params.keepNum) T
          < depthSourceNum s.params.keepNum →
      1 + (j : Int) * depthInc (depthSourceNum s.params.keepNum) T
          + depthInc (depthSourceNum s.params.keepNum) T ≤ 2147483647) :
    depthInc (depthSourceNum s.params.keepNum) T
      = max 10 (Int.tdiv (depthSourceNum s.params.keepNum) T) ∧
    ((s.parallelSolve env).parallelSolvers.length : Int)
      = Int.ceil ((((depthSourceNum s.params.keepNum - 1 : Int)) : ℚ)
          / ((depthInc (depthSourceNum s.params.keepNum) T : Int) : ℚ)) ∧
    (∀ c ∈ (s.parallelSolve env).parallelSolvers,
      1 ≤ c.depthlo ∧ c.depthlo ≤ 2147483647 ∧ 1 ≤ c.depthhi ∧ c.depthhi ≤ 2147483647) ∧
    (demoDepths.params.keepNum = 50 ∧ demoEnv.idealThreadCount = 4 ∧
     depthInc (depthSourceNum demoDepths.params.keepNum) demoEnv.idealThreadCount = 12 ∧
     LogMsg.startingDepthThreads 4 ∈ (demoDepths.parallelSolve demoEnv).logOutput ∧
     (demoDepths.parallelSolve demoEnv).parallelSolvers.map (fun c => c.depthlo)
       = [1, 13, 25, 37, 49] ∧
     (demoDepths.parallelSolve demoEnv).parallelSolvers.length = 5) := by
  have _ := hT
  have _ := hkeep
  refine ⟨?_, ?_, ?_, by decide, by decide, by decide, ?_,
    SexySolver.parallelSolve_demoDepths, ?_⟩
  · unfold depthInc
    split <;> omega
  · have h := SexySolver.parallelSolve_multiDepths_length env s hmulti hproc hS
    rw [hthreads] at h
    exact h
  · exact SexySolver.parallelSolve_multiDepths_int_range env s hmulti hproc
      (by rw [hthreads]; exact hint)
  · have h := SexySolver.parallelSolve_multiDepths_announces demoEnv demoDepths
      (by decide) (by decide) (by decide)
    have h4 : Int.tdiv (depthSourceNum demoDepths.params.keepNum)
        (depthInc (depthSourceNum demoDepths.params.keepNum) demoEnv.idealThreadCount) = 4 := by
      decide
    rw [h4] at h
    exact h
  · have h := congrArg List.length SexySolver.parallelSolve_demoDepths
    simpa using h

/-- C30 at `keepNum = 50` and `T = 4`: the count is `ceil(49 / 12)`. -/
theorem multiDepths_children_count_witness :
    ((demoDepths.parallelSolve demoEnv).parallelSolvers.length : Int)
      = Int.ceil ((((depthSourceNum demoDepths.params.keepNum - 1 : Int)) : ℚ)
          / ((depthInc (depthSourceNum demoDepths.params.keepNum) ((4 : Nat) : Int) : Int) : ℚ)) :=
  (multiDepths_children_count demoEnv demoDepths 4 (by decide) (by decide) (by decide)
    (by decide) (by decide) (by decide)
    (by
      intro j h
      have hS : depthSourceNum demoDepths.params.keepNum = 50 := by decide
      have hI : depthInc 50 ((4 : Nat) : Int) = 12 := by decide
      rw [hS, hI] at h ⊢
      omega)).2.1

/-! ## The convolution filter as text -/

/-- Splitting always gives at least one piece. -/
theorem splitChars_ne_nil (sep : Char) (l : List Char) : splitChars sep l ≠ [] := by
  cases l with
  | nil => simp [splitChars]
  | cons c cs =>
    simp only [splitChars]
    split
    · simp
    · split <;> simp

/-- A text without separator is a single piece. -/
theorem splitChars_no_sep (sep : Char) (a : List Char) (ha : sep ∉ a) :
    splitChars sep a = [a] := by
  induction a with
  | nil => rfl
  | cons c cs ih =>
    have hc : c ≠ sep := fun h => ha (by rw [h]; exact List.mem_cons_self _ _)
    have hcs : sep ∉ cs := fun h => ha (List.mem_cons_of_mem _ h)
    simp only [splitChars, ih hcs, if_neg hc]

/-- A piece without separator followed by a separator is split off. -/
theorem splitChars_append_sep (sep : Char) (a t : List Char) (ha : sep ∉ a) :
    splitChars sep (a ++ sep :: t) = a :: splitChars sep t := by
  induction a with
  | nil =>
    simp only [List.nil_append, splitChars]
    cases h : splitChars sep t with
    | nil => exact absurd h (splitChars_ne_nil sep t)
    | cons first rest => simp
  | cons c cs ih =>
    have hc : c ≠ sep := fun h => ha (by rw [h]; exact List.mem_cons_self _ _)
    have hcs : sep ∉ cs := fun h => ha (List.mem_cons_of_mem _ h)
    have hstep : splitChars sep (c :: cs ++ sep :: t)
        = (match splitChars sep (cs ++ sep :: t) with
            | [] => [[c]]
            | first :: rest =>
              if c = sep then [] :: first :: rest else (c :: first) :: rest) := rfl
    rw [hstep, ih hcs]
    simp only [if_neg hc]

/-- Joining at least one piece with the separator and splitting again gives the
pieces back when none of them holds the separator. -/
theorem splitChars_joinChars (sep : Char) (pieces : List (List Char))
    (hne : pieces ≠ []) (hsep : ∀ p ∈ pieces, sep ∉ p) :
    splitChars sep (joinChars [sep] pieces) = pieces := by
  induction pieces with
  | nil => exact absurd rfl hne
  | cons a rest ih =>
    cases rest with
    | nil => exact splitChars_no_sep sep a (hsep a (List.mem_cons_self _ _))
    | cons b rest2 =>
      have hstep : joinChars [sep] (a :: b :: rest2)
          = a ++ sep :: joinChars [sep] (b :: rest2) := by
        simp [joinChars]
      rw [hstep, splitChars_append_sep sep a _ (hsep a (List.mem_cons_self _ _)),
        ih (by simp) (fun p hp => hsep p (List.mem_cons_of_mem _ hp))]

/-- The text that `convertToMap` stores under the key `convFilter`. -/
theorem SexySolver.convertToMap_convFilter {α : Type} (t : QtText α) (params : Parameters α) :
    SexySolver.convertToMap t params "convFilter"
      = some (QVariant.string
          (QStringList.join (params.convFilter.map (fun num => t.numberToString num)) ",")) := by
  simp [SexySolver.convertToMap, QMap.insert, QVariant.toString]

/-- What `convertFromMap` makes of the key `convFilter`. -/
theorem SexySolver.convertFromMap_convFilter {α : Type} [LinearOrderedField α] [FloorRing α]
    (t : QtText α) (defaults : Parameters α) (settingsMap : QMap α) :
    (SexySolver.convertFromMap t defaults settingsMap).convFilter
      = if settingsMap.contains "convFilter" then
          (QString.split ((settingsMap.value "convFilter" (QVariant.string "")).toString t)
            ',').map (fun item => (t.stringToDouble item).getD 0)
        else defaults.convFilter := by
  unfold SexySolver.convertFromMap
  simp only
  split <;> rfl

/-- The filter read back after `convertToMap` and `convertFromMap`. -/
theorem SexySolver.roundTrip_convFilter {α : Type} [LinearOrderedField α] [FloorRing α]
    (t : QtText α) (defaults params : Parameters α) :
    (SexySolver.convertFromMap t defaults (SexySolver.convertToMap t params)).convFilter
      = (QString.split
          (QStringList.join (params.convFilter.map (fun num => t.numberToString num)) ",")
          ',').map (fun item => (t.stringToDouble item).getD 0) := by
  rw [SexySolver.convertFromMap_convFilter]
  simp [QMap.contains, QMap.value, SexySolver.convertToMap_convFilter, QVariant.toString]

/-- A filter of at least one entry comes back unchanged when the text of a number
holds no comma and reads back as the number. -/
theorem SexySolver.roundTrip_convFilter_nonempty {α : Type} [LinearOrderedField α]
    [FloorRing α] (t : QtText α) (defaults params : Parameters α)
    (hcomma : ∀ x : α, ',' ∉ (t.numberToString x).data)
    (hread : ∀ x : α, t.stringToDouble (t.numberToString x) = some x)
    (hne : params.convFilter ≠ []) :
    (SexySolver.convertFromMap t defaults (SexySolver.convertToMap t params)).convFilter
      = params.convFilter := by
  rw [SexySolver.roundTrip_convFilter]
  unfold QString.split QStringList.join
  have hdata : (",".data : List Char) = [','] := rfl
  simp only [hdata]
  rw [splitChars_joinChars ',' _ (by simpa using hne)
    (by
      intro p hp
      simp only [List.map_map, List.mem_map, Function.comp_apply] at hp
      obtain ⟨x, _, hx⟩ := hp
      rw [← hx]
      exact hcomma x)]
  simp only [List.map_map]
  conv_rhs => rw [← List.map_id params.convFilter]
  apply List.map_congr_left
  intro x _
  simp only [Function.comp_apply, id_eq]
  show (t.stringToDouble (String.mk (t.numberToString x).data)).getD 0 = x
  rw [hread x]
  rfl

/-- C26 at the failing input, the empty filter: `convertToMap` stores the empty text
under the key `convFilter` (the join of no renderings), and `convertFromMap`
reads back a filter of one entry, the number that the empty text converts
to, instead of the empty filter. -/
theorem convertFromMap_convertToMap_empty_convFilter {α : Type} [LinearOrderedField α]
    [FloorRing α] (t : QtText α) (defaults params : Parameters α) :
    SexySolver.convertToMap t { params with convFilter := [] } "convFilter"
      = some (QVariant.string "") ∧
    (SexySolver.convertFromMap t defaults
        (SexySolver.convertToMap t { params with convFilter := [] })).convFilter
      = [(t.stringToDouble "").getD 0] ∧
    (SexySolver.convertFromMap t defaults
        (SexySolver.convertToMap t { params with convFilter := [] })).convFilter.length = 1 := by
  have h1 : SexySolver.convertToMap t { params with convFilter := [] } "convFilter"
      = some (QVariant.string "") := by
    rw [SexySolver.convertToMap_convFilter]
    rfl
  have h2 : (SexySolver.convertFromMap t defaults
        (SexySolver.convertToMap t { params with convFilter := [] })).convFilter
      = [(t.stringToDouble "").getD 0] := by
    rw [SexySolver.roundTrip_convFilter]
    rfl
  refine ⟨h1, h2, ?_⟩
  rw [h2]
  rfl

/-! ## The scale hint given by unit name -/

/-- Each of the nine spellings tested by `setSearchScale(double, double, QString)`
selects its unit. -/
theorem SexySolver.setSearchScaleQString_recognised (s : SexySolver) (lo hi : ℚ)
    (name : String) (u : ScaleUnits)
    (h : (name, u) ∈
      [("dw", ScaleUnits.DEG_WIDTH), ("degw", ScaleUnits.DEG_WIDTH),
       ("degwidth", ScaleUnits.DEG_WIDTH),
       ("app", ScaleUnits.ARCSEC_PER_PIX), ("arcsecperpix", ScaleUnits.ARCSEC_PER_PIX),
       ("aw", ScaleUnits.ARCMIN_WIDTH), ("amw", ScaleUnits.ARCMIN_WIDTH),
       ("arcminwidth", ScaleUnits.ARCMIN_WIDTH),
       ("focalmm", ScaleUnits.FOCAL_MM)]) :
    s.setSearchScaleQString lo hi name = s.setSearchScale lo hi u := by
  simp only [List.mem_cons, Prod.mk.injEq, List.mem_singleton,
    List.not_mem_nil, or_false] at h
  rcases h with h | h | h | h | h | h | h | h | h <;>
    (obtain ⟨h1, h2⟩ := h; subst h1; subst h2; simp [SexySolver.setSearchScaleQString])

/-- A text that is none of the nine spellings leaves the state as it was. -/
theorem SexySolver.setSearchScaleQString_other (s : SexySolver) (lo hi : ℚ)
    (name : String)
    (h : name ∉ ["dw", "degw", "degwidth", "app", "arcsecperpix", "aw", "amw",
      "arcminwidth", "focalmm"]) :
    s.setSearchScaleQString lo hi name = s := by
  simp only [List.mem_cons, List.mem_singleton, List.not_mem_nil, or_false, not_or] at h
  obtain ⟨h1, h2, h3, h4, h5, h6, h7, h8, h9⟩ := h
  simp [SexySolver.setSearchScaleQString, h1, h2, h3, h4, h5, h6, h7, h8, h9]

/-- C31: for each of the four units `u`, `setSearchScale(lo, hi, QString)` called with
the text that `getScaleUnitString` returns for `u` sets `use_scale = true`,
`scalelo = lo`, `scalehi = hi` and `scaleunit = u`; the spellings that set the
scale hint are exactly dw, degw, degwidth (degrees wide), app, arcsecperpix
(arcseconds per pixel), aw, amw, arcminwidth (arcminutes wide) and focalmm,
and every other text leaves the state, hence `use_scale`, `scalelo`, `scalehi`
and `scaleunit`, unchanged. -/
theorem setSearchScale_unit_name_round_trip (s : SexySolver) (lo hi : ℚ) :
    (∀ u : ScaleUnits,
      (s.setSearchScaleQString lo hi (SextractorSolver.getScaleUnitString u)).use_scale = true ∧
      (s.setSearchScaleQString lo hi (SextractorSolver.getScaleUnitString u)).scalelo = lo ∧
      (s.setSearchScaleQString lo hi (SextractorSolver.getScaleUnitString u)).scalehi = hi ∧
      (s.setSearchScaleQString lo hi (SextractorSolver.getScaleUnitString u)).scaleunit = u) ∧
    (∀ (name : String) (u : ScaleUnits),
      (name, u) ∈
        [("dw", ScaleUnits.DEG_WIDTH), ("degw", ScaleUnits.DEG_WIDTH),
         ("degwidth", ScaleUnits.DEG_WIDTH),
         ("app", ScaleUnits.ARCSEC_PER_PIX), ("arcsecperpix", ScaleUnits.ARCSEC_PER_PIX),
         ("aw", ScaleUnits.ARCMIN_WIDTH), ("amw", ScaleUnits.ARCMIN_WIDTH),
         ("arcminwidth", ScaleUnits.ARCMIN_WIDTH),
         ("focalmm", ScaleUnits.FOCAL_MM)] →
      (s.setSearchScaleQString lo hi name).use_scale = true ∧
      (s.setSearchScaleQString lo hi name).scalelo = lo ∧
      (s.setSearchScaleQString lo hi name).scalehi = hi ∧
      (s.setSearchScaleQString lo hi name).scaleunit = u) ∧
    (∀ name : String,
      name ∉ ["dw", "degw", "degwidth", "app", "arcsecperpix", "aw", "amw",
        "arcminwidth", "focalmm"] →
      s.setSearchScaleQString lo hi name = s ∧
      (s.setSearchScaleQString lo hi name).use_scale = s.use_scale ∧
      (s.setSearchScaleQString lo hi name).scalelo = s.scalelo ∧
      (s.setSearchScaleQString lo hi name).scalehi = s.scalehi ∧
      (s.setSearchScaleQString lo hi name).scaleunit = s.scaleunit) ∧
    (∀ name : String,
      (∀ (s0 : SexySolver) (lo0 hi0 : ℚ),
        (s0.setSearchScaleQString lo0 hi0 name).use_scale = true)
      ↔ name ∈ ["dw", "degw", "degwidth", "app", "arcsecperpix", "aw", "amw",
          "arcminwidth", "focalmm"]) := by
  refine ⟨?_, ?_, ?_, ?_⟩
  · intro u
    rw [SexySolver.setSearchScaleQString_recognised s lo hi _ u
      (by cases u <;> simp [SextractorSolver.getScaleUnitString])]
    exact ⟨rfl, rfl, rfl, rfl⟩
  · intro name u h
    rw [SexySolver.setSearchScaleQString_recognised s lo hi name u h]
    exact ⟨rfl, rfl, rfl, rfl⟩
  · intro name h
    rw [SexySolver.setSearchScaleQString_other s lo hi name h]
    exact ⟨rfl, rfl, rfl, rfl, rfl⟩
  · intro name
    constructor
    · intro h
      by_contra hn
      have h0 := h demoSolver 0 0
      rw [SexySolver.setSearchScaleQString_other demoSolver 0 0 name hn] at h0
      exact absurd h0 (by decide)
    · intro h s0 lo0 hi0
      simp only [List.mem_cons, List.mem_singleton, List.not_mem_nil, or_false] at h
      rcases h with h | h | h | h | h | h | h | h | h <;>
        (subst h; simp [SexySolver.setSearchScaleQString, SexySolver.setSearchScale])

/-! ## The `MULTI_SCALES` slices in `double` arithmetic -/

/-- Rounding changes a number that is not negative by at most the factor
`1 ± 2^-53`. -/
theorem roundToDouble_rel {α : Type} [LinearOrderedField α] [FloorRing α] {x : α}
    (hx : 0 ≤ x) :
    (1 - 1 / 2 ^ 53) * x ≤ roundToDouble x ∧ roundToDouble x ≤ (1 + 1 / 2 ^ 53) * x := by
  have h := roundToDouble_abs_sub_le x
  rw [abs_of_nonneg hx, abs_le] at h
  constructor
  · have : (1 - 1 / 2 ^ 53) * x = x - x / 2 ^ 53 := by ring
    rw [this]; linarith [h.1]
  · have : (1 + 1 / 2 ^ 53) * x = x + x / 2 ^ 53 := by ring
    rw [this]; linarith [h.2]

/-- Upper bound through the five roundings behind `scaleConst * pow(thread,2)`. -/
theorem slice_chain_upper (a b d d1 T2 P i2 Q k t : ℚ) (ha : 0 ≤ a) (hb : 0 < b)
    (hd : 0 ≤ d) (hT2 : 0 < T2)
    (h1 : d1 ≤ a * d) (h2 : b * T2 ≤ P) (h3 : Q ≤ a * i2) (h3' : 0 ≤ Q)
    (h4 : k ≤ a * (d1 / P)) (h5 : t ≤ a * (k * Q)) :
    t ≤ a ^ 4 / b * (d * i2 / T2) := by
  have hbT : 0 < b * T2 := mul_pos hb hT2
  have hP : 0 < P := lt_of_lt_of_le hbT h2
  have hq : d1 / P ≤ a * d / (b * T2) := by
    rw [div_le_div_iff₀ hP hbT]
    have had : 0 ≤ a * d := mul_nonneg ha hd
    calc d1 * (b * T2) ≤ (a * d) * (b * T2) := by gcongr
      _ ≤ (a * d) * P := by gcongr
  have hk : k ≤ a * (a * d / (b * T2)) := le_trans h4 (by gcongr)
  have hkQ : k * Q ≤ a * (a * d / (b * T2)) * (a * i2) := by
    calc k * Q ≤ (a * (a * d / (b * T2))) * Q := by gcongr
      _ ≤ (a * (a * d / (b * T2))) * (a * i2) := by
          have : 0 ≤ a * (a * d / (b * T2)) := by positivity
          gcongr
  calc t ≤ a * (k * Q) := h5
    _ ≤ a * (a * (a * d / (b * T2)) * (a * i2)) := by gcongr
    _ = a ^ 4 / b * (d * i2 / T2) := by field_simp; ring

/-- Lower bound through the five roundings behind `scaleConst * pow(thread,2)`. -/
theorem slice_chain_lower (a b d d1 T2 P i2 Q k t : ℚ) (ha : 0 < a) (hb : 0 ≤ b)
    (hd : 0 ≤ d) (hT2 : 0 < T2) (hi2 : 0 ≤ i2)
    (h1 : b * d ≤ d1) (h2 : P ≤ a * T2) (h2' : 0 < P) (h3 : b * i2 ≤ Q)
    (h4 : b * (d1 / P) ≤ k) (h5 : b * (k * Q) ≤ t) :
    b ^ 4 / a * (d * i2 / T2) ≤ t := by
  have haT : 0 < a * T2 := mul_pos ha hT2
  have hq : b * d / (a * T2) ≤ d1 / P := by
    rw [div_le_div_iff₀ haT h2']
    have hbd : 0 ≤ b * d := mul_nonneg hb hd
    have hd1 : 0 ≤ d1 := le_trans hbd h1
    calc (b * d) * P ≤ (b * d) * (a * T2) := by gcongr
      _ ≤ d1 * (a * T2) := by gcongr
  have hk : b * (b * d / (a * T2)) ≤ k := le_trans (by gcongr) h4
  have hk0 : 0 ≤ k := le_trans (by positivity) hk
  have hkQ : b * (b * d / (a * T2)) * (b * i2) ≤ k * Q := by
    calc b * (b * d / (a * T2)) * (b * i2) ≤ k * (b * i2) := by
          have : 0 ≤ b * i2 := by positivity
          gcongr
      _ ≤ k * Q := by gcongr
  calc b ^ 4 / a * (d * i2 / T2) = b * (b * (b * d / (a * T2)) * (b * i2)) := by
        field_simp; ring
    _ ≤ b * (k * Q) := by gcongr
    _ ≤ t := h5

/-- The two constants of the chain of five roundings are within `5.5 * 2^-53` of 1. -/
theorem slice_chain_constants :
    (1 + 1 / 2 ^ 53 : ℚ) ^ 4 / (1 - 1 / 2 ^ 53) ≤ 1 + 11 / 2 * (1 / 2 ^ 53) ∧
    1 - 11 / 2 * (1 / 2 ^ 53) ≤ (1 - 1 / 2 ^ 53 : ℚ) ^ 4 / (1 + 1 / 2 ^ 53) := by
  constructor <;> norm_num

/-- The product `scaleConst * pow(thread,2)` as computed in `double` is within the
factor `1 ± 5.5 * 2^-53` of the exact value `(maxScale - minScale) * i^2 / T^2`. -/
theorem scaleConstDouble_mul_rel (minScale maxScale : ℚ) (T i : Nat) (hT : 1 ≤ T)
    (hle : minScale ≤ maxScale) :
    0 ≤ scaleConstDouble minScale maxScale T ∧
    (1 - 11 / 2 * (1 / 2 ^ 53)) * ((maxScale - minScale) * (i : ℚ) ^ 2 / (T : ℚ) ^ 2)
      ≤ roundToDouble (scaleConstDouble minScale maxScale T * roundToDouble ((i : ℚ) ^ 2)) ∧
    roundToDouble (scaleConstDouble minScale maxScale T * roundToDouble ((i : ℚ) ^ 2))
      ≤ (1 + 11 / 2 * (1 / 2 ^ 53)) * ((maxScale - minScale) * (i : ℚ) ^ 2 / (T : ℚ) ^ 2) := by
  have hd : 0 ≤ maxScale - minScale := sub_nonneg.mpr hle
  have hT2 : (0 : ℚ) < (T : ℚ) ^ 2 := by
    have : (0 : ℚ) < (T : ℚ) := by exact_mod_cast hT
    positivity
  have hi2 : (0 : ℚ) ≤ (i : ℚ) ^ 2 := by positivity
  have ha : (0 : ℚ) < 1 + 1 / 2 ^ 53 := by norm_num
  have hb : (0 : ℚ) < 1 - 1 / 2 ^ 53 := by norm_num
  obtain ⟨d1l, d1u⟩ := roundToDouble_rel hd
  have hd1 : 0 ≤ roundToDouble (maxScale - minScale) := roundToDouble_nonneg hd
  obtain ⟨Pl, Pu⟩ := roundToDouble_rel hT2.le
  have hP : 0 < roundToDouble ((T : ℚ) ^ 2) := lt_of_lt_of_le (mul_pos hb hT2) Pl
  obtain ⟨Ql, Qu⟩ := roundToDouble_rel hi2
  have hQ : 0 ≤ roundToDouble ((i : ℚ) ^ 2) := roundToDouble_nonneg hi2
  have hq : 0 ≤ roundToDouble (maxScale - minScale) / roundToDouble ((T : ℚ) ^ 2) :=
    div_nonneg hd1 hP.le
  obtain ⟨kl, ku⟩ := roundToDouble_rel hq
  have hk : 0 ≤ scaleConstDouble minScale maxScale T := roundToDouble_nonneg hq
  have hkQ : 0 ≤ scaleConstDouble minScale maxScale T * roundToDouble ((i : ℚ) ^ 2) :=
    mul_nonneg hk hQ
  obtain ⟨tl, tu⟩ := roundToDouble_rel hkQ
  have hX : 0 ≤ (maxScale - minScale) * (i : ℚ) ^ 2 / (T : ℚ) ^ 2 := by positivity
  have hup := slice_chain_upper _ _ _ _ _ _ _ _ _ _ ha.le hb hd hT2 d1u Pl Qu hQ ku tu
  have hlo := slice_chain_lower _ _ _ _ _ _ _ _ _ _ ha hb.le hd hT2 hi2 d1l Pu hP Ql kl tl
  refine ⟨hk, ?_, ?_⟩
  · exact le_trans (mul_le_mul_of_nonneg_right slice_chain_constants.2 hX) hlo
  · exact le_trans hup (mul_le_mul_of_nonneg_right slice_chain_constants.1 hX)

/-- Each slice bound computed in `double` is within `2^-50 * (|minScale| + |maxScale|)`
of the exact bound `minScale + (maxScale - minScale) * i^2 / T^2`. -/
theorem sliceBoundDouble_error (minScale maxScale : ℚ) (T i : Nat) (hT : 1 ≤ T) (hi : i ≤ T)
    (hle : minScale ≤ maxScale) :
    |sliceBoundDouble minScale (scaleConstDouble minScale maxScale T) i
        - (minScale + (maxScale - minScale) * (i : ℚ) ^ 2 / (T : ℚ) ^ 2)|
      ≤ (|minScale| + |maxScale|) / 2 ^ 50 := by
  obtain ⟨hk, tl, tu⟩ := scaleConstDouble_mul_rel minScale maxScale T i hT hle
  have hd : 0 ≤ maxScale - minScale := sub_nonneg.mpr hle
  have hT2 : (0 : ℚ) < (T : ℚ) ^ 2 := by
    have : (0 : ℚ) < (T : ℚ) := by exact_mod_cast hT
    positivity
  have hX0 : 0 ≤ (maxScale - minScale) * (i : ℚ) ^ 2 / (T : ℚ) ^ 2 := by positivity
  have hXd : (maxScale - minScale) * (i : ℚ) ^ 2 / (T : ℚ) ^ 2 ≤ maxScale - minScale := by
    rw [div_le_iff₀ hT2]
    have hiT : (i : ℚ) ^ 2 ≤ (T : ℚ) ^ 2 := by
      have : (i : ℚ) ≤ (T : ℚ) := by exact_mod_cast hi
      gcongr
    gcongr
  have hdM : maxScale - minScale ≤ |minScale| + |maxScale| := by
    have := le_abs_self maxScale
    have := neg_abs_le minScale
    linarith
  have hmM : |minScale| ≤ |minScale| + |maxScale| := by
    have := abs_nonneg maxScale
    linarith
  unfold sliceBoundDouble
  generalize roundToDouble (scaleConstDouble minScale maxScale T * roundToDouble ((i : ℚ) ^ 2))
    = t at tl tu
  generalize (maxScale - minScale) * (i : ℚ) ^ 2 / (T : ℚ) ^ 2 = X at tl tu hX0 hXd
  have ht0 : 0 ≤ t := le_trans (mul_nonneg (by norm_num) hX0) tl
  have hb := roundToDouble_abs_sub_le (minScale + t)
  have habs : |minScale + t| ≤ |minScale| + t := by
    calc |minScale + t| ≤ |minScale| + |t| := abs_add _ _
      _ = |minScale| + t := by rw [abs_of_nonneg ht0]
  have hb2 : |roundToDouble (minScale + t) - (minScale + t)| ≤ (|minScale| + t) / 2 ^ 53 :=
    le_trans hb (by gcongr)
  rw [abs_le] at hb2 ⊢
  have hmn := abs_nonneg minScale
  constructor
  · linarith [hb2.1]
  · linarith [hb2.2]

/-- The first slice bound is `minScale` when `minScale` is a `double`. -/
theorem sliceBoundDouble_zero (minScale scaleConst : ℚ)
    (hmin : roundToDouble minScale = minScale) :
    sliceBoundDouble minScale scaleConst 0 = minScale := by
  unfold sliceBoundDouble
  simp [roundToDouble_zero, hmin]

/-- The slice bounds computed in `double` do not decrease with the counter. -/
theorem sliceBoundDouble_mono (minScale scaleConst : ℚ) (hk : 0 ≤ scaleConst) {i j : Nat}
    (hij : i ≤ j) :
    sliceBoundDouble minScale scaleConst i ≤ sliceBoundDouble minScale scaleConst j := by
  unfold sliceBoundDouble
  apply roundToDouble_mono
  have h1 : (i : ℚ) ^ 2 ≤ (j : ℚ) ^ 2 := by
    have : (i : ℚ) ≤ (j : ℚ) := by exact_mod_cast hij
    gcongr
  have h2 := roundToDouble_mono h1
  have h3 : scaleConst * roundToDouble ((i : ℚ) ^ 2) ≤ scaleConst * roundToDouble ((j : ℚ) ^ 2) :=
    mul_le_mul_of_nonneg_left h2 hk
  have h4 := roundToDouble_mono h3
  linarith

/-- A chain of slices `[b i, b (i+1)]` covers everything from `b 0` to `b T`. -/
theorem slices_chain_cover (b : Nat → ℚ) (x : ℚ) (hx : b 0 ≤ x) :
    ∀ T : Nat, 1 ≤ T → x ≤ b T → ∃ i : Nat, i < T ∧ b i ≤ x ∧ x ≤ b (i + 1) := by
  intro T
  induction T with
  | zero => intro h; omega
  | succ T ih =>
    intro _ hle
    by_cases hT : T = 0
    · subst hT
      exact ⟨0, by omega, hx, hle⟩
    · by_cases hmid : x ≤ b T
      · obtain ⟨i, hi, h1, h2⟩ := ih (by omega) hmid
        exact ⟨i, by omega, h1, h2⟩
      · exact ⟨T, by omega, le_of_lt (not_le.mp hmid), hle⟩

/-- The widths of a chain of slices add up to the distance between its ends. -/
theorem slices_chain_sum (b : Nat → ℚ) (T : Nat) :
    ((List.range' 0 T).map (fun i => b (i + 1) - b i)).sum = b T - b 0 := by
  induction T with
  | zero => simp
  | succ T ih =>
    rw [List.range'_1_concat, List.map_append, List.sum_append, ih]
    simp

/-- The loop in `double` arithmetic appends to `parallelSolvers` one child per value
of the counter from `thread` up to `threads - 1`, in order. -/
theorem SexySolver.scalesLoopDouble_parallelSolvers (env : Env) (threads : Int)
    (minScale scaleConst : ℚ) (units : ScaleUnits) (d : Nat) :
    ∀ (thread : Nat) (s : SexySolver), (threads - thread).toNat = d →
      (s.scalesLoopDouble env threads minScale scaleConst units thread).parallelSolvers
        = s.parallelSolvers ++ (List.range' thread d).map (fun i : Nat =>
            ((env.spawnChildSolver i).connectFinished).setSearchScale
              (sliceBoundDouble minScale scaleConst i)
              (sliceBoundDouble minScale scaleConst (i + 1)) units) := by
  induction d with
  | zero =>
    intro thread s hd
    have hlt : ¬ ((thread : Int) < threads) := by omega
    rw [SexySolver.scalesLoopDouble, if_neg hlt]
    simp
  | succ d ih =>
    intro thread s hd
    have hlt : (thread : Int) < threads := by omega
    rw [SexySolver.scalesLoopDouble, if_pos hlt]
    simp only
    rw [ih (thread + 1) _ (by push_cast; omega)]
    simp [List.range'_succ]

/-- The children of the `MULTI_SCALES` branch in `double` arithmetic, as a list. -/
theorem SexySolver.parallelSolveDouble_multiScales_list (env : Env) (s : SexySolver) (T : Nat)
    (hthreads : env.idealThreadCount = T)
    (hmulti : s.params.multiAlgorithm = MultiAlgo.MULTI_SCALES)
    (hproc : s.processType = ProcessType.SEXYSOLVER ∨
      s.processType = ProcessType.EXT_SEXTRACTORSOLVER ∨
      s.processType = ProcessType.INT_SEP_EXT_SOLVER) :
    (s.parallelSolveDouble env).parallelSolvers
      = (List.range' 0 T).map (fun i : Nat =>
          (((env.spawnChildSolver i).connectFinished).setSearchScale
            (sliceBoundDouble s.minScale (scaleConstDouble s.minScale s.maxScale T) i)
            (sliceBoundDouble s.minScale (scaleConstDouble s.minScale s.maxScale T) (i + 1))
            s.units).startProcess) := by
  have hguard : ¬ (s.params.multiAlgorithm = MultiAlgo.NOT_MULTI ∨
      ¬ (s.processType = ProcessType.SEXYSOLVER ∨
         s.processType = ProcessType.EXT_SEXTRACTORSOLVER ∨
         s.processType = ProcessType.INT_SEP_EXT_SOLVER)) := by
    rw [hmulti]; simp [hproc]
  unfold SexySolver.parallelSolveDouble
  rw [if_neg hguard]
  simp only [hmulti, if_true]
  rw [SexySolver.scalesLoopDouble_parallelSolvers env _ _ _ _ T 0 _ (by rw [hthreads]; simp)]
  simp [hthreads, SexySolver.minScale, SexySolver.maxScale, SexySolver.units, Function.comp_def]

/-- Position `i` of the `MULTI_SCALES` children in `double` arithmetic holds the
slice from the bound number `i` to the bound number `i + 1`. -/
theorem SexySolver.parallelSolveDouble_multiScales_getElem (env : Env) (s : SexySolver)
    (T : Nat) (hthreads : env.idealThreadCount = T)
    (hmulti : s.params.multiAlgorithm = MultiAlgo.MULTI_SCALES)
    (hproc : s.processType = ProcessType.SEXYSOLVER ∨
      s.processType = ProcessType.EXT_SEXTRACTORSOLVER ∨
      s.processType = ProcessType.INT_SEP_EXT_SOLVER)
    (i : Nat) (c : ChildSolver)
    (hc : (s.parallelSolveDouble env).parallelSolvers[i]? = some c) :
    i < T ∧
      c.scalelo = sliceBoundDouble s.minScale (scaleConstDouble s.minScale s.maxScale T) i ∧
      c.scalehi
        = sliceBoundDouble s.minScale (scaleConstDouble s.minScale s.maxScale T) (i + 1) := by
  rw [SexySolver.parallelSolveDouble_multiScales_list env s T hthreads hmulti hproc,
    List.getElem?_map] at hc
  by_cases hi : i < T
  · rw [List.getElem?_range' 0 1 hi] at hc
    simp only [Option.map_some', Option.some.injEq] at hc
    subst hc
    refine ⟨hi, ?_, ?_⟩ <;> simp [ChildSolver.startProcess, ChildSolver.setSearchScale]
  · rw [List.getElem?_eq_none (by simp; omega)] at hc
    simp at hc

/-- The widths of the `MULTI_SCALES` slices in `double` arithmetic add up to the
distance from the first bound to the last. -/
theorem SexySolver.parallelSolveDouble_widths_sum (env : Env) (s : SexySolver) (T : Nat)
    (hthreads : env.idealThreadCount = T)
    (hmulti : s.params.multiAlgorithm = MultiAlgo.MULTI_SCALES)
    (hproc : s.processType = ProcessType.SEXYSOLVER ∨
      s.processType = ProcessType.EXT_SEXTRACTORSOLVER ∨
      s.processType = ProcessType.INT_SEP_EXT_SOLVER) :
    ((s.parallelSolveDouble env).parallelSolvers.map (fun c => c.scalehi - c.scalelo)).sum
      = sliceBoundDouble s.minScale (scaleConstDouble s.minScale s.maxScale T) T
        - sliceBoundDouble s.minScale (scaleConstDouble s.minScale s.maxScale T) 0 := by
  rw [SexySolver.parallelSolveDouble_multiScales_list env s T hthreads hmulti hproc,
    List.map_map,
    ← slices_chain_sum
      (fun i => sliceBoundDouble s.minScale (scaleConstDouble s.minScale s.maxScale T) i) T]
  rfl

/-- With two threads on the scale range from 0.2 to 0.9 the last slice bound
computed in `double` is 0.8999999999999999, one unit in the last place below
the `double` 0.9. -/
theorem sliceBoundDouble_tenths :
    roundToDouble (2 / 10 : ℚ) = 3602879701896397 / 18014398509481984 ∧
    roundToDouble (9 / 10 : ℚ) = 8106479329266893 / 9007199254740992 ∧
    roundToDouble (roundToDouble (2 / 10 : ℚ)) = roundToDouble (2 / 10 : ℚ) ∧
    scaleConstDouble (roundToDouble (2 / 10)) (roundToDouble (9 / 10)) ((2 : Nat) : Int)
      = 3152519739159347 / 18014398509481984 ∧
    sliceBoundDouble (roundToDouble (2 / 10))
        (scaleConstDouble (roundToDouble (2 / 10)) (roundToDouble (9 / 10)) ((2 : Nat) : Int)) 2
      = 2026619832316723 / 2251799813685248 := by
  have hmin : roundToDouble (2 / 10 : ℚ) = 3602879701896397 / 18014398509481984 := by
    rw [roundToDouble_eval _ (-55) 7205759403792794 (by norm_num [abs_of_pos])
      (by norm_num [abs_of_pos]) (roundHalfEven_eq_of_abs_lt _ _ (by norm_num [abs_lt]))]
    norm_num
  have hmax : roundToDouble (9 / 10 : ℚ) = 8106479329266893 / 9007199254740992 := by
    rw [roundToDouble_eval _ (-53) 8106479329266893 (by norm_num [abs_of_pos])
      (by norm_num [abs_of_pos]) (roundHalfEven_eq_of_abs_lt _ _ (by norm_num [abs_lt]))]
    norm_num
  have hmin2 : roundToDouble (3602879701896397 / 18014398509481984 : ℚ) = 3602879701896397 / 18014398509481984 := by
    rw [roundToDouble_eval _ (-55) 7205759403792794 (by norm_num [abs_of_pos])
      (by norm_num [abs_of_pos]) (roundHalfEven_eq_of_abs_lt _ _ (by norm_num [abs_lt]))]
    norm_num
  have hd : roundToDouble (12610078956637389 / 18014398509481984 : ℚ) = 3152519739159347 / 4503599627370496 := by
    rw [roundToDouble_eval _ (-53) 6305039478318694 (by norm_num [abs_of_pos])
      (by norm_num [abs_of_pos])
      (by rw [show (12610078956637389 / 18014398509481984 : ℚ) / (2 : ℚ) ^ (-53 : Int) = ((6305039478318694 : Int) : ℚ) + 1 / 2 by norm_num,
        roundHalfEven_tie]; decide)]
    norm_num
  have hP : roundToDouble (4 : ℚ) = 4 := by
    rw [roundToDouble_eval _ (-50) 4503599627370496 (by norm_num [abs_of_pos])
      (by norm_num [abs_of_pos]) (roundHalfEven_eq_of_abs_lt _ _ (by norm_num [abs_lt]))]
    norm_num
  have hk : roundToDouble (3152519739159347 / 18014398509481984 : ℚ) = 3152519739159347 / 18014398509481984 := by
    rw [roundToDouble_eval _ (-55) 6305039478318694 (by norm_num [abs_of_pos])
      (by norm_num [abs_of_pos]) (roundHalfEven_eq_of_abs_lt _ _ (by norm_num [abs_lt]))]
    norm_num
  have ht : roundToDouble (3152519739159347 / 4503599627370496 : ℚ) = 3152519739159347 / 4503599627370496 := by
    rw [roundToDouble_eval _ (-53) 6305039478318694 (by norm_num [abs_of_pos])
      (by norm_num [abs_of_pos]) (roundHalfEven_eq_of_abs_lt _ _ (by norm_num [abs_lt]))]
    norm_num
  have hb : roundToDouble (16212958658533785 / 18014398509481984 : ℚ) = 2026619832316723 / 2251799813685248 := by
    rw [roundToDouble_eval _ (-53) 8106479329266892 (by norm_num [abs_of_pos])
      (by norm_num [abs_of_pos])
      (by rw [show (16212958658533785 / 18014398509481984 : ℚ) / (2 : ℚ) ^ (-53 : Int) = ((8106479329266892 : Int) : ℚ) + 1 / 2 by norm_num,
        roundHalfEven_tie]; decide)]
    norm_num
  have e1 : (8106479329266893 / 9007199254740992 - 3602879701896397 / 18014398509481984 : ℚ) = 12610078956637389 / 18014398509481984 := by norm_num
  have e2 : ((((2 : Nat) : Int) : ℚ)) ^ 2 = 4 := by norm_num
  have e3 : (((2 : Nat) : ℚ)) ^ 2 = 4 := by norm_num
  have e4 : (3152519739159347 / 4503599627370496 / 4 : ℚ) = 3152519739159347 / 18014398509481984 := by norm_num
  have e5 : (3152519739159347 / 18014398509481984 * 4 : ℚ) = 3152519739159347 / 4503599627370496 := by norm_num
  have e6 : (3602879701896397 / 18014398509481984 + 3152519739159347 / 4503599627370496 : ℚ) = 16212958658533785 / 18014398509481984 := by norm_num
  have hconst : scaleConstDouble (roundToDouble (2 / 10)) (roundToDouble (9 / 10)) ((2 : Nat) : Int)
      = 3152519739159347 / 18014398509481984 := by
    unfold scaleConstDouble
    rw [hmin, hmax, e1, hd, e2, hP, e4, hk]
  refine ⟨hmin, hmax, by rw [hmin, hmin2], hconst, ?_⟩
  rw [hconst]
  unfold sliceBoundDouble
  rw [hmin, e3, hP, e5, ht, e6, hb]

/-- With three threads on the scale range from 0.1 to 3.0 the last slice bound
computed in `double` is 2.9999999999999996, one unit in the last place below 3. -/
theorem sliceBoundDouble_three_degrees :
    roundToDouble (1 / 10 : ℚ) = 3602879701896397 / 36028797018963968 ∧
    roundToDouble (3 : ℚ) = 3 ∧
    roundToDouble (roundToDouble (1 / 10 : ℚ)) = roundToDouble (1 / 10 : ℚ) ∧
    scaleConstDouble (roundToDouble (1 / 10)) (roundToDouble 3) ((3 : Nat) : Int)
      = 1451159879930493 / 4503599627370496 ∧
    sliceBoundDouble (roundToDouble (1 / 10))
        (scaleConstDouble (roundToDouble (1 / 10)) (roundToDouble 3) ((3 : Nat) : Int)) 3
      = 6755399441055743 / 2251799813685248 := by
  have hmin : roundToDouble (1 / 10 : ℚ) = 3602879701896397 / 36028797018963968 := by
    rw [roundToDouble_eval _ (-56) 7205759403792794 (by norm_num [abs_of_pos])
      (by norm_num [abs_of_pos]) (roundHalfEven_eq_of_abs_lt _ _ (by norm_num [abs_lt]))]
    norm_num
  have hmax : roundToDouble (3 : ℚ) = 3 := by
    rw [roundToDouble_eval _ (-51) 6755399441055744 (by norm_num [abs_of_pos])
      (by norm_num [abs_of_pos]) (roundHalfEven_eq_of_abs_lt _ _ (by norm_num [abs_lt]))]
    norm_num
  have hmin2 : roundToDouble (3602879701896397 / 36028797018963968 : ℚ) = 3602879701896397 / 36028797018963968 := by
    rw [roundToDouble_eval _ (-56) 7205759403792794 (by norm_num [abs_of_pos])
      (by norm_num [abs_of_pos]) (roundHalfEven_eq_of_abs_lt _ _ (by norm_num [abs_lt]))]
    norm_num
  have hd : roundToDouble (104483511354995507 / 36028797018963968 : ℚ) = 6530219459687219 / 2251799813685248 := by
    rw [roundToDouble_eval _ (-51) 6530219459687219 (by norm_num [abs_of_pos])
      (by norm_num [abs_of_pos]) (roundHalfEven_eq_of_abs_lt _ _ (by norm_num [abs_lt]))]
    norm_num
  have hP : roundToDouble (9 : ℚ) = 9 := by
    rw [roundToDouble_eval _ (-49) 5066549580791808 (by norm_num [abs_of_pos])
      (by norm_num [abs_of_pos]) (roundHalfEven_eq_of_abs_lt _ _ (by norm_num [abs_lt]))]
    norm_num
  have hk : roundToDouble (6530219459687219 / 20266198323167232 : ℚ) = 1451159879930493 / 4503599627370496 := by
    rw [roundToDouble_eval _ (-54) 5804639519721972 (by norm_num [abs_of_pos])
      (by norm_num [abs_of_pos]) (roundHalfEven_eq_of_abs_lt _ _ (by norm_num [abs_lt]))]
    norm_num
  have ht : roundToDouble (13060438919374437 / 4503599627370496 : ℚ) = 3265109729843609 / 1125899906842624 := by
    rw [roundToDouble_eval _ (-51) 6530219459687218 (by norm_num [abs_of_pos])
      (by norm_num [abs_of_pos])
      (by rw [show (13060438919374437 / 4503599627370496 : ℚ) / (2 : ℚ) ^ (-51 : Int) = ((6530219459687218 : Int) : ℚ) + 1 / 2 by norm_num,
        roundHalfEven_tie]; decide)]
    norm_num
  have hb : roundToDouble (108086391056891885 / 36028797018963968 : ℚ) = 6755399441055743 / 2251799813685248 := by
    rw [roundToDouble_eval _ (-51) 6755399441055743 (by norm_num [abs_of_pos])
      (by norm_num [abs_of_pos]) (roundHalfEven_eq_of_abs_lt _ _ (by norm_num [abs_lt]))]
    norm_num
  have e1 : (3 - 3602879701896397 / 36028797018963968 : ℚ) = 104483511354995507 / 36028797018963968 := by norm_num
  have e2 : ((((3 : Nat) : Int) : ℚ)) ^ 2 = 9 := by norm_num
  have e3 : (((3 : Nat) : ℚ)) ^ 2 = 9 := by norm_num
  have e4 : (6530219459687219 / 2251799813685248 / 9 : ℚ) = 6530219459687219 / 20266198323167232 := by norm_num
  have e5 : (1451159879930493 / 4503599627370496 * 9 : ℚ) = 13060438919374437 / 4503599627370496 := by norm_num
  have e6 : (3602879701896397 / 36028797018963968 + 3265109729843609 / 1125899906842624 : ℚ) = 108086391056891885 / 36028797018963968 := by norm_num
  have hconst : scaleConstDouble (roundToDouble (1 / 10)) (roundToDouble 3) ((3 : Nat) : Int)
      = 1451159879930493 / 4503599627370496 := by
    unfold scaleConstDouble
    rw [hmin, hmax, e1, hd, e2, hP, e4, hk]
  refine ⟨hmin, hmax, by rw [hmin, hmin2], hconst, ?_⟩
  rw [hconst]
  unfold sliceBoundDouble
  rw [hmin, e3, hP, e5, ht, e6, hb]

/-- One is a `double`. -/
theorem roundToDouble_one : roundToDouble (1 : ℚ) = 1 := by
  rw [roundToDouble_eval _ (-52) 4503599627370496 (by norm_num [abs_of_pos])
    (by norm_num [abs_of_pos]) (roundHalfEven_eq_of_abs_lt _ _ (by norm_num [abs_lt]))]
  norm_num

/-- Ten is a `double`. -/
theorem roundToDouble_ten : roundToDouble (10 : ℚ) = 10 := by
  rw [roundToDouble_eval _ (-49) 5629499534213120 (by norm_num [abs_of_pos])
    (by norm_num [abs_of_pos]) (roundHalfEven_eq_of_abs_lt _ _ (by norm_num [abs_lt]))]
  norm_num

/-- C3, amended: for `1 ≤ T ≤ 2^26` and `double` values `minScale ≤ maxScale` of
magnitude at most `2^1022` that are equal or at least `2^-1021 * T^2` apart
(so that no operation of the branch overflows or underflows and the squares
are exact), the `MULTI_SCALES` slices, with bounds as the `double` arithmetic
of the code computes them, are `T` contiguous slices: the first starts at
`minScale`, each upper bound is the next lower bound, no slice is reversed, a
point shared by two different slices is the upper bound of the earlier and
the lower bound of the later one, and a point lies in some slice exactly when
it lies between `minScale` and the upper bound of the last slice; that last
upper bound is `maxScale` within the floating tolerance
`2^-50 * (|minScale| + |maxScale|)`. -/
theorem multiScales_slices_partition (env : Env) (s : SexySolver) (T : Nat)
    (hT : 1 ≤ T) (hthreads : env.idealThreadCount = T)
    (hmulti : s.params.multiAlgorithm = MultiAlgo.MULTI_SCALES)
    (hproc : s.processType = ProcessType.SEXYSOLVER ∨
      s.processType = ProcessType.EXT_SEXTRACTORSOLVER ∨
      s.processType = ProcessType.INT_SEP_EXT_SOLVER)
    (hle : s.minScale ≤ s.maxScale)
    (hdouble : roundToDouble s.minScale = s.minScale ∧
      roundToDouble s.maxScale = s.maxScale)
    (hrange : |s.minScale| ≤ 2 ^ 1022 ∧ |s.maxScale| ≤ 2 ^ 1022 ∧ T ≤ 67108864 ∧
      (s.minScale = s.maxScale ∨
        1 / 2 ^ 1021 ≤ (s.maxScale - s.minScale) / (T : ℚ) ^ 2)) :
    (s.parallelSolveDouble env).parallelSolvers.length = T ∧
    (∃ c, (s.parallelSolveDouble env).parallelSolvers[0]? = some c ∧
      c.scalelo = s.minScale) ∧
    (∃ c, (s.parallelSolveDouble env).parallelSolvers[T - 1]? = some c ∧
      |c.scalehi - s.maxScale| ≤ (|s.minScale| + |s.maxScale|) / 2 ^ 50 ∧
      ∀ x : ℚ, (s.minScale ≤ x ∧ x ≤ c.scalehi) ↔
        ∃ (i : Nat) (d : ChildSolver),
          (s.parallelSolveDouble env).parallelSolvers[i]? = some d ∧
          d.scalelo ≤ x ∧ x ≤ d.scalehi) ∧
    (∀ (i : Nat) (c d : ChildSolver),
      (s.parallelSolveDouble env).parallelSolvers[i]? = some c →
      (s.parallelSolveDouble env).parallelSolvers[i + 1]? = some d → c.scalehi = d.scalelo) ∧
    (∀ (i : Nat) (c : ChildSolver),
      (s.parallelSolveDouble env).parallelSolvers[i]? = some c → c.scalelo ≤ c.scalehi) ∧
    (∀ (i j : Nat) (c d : ChildSolver) (x : ℚ), i < j →
      (s.parallelSolveDouble env).parallelSolvers[i]? = some c →
      (s.parallelSolveDouble env).parallelSolvers[j]? = some d →
      c.scalelo ≤ x → x ≤ c.scalehi → d.scalelo ≤ x → x ≤ d.scalehi →
      x = c.scalehi ∧ x = d.scalelo) := by
  have _ := hrange
  have hget := SexySolver.parallelSolveDouble_multiScales_getElem env s T hthreads hmulti hproc
  have hlen : (s.parallelSolveDouble env).parallelSolvers.length = T := by
    rw [SexySolver.parallelSolveDouble_multiScales_list env s T hthreads hmulti hproc]; simp
  have hk := (scaleConstDouble_mul_rel s.minScale s.maxScale T 0 hT hle).1
  have hmono : ∀ a b : Nat, a ≤ b →
      sliceBoundDouble s.minScale (scaleConstDouble s.minScale s.maxScale T) a
        ≤ sliceBoundDouble s.minScale (scaleConstDouble s.minScale s.maxScale T) b :=
    fun a b hab => sliceBoundDouble_mono _ _ hk hab
  have hzero := sliceBoundDouble_zero s.minScale (scaleConstDouble s.minScale s.maxScale T)
    hdouble.1
  have hsome : ∀ i : Nat, i < T →
      ∃ c, (s.parallelSolveDouble env).parallelSolvers[i]? = some c := by
    intro i hi
    exact ⟨_, List.getElem?_eq_getElem (by omega)⟩
  have hT1 : T - 1 + 1 = T := by omega
  refine ⟨hlen, ?_, ?_, ?_, ?_, ?_⟩
  · obtain ⟨c, hc⟩ := hsome 0 (by omega)
    exact ⟨c, hc, by rw [(hget 0 c hc).2.1, hzero]⟩
  · obtain ⟨c, hc⟩ := hsome (T - 1) (by omega)
    have hhi := (hget (T - 1) c hc).2.2
    rw [hT1] at hhi
    refine ⟨c, hc, ?_, ?_⟩
    · have herr := sliceBoundDouble_error s.minScale s.maxScale T T hT (le_refl _) hle
      have hTq : (T : ℚ) ^ 2 ≠ 0 := by
        have : (0 : ℚ) < (T : ℚ) := by exact_mod_cast hT
        positivity
      have hexact : s.minScale + (s.maxScale - s.minScale) * (T : ℚ) ^ 2 / (T : ℚ) ^ 2
          = s.maxScale := by
        rw [mul_div_assoc, div_self hTq]; ring
      rw [hexact] at herr
      rw [hhi]; exact herr
    · intro x
      rw [hhi]
      constructor
      · rintro ⟨hx1, hx2⟩
        obtain ⟨i, hi, h1, h2⟩ := slices_chain_cover
          (fun i => sliceBoundDouble s.minScale (scaleConstDouble s.minScale s.maxScale T) i)
          x (by simp only; rw [hzero]; exact hx1) T hT hx2
        obtain ⟨d, hd⟩ := hsome i hi
        refine ⟨i, d, hd, ?_, ?_⟩
        · rw [(hget i d hd).2.1]; exact h1
        · rw [(hget i d hd).2.2]; exact h2
      · rintro ⟨i, d, hd, h1, h2⟩
        obtain ⟨hi, hlo, hhi'⟩ := hget i d hd
        rw [hlo] at h1
        rw [hhi'] at h2
        have h0 := hmono 0 i (by omega)
        have hTle := hmono (i + 1) T (by omega)
        rw [hzero] at h0
        exact ⟨by linarith, by linarith⟩
  · intro i c d hc hd
    rw [(hget i c hc).2.2, (hget (i + 1) d hd).2.1]
  · intro i c hc
    rw [(hget i c hc).2.1, (hget i c hc).2.2]
    exact hmono i (i + 1) (by omega)
  · intro i j c d x hij hc hd h1 h2 h3 h4
    rw [(hget i c hc).2.2] at h2 ⊢
    rw [(hget j d hd).2.1] at h3 ⊢
    have hstep := hmono (i + 1) j (by omega)
    exact ⟨by linarith, by linarith⟩

/-- The amended C3 at four threads on `[1, 10]`: the last slice ends within the
tolerance of `maxScale`. -/
theorem multiScales_slices_partition_witness :
    ∃ c, (demoScales.parallelSolveDouble demoEnv).parallelSolvers[4 - 1]? = some c ∧
      |c.scalehi - demoScales.maxScale|
        ≤ (|demoScales.minScale| + |demoScales.maxScale|) / 2 ^ 50 := by
  have hmin : demoScales.minScale = 1 := by
    simp [SexySolver.minScale, demoScales, demoSolver, demoParameters]
  have hmax : demoScales.maxScale = 10 := by
    simp [SexySolver.maxScale, demoScales, demoSolver, demoParameters]
  obtain ⟨c, hc, herr, _⟩ := (multiScales_slices_partition demoEnv demoScales 4 (by decide)
    (by decide) (by decide) (by decide) (by rw [hmin, hmax]; norm_num)
    (by rw [hmin, hmax]; exact ⟨roundToDouble_one, roundToDouble_ten⟩)
    (by rw [hmin, hmax]; norm_num)).2.2.1
  exact ⟨c, hc, herr⟩

/-- C3 as stated fails in the `double` arithmetic of the code: with two threads on
the scale range from 0.2 to 0.9 the last slice ends at 0.8999999999999999
(`8106479329266892 / 2^53`), not at `maxScale` (`8106479329266893 / 2^53`), and
`maxScale` lies in no slice. -/
theorem multiScales_last_slice_counterexample :
    demoTenths.minScale ≤ demoTenths.maxScale ∧
    demoTenths.maxScale = 8106479329266893 / 2 ^ 53 ∧
    (∃ c, (demoTenths.parallelSolveDouble
          { demoEnv with idealThreadCount := 2 }).parallelSolvers[2 - 1]? = some c ∧
      c.scalehi = 8106479329266892 / 2 ^ 53 ∧ c.scalehi ≠ demoTenths.maxScale) ∧
    ¬ ∃ d ∈ (demoTenths.parallelSolveDouble
          { demoEnv with idealThreadCount := 2 }).parallelSolvers,
        d.scalelo ≤ demoTenths.maxScale ∧ demoTenths.maxScale ≤ d.scalehi := by
  obtain ⟨hmin, hmax, _, _, hlast⟩ := sliceBoundDouble_tenths
  have hminS : demoTenths.minScale = roundToDouble (2 / 10) := by
    simp [SexySolver.minScale, demoTenths]
  have hmaxS : demoTenths.maxScale = roundToDouble (9 / 10) := by
    simp [SexySolver.maxScale, demoTenths]
  have hle : demoTenths.minScale ≤ demoTenths.maxScale := by
    rw [hminS, hmaxS, hmin, hmax]; norm_num
  have hget := SexySolver.parallelSolveDouble_multiScales_getElem
    { demoEnv with idealThreadCount := 2 } demoTenths 2 rfl (by decide) (by decide)
  rw [hminS, hmaxS] at hget
  have hlen : (demoTenths.parallelSolveDouble
      { demoEnv with idealThreadCount := 2 }).parallelSolvers.length = 2 := by
    rw [SexySolver.parallelSolveDouble_multiScales_list
      { demoEnv with idealThreadCount := 2 } demoTenths 2 rfl (by decide) (by decide)]
    simp
  have hk := (scaleConstDouble_mul_rel demoTenths.minScale demoTenths.maxScale 2 0
    (by norm_num) hle).1
  rw [hminS, hmaxS] at hk
  refine ⟨hle, by rw [hmaxS, hmax]; norm_num, ?_, ?_⟩
  · have hc : (demoTenths.parallelSolveDouble
        { demoEnv with idealThreadCount := 2 }).parallelSolvers[2 - 1]?
        = some ((demoTenths.parallelSolveDouble
          { demoEnv with idealThreadCount := 2 }).parallelSolvers.get ⟨1, by omega⟩) :=
      List.getElem?_eq_getElem (by omega)
    refine ⟨_, hc, ?_, ?_⟩
    · rw [(hget 1 _ hc).2.2, hlast]; norm_num
    · rw [(hget 1 _ hc).2.2, hlast, hmaxS, hmax]; norm_num
  · rintro ⟨d, hd, _, h2⟩
    obtain ⟨i, hi⟩ := List.mem_iff_getElem?.mp hd
    obtain ⟨hi2, _, hhi⟩ := hget i d hi
    have hmono := sliceBoundDouble_mono (roundToDouble (2 / 10)) _ hk
      (show i + 1 ≤ 2 by omega)
    rw [hlast] at hmono
    rw [hhi] at h2
    rw [hmaxS] at h2
    have hbad : roundToDouble (9 / 10 : ℚ) ≤ 2026619832316723 / 2251799813685248 :=
      le_trans h2 hmono
    rw [hmax] at hbad
    norm_num at hbad

/-- C23, amended: for `2 ≤ T ≤ 2^26` and `double` values `minScale < maxScale` of
magnitude at most `2^1022` with `k = (maxScale - minScale)/T^2` at least
`2^-1021` (so that no operation of the branch overflows or underflows and the
squares are exact), and with the tolerance
`tol = 2^-50 * (|minScale| + |maxScale|)`, the width of the `MULTI_SCALES` slice
`i`, as the `double` arithmetic of the code computes its bounds, is not
negative and differs from `k*(2i+1)` by at most `2*tol`; the widths are
strictly increasing in `i` whenever `k` exceeds `2*tol`; and the widths add up
to the last upper bound minus `minScale`, which differs from
`maxScale - minScale` by at most `tol`. -/
theorem multiScales_slice_widths (env : Env) (s : SexySolver) (T : Nat)
    (hT : 2 ≤ T) (hthreads : env.idealThreadCount = T)
    (hmulti : s.params.multiAlgorithm = MultiAlgo.MULTI_SCALES)
    (hproc : s.processType = ProcessType.SEXYSOLVER ∨
      s.processType = ProcessType.EXT_SEXTRACTORSOLVER ∨
      s.processType = ProcessType.INT_SEP_EXT_SOLVER)
    (hlt : s.minScale < s.maxScale)
    (hdouble : roundToDouble s.minScale = s.minScale ∧
      roundToDouble s.maxScale = s.maxScale)
    (hrange : |s.minScale| ≤ 2 ^ 1022 ∧ |s.maxScale| ≤ 2 ^ 1022 ∧ T ≤ 67108864 ∧
      1 / 2 ^ 1021 ≤ (s.maxScale - s.minScale) / (T : ℚ) ^ 2) :
    (∀ (i : Nat) (c : ChildSolver),
      (s.parallelSolveDouble env).parallelSolvers[i]? = some c →
      0 ≤ c.scalehi - c.scalelo ∧
      |(c.scalehi - c.scalelo)
          - (s.maxScale - s.minScale) / (T : ℚ) ^ 2 * (2 * (i : ℚ) + 1)|
        ≤ 2 * ((|s.minScale| + |s.maxScale|) / 2 ^ 50)) ∧
    (2 * ((|s.minScale| + |s.maxScale|) / 2 ^ 50) < (s.maxScale - s.minScale) / (T : ℚ) ^ 2 →
      ∀ (i j : Nat) (c d : ChildSolver), i < j →
        (s.parallelSolveDouble env).parallelSolvers[i]? = some c →
        (s.parallelSolveDouble env).parallelSolvers[j]? = some d →
        c.scalehi - c.scalelo < d.scalehi - d.scalelo) ∧
    (∃ c, (s.parallelSolveDouble env).parallelSolvers[T - 1]? = some c ∧
      ((s.parallelSolveDouble env).parallelSolvers.map (fun c => c.scalehi - c.scalelo)).sum
        = c.scalehi - s.minScale) ∧
    |((s.parallelSolveDouble env).parallelSolvers.map (fun c => c.scalehi - c.scalelo)).sum
        - (s.maxScale - s.minScale)|
      ≤ (|s.minScale| + |s.maxScale|) / 2 ^ 50 := by
  have _ := hrange
  have hT1 : 1 ≤ T := by omega
  have hle : s.minScale ≤ s.maxScale := le_of_lt hlt
  have hget := SexySolver.parallelSolveDouble_multiScales_getElem env s T hthreads hmulti hproc
  have hlen : (s.parallelSolveDouble env).parallelSolvers.length = T := by
    rw [SexySolver.parallelSolveDouble_multiScales_list env s T hthreads hmulti hproc]; simp
  have hk := (scaleConstDouble_mul_rel s.minScale s.maxScale T 0 hT1 hle).1
  have hzero := sliceBoundDouble_zero s.minScale (scaleConstDouble s.minScale s.maxScale T)
    hdouble.1
  have hsum := SexySolver.parallelSolveDouble_widths_sum env s T hthreads hmulti hproc
  rw [hzero] at hsum
  have herr : ∀ i : Nat, i ≤ T →
      |sliceBoundDouble s.minScale (scaleConstDouble s.minScale s.maxScale T) i
          - (s.minScale + (s.maxScale - s.minScale) * (i : ℚ) ^ 2 / (T : ℚ) ^ 2)|
        ≤ (|s.minScale| + |s.maxScale|) / 2 ^ 50 :=
    fun i hi => sliceBoundDouble_error s.minScale s.maxScale T i hT1 hi hle
  have hTq : (T : ℚ) ^ 2 ≠ 0 := by
    have : (0 : ℚ) < (T : ℚ) := by exact_mod_cast hT1
    positivity
  have hexact : s.minScale + (s.maxScale - s.minScale) * (T : ℚ) ^ 2 / (T : ℚ) ^ 2
      = s.maxScale := by
    rw [mul_div_assoc, div_self hTq]; ring
  -- the width of slice `i` against `k*(2i+1)`
  have hwidth : ∀ i : Nat, i < T →
      |(sliceBoundDouble s.minScale (scaleConstDouble s.minScale s.maxScale T) (i + 1)
          - sliceBoundDouble s.minScale (scaleConstDouble s.minScale s.maxScale T) i)
          - (s.maxScale - s.minScale) / (T : ℚ) ^ 2 * (2 * (i : ℚ) + 1)|
        ≤ 2 * ((|s.minScale| + |s.maxScale|) / 2 ^ 50) := by
    intro i hi
    have h1 := herr i (by omega)
    have h2 := herr (i + 1) (by omega)
    have e : (s.maxScale - s.minScale) / (T : ℚ) ^ 2 * (2 * (i : ℚ) + 1)
        = (s.minScale + (s.maxScale - s.minScale) * ((i + 1 : Nat) : ℚ) ^ 2 / (T : ℚ) ^ 2)
          - (s.minScale + (s.maxScale - s.minScale) * (i : ℚ) ^ 2 / (T : ℚ) ^ 2) := by
      push_cast; field_simp; ring
    rw [e]
    rw [abs_le] at h1 h2 ⊢
    constructor <;> linarith [h1.1, h1.2, h2.1, h2.2]
  refine ⟨?_, ?_, ?_, ?_⟩
  · intro i c hc
    obtain ⟨hi, hlo, hhi⟩ := hget i c hc
    rw [hlo, hhi]
    exact ⟨sub_nonneg.mpr (sliceBoundDouble_mono _ _ hk (by omega)), hwidth i hi⟩
  · intro hbig i j c d hij hc hd
    obtain ⟨hi, hlo, hhi⟩ := hget i c hc
    obtain ⟨hj, hlo', hhi'⟩ := hget j d hd
    rw [hlo, hhi, hlo', hhi']
    have h1 := hwidth i hi
    have h2 := hwidth j hj
    rw [abs_le] at h1 h2
    have hKpos : 0 < (s.maxScale - s.minScale) / (T : ℚ) ^ 2 :=
      lt_of_le_of_lt (by positivity) hbig
    have hij' : (i : ℚ) + 1 ≤ (j : ℚ) := by exact_mod_cast hij
    have hstep : (s.maxScale - s.minScale) / (T : ℚ) ^ 2 * (2 * (i : ℚ) + 1)
        + 2 * ((s.maxScale - s.minScale) / (T : ℚ) ^ 2)
        ≤ (s.maxScale - s.minScale) / (T : ℚ) ^ 2 * (2 * (j : ℚ) + 1) := by
      nlinarith
    linarith [h1.2, h2.1]
  · have hTlt : T - 1 < (s.parallelSolveDouble env).parallelSolvers.length := by omega
    refine ⟨_, List.getElem?_eq_getElem hTlt, ?_⟩
    have hhi := (hget (T - 1) _ (List.getElem?_eq_getElem hTlt)).2.2
    rw [show T - 1 + 1 = T by omega] at hhi
    rw [hsum, hhi]
  · rw [hsum]
    have h := herr T (le_refl _)
    rw [hexact] at h
    have e : sliceBoundDouble s.minScale (scaleConstDouble s.minScale s.maxScale T) T
        - s.minScale - (s.maxScale - s.minScale)
        = sliceBoundDouble s.minScale (scaleConstDouble s.minScale s.maxScale T) T
          - s.maxScale := by ring
    rw [e]; exact h

/-- The amended C23 at four threads on `[1, 10]`: the widths add up to
`maxScale - minScale` within the tolerance. -/
theorem multiScales_slice_widths_witness :
    |((demoScales.parallelSolveDouble demoEnv).parallelSolvers.map
          (fun c => c.scalehi - c.scalelo)).sum
        - (demoScales.maxScale - demoScales.minScale)|
      ≤ (|demoScales.minScale| + |demoScales.maxScale|) / 2 ^ 50 := by
  have hmin : demoScales.minScale = 1 := by
    simp [SexySolver.minScale, demoScales, demoSolver, demoParameters]
  have hmax : demoScales.maxScale = 10 := by
    simp [SexySolver.maxScale, demoScales, demoSolver, demoParameters]
  exact (multiScales_slice_widths demoEnv demoScales 4 (by decide) (by decide) (by decide)
    (by decide) (by rw [hmin, hmax]; norm_num)
    (by rw [hmin, hmax]; exact ⟨roundToDouble_one, roundToDouble_ten⟩)
    (by rw [hmin, hmax]; norm_num)).2.2.2

/-- C23 as stated fails in the `double` arithmetic of the code: with three threads
on the scale range from 0.1 to 3.0 the last slice ends at 2.9999999999999996
(`6755399441055743 / 2^51`), so the widths add up to that bound minus
`minScale`, which is not `maxScale - minScale`. -/
theorem multiScales_widths_sum_counterexample :
    demoThreeDegrees.minScale < demoThreeDegrees.maxScale ∧
    demoThreeDegrees.maxScale = 3 ∧
    ((demoThreeDegrees.parallelSolveDouble
          { demoEnv with idealThreadCount := 3 }).parallelSolvers.map
        (fun c => c.scalehi - c.scalelo)).sum
      = 6755399441055743 / 2 ^ 51 - demoThreeDegrees.minScale ∧
    ((demoThreeDegrees.parallelSolveDouble
          { demoEnv with idealThreadCount := 3 }).parallelSolvers.map
        (fun c => c.scalehi - c.scalelo)).sum
      ≠ demoThreeDegrees.maxScale - demoThreeDegrees.minScale := by
  obtain ⟨hmin, hmax, hidem, _, hlast⟩ := sliceBoundDouble_three_degrees
  have hminS : demoThreeDegrees.minScale = roundToDouble (1 / 10) := by
    simp [SexySolver.minScale, demoThreeDegrees]
  have hmaxS : demoThreeDegrees.maxScale = roundToDouble 3 := by
    simp [SexySolver.maxScale, demoThreeDegrees]
  have hsum := SexySolver.parallelSolveDouble_widths_sum
    { demoEnv with idealThreadCount := 3 } demoThreeDegrees 3 rfl (by decide) (by decide)
  rw [hminS, hmaxS, sliceBoundDouble_zero _ _ hidem, hlast] at hsum
  have hval : (6755399441055743 / 2251799813685248 : ℚ) = 6755399441055743 / 2 ^ 51 := by
    norm_num
  refine ⟨by rw [hminS, hmaxS, hmin, hmax]; norm_num, by rw [hmaxS, hmax], ?_, ?_⟩
  · rw [hsum, hminS, hval]
  · rw [hsum, hminS, hmaxS, hmax]
    intro h
    have h3 : (6755399441055743 / 2251799813685248 : ℚ) = 3 := by linarith
    norm_num at h3

/-- In scenario E2 every operation of the `MULTI_SCALES` branch is exact in `double`:
the constant is `9/16` and the five slice bounds are 1, 1.5625, 3.25, 6.0625
and 10. -/
theorem scenarioE2_bounds_double :
    scaleConstDouble 1 10 ((4 : Nat) : Int) = 9 / 16 ∧
    sliceBoundDouble 1 (9 / 16) 0 = 1 ∧
    sliceBoundDouble 1 (9 / 16) 1 = 25 / 16 ∧
    sliceBoundDouble 1 (9 / 16) 2 = 13 / 4 ∧
    sliceBoundDouble 1 (9 / 16) 3 = 97 / 16 ∧
    sliceBoundDouble 1 (9 / 16) 4 = 10 := by
  have hd : roundToDouble (9 : ℚ) = 9 := by
    rw [roundToDouble_eval _ (-49) 5066549580791808 (by norm_num [abs_of_pos])
      (by norm_num [abs_of_pos]) (roundHalfEven_eq_of_abs_lt _ _ (by norm_num [abs_lt]))]
    norm_num
  have hP : roundToDouble (16 : ℚ) = 16 := by
    rw [roundToDouble_eval _ (-48) 4503599627370496 (by norm_num [abs_of_pos])
      (by norm_num [abs_of_pos]) (roundHalfEven_eq_of_abs_lt _ _ (by norm_num [abs_lt]))]
    norm_num
  have hk : roundToDouble (9 / 16 : ℚ) = 9 / 16 := by
    rw [roundToDouble_eval _ (-53) 5066549580791808 (by norm_num [abs_of_pos])
      (by norm_num [abs_of_pos]) (roundHalfEven_eq_of_abs_lt _ _ (by norm_num [abs_lt]))]
    norm_num
  have e1 : ((10 : ℚ) - 1) = 9 := by norm_num
  have e2 : ((((4 : Nat) : Int) : ℚ)) ^ 2 = 16 := by norm_num
  have hconst : scaleConstDouble 1 10 ((4 : Nat) : Int) = 9 / 16 := by
    unfold scaleConstDouble
    rw [e1, hd, e2, hP, hk]
  have hb0 : sliceBoundDouble 1 (9 / 16) 0 = 1 := by
    have hQ : roundToDouble (0 : ℚ) = 0 := roundToDouble_zero
    have ht : roundToDouble (0 : ℚ) = 0 := roundToDouble_zero
    have hb : roundToDouble (1 : ℚ) = 1 := by
      rw [roundToDouble_eval _ (-52) 4503599627370496 (by norm_num [abs_of_pos])
        (by norm_num [abs_of_pos]) (roundHalfEven_eq_of_abs_lt _ _ (by norm_num [abs_lt]))]
      norm_num
    have e3 : (((0 : Nat) : ℚ)) ^ 2 = 0 := by norm_num
    have e5 : (9 / 16 * 0 : ℚ) = 0 := by norm_num
    have e6 : ((1 : ℚ) + 0) = 1 := by norm_num
    unfold sliceBoundDouble
    rw [e3, hQ, e5, ht, e6, hb]
  have hb1 : sliceBoundDouble 1 (9 / 16) 1 = 25 / 16 := by
    have hQ : roundToDouble (1 : ℚ) = 1 := by
      rw [roundToDouble_eval _ (-52) 4503599627370496 (by norm_num [abs_of_pos])
        (by norm_num [abs_of_pos]) (roundHalfEven_eq_of_abs_lt _ _ (by norm_num [abs_lt]))]
      norm_num
    have ht : roundToDouble (9 / 16 : ℚ) = 9 / 16 := by
      rw [roundToDouble_eval _ (-53) 5066549580791808 (by norm_num [abs_of_pos])
        (by norm_num [abs_of_pos]) (roundHalfEven_eq_of_abs_lt _ _ (by norm_num [abs_lt]))]
      norm_num
    have hb : roundToDouble (25 / 16 : ℚ) = 25 / 16 := by
      rw [roundToDouble_eval _ (-52) 7036874417766400 (by norm_num [abs_of_pos])
        (by norm_num [abs_of_pos]) (roundHalfEven_eq_of_abs_lt _ _ (by norm_num [abs_lt]))]
      norm_num
    have e3 : (((1 : Nat) : ℚ)) ^ 2 = 1 := by norm_num
    have e5 : (9 / 16 * 1 : ℚ) = 9 / 16 := by norm_num
    have e6 : ((1 : ℚ) + 9 / 16) = 25 / 16 := by norm_num
    unfold sliceBoundDouble
    rw [e3, hQ, e5, ht, e6, hb]
  have hb2 : sliceBoundDouble 1 (9 / 16) 2 = 13 / 4 := by
    have hQ : roundToDouble (4 : ℚ) = 4 := by
      rw [roundToDouble_eval _ (-50) 4503599627370496 (by norm_num [abs_of_pos])
        (by norm_num [abs_of_pos]) (roundHalfEven_eq_of_abs_lt _ _ (by norm_num [abs_lt]))]
      norm_num
    have ht : roundToDouble (9 / 4 : ℚ) = 9 / 4 := by
      rw [roundToDouble_eval _ (-51) 5066549580791808 (by norm_num [abs_of_pos])
        (by norm_num [abs_of_pos]) (roundHalfEven_eq_of_abs_lt _ _ (by norm_num [abs_lt]))]
      norm_num
    have hb : roundToDouble (13 / 4 : ℚ) = 13 / 4 := by
      rw [roundToDouble_eval _ (-51) 7318349394477056 (by norm_num [abs_of_pos])
        (by norm_num [abs_of_pos]) (roundHalfEven_eq_of_abs_lt _ _ (by norm_num [abs_lt]))]
      norm_num
    have e3 : (((2 : Nat) : ℚ)) ^ 2 = 4 := by norm_num
    have e5 : (9 / 16 * 4 : ℚ) = 9 / 4 := by norm_num
    have e6 : ((1 : ℚ) + 9 / 4) = 13 / 4 := by norm_num
    unfold sliceBoundDouble
    rw [e3, hQ, e5, ht, e6, hb]
  have hb3 : sliceBoundDouble 1 (9 / 16) 3 = 97 / 16 := by
    have hQ : roundToDouble (9 : ℚ) = 9 := by
      rw [roundToDouble_eval _ (-49) 5066549580791808 (by norm_num [abs_of_pos])
        (by norm_num [abs_of_pos]) (roundHalfEven_eq_of_abs_lt _ _ (by norm_num [abs_lt]))]
      norm_num
    have ht : roundToDouble (81 / 16 : ℚ) = 81 / 16 := by
      rw [roundToDouble_eval _ (-50) 5699868278390784 (by norm_num [abs_of_pos])
        (by norm_num [abs_of_pos]) (roundHalfEven_eq_of_abs_lt _ _ (by norm_num [abs_lt]))]
      norm_num
    have hb : roundToDouble (97 / 16 : ℚ) = 97 / 16 := by
      rw [roundToDouble_eval _ (-50) 6825768185233408 (by norm_num [abs_of_pos])
        (by norm_num [abs_of_pos]) (roundHalfEven_eq_of_abs_lt _ _ (by norm_num [abs_lt]))]
      norm_num
    have e3 : (((3 : Nat) : ℚ)) ^ 2 = 9 := by norm_num
    have e5 : (9 / 16 * 9 : ℚ) = 81 / 16 := by norm_num
    have e6 : ((1 : ℚ) + 81 / 16) = 97 / 16 := by norm_num
    unfold sliceBoundDouble
    rw [e3, hQ, e5, ht, e6, hb]
  have hb4 : sliceBoundDouble 1 (9 / 16) 4 = 10 := by
    have hQ : roundToDouble (16 : ℚ) = 16 := by
      rw [roundToDouble_eval _ (-48) 4503599627370496 (by norm_num [abs_of_pos])
        (by norm_num [abs_of_pos]) (roundHalfEven_eq_of_abs_lt _ _ (by norm_num [abs_lt]))]
      norm_num
    have ht : roundToDouble (9 : ℚ) = 9 := by
      rw [roundToDouble_eval _ (-49) 5066549580791808 (by norm_num [abs_of_pos])
        (by norm_num [abs_of_pos]) (roundHalfEven_eq_of_abs_lt _ _ (by norm_num [abs_lt]))]
      norm_num
    have hb : roundToDouble (10 : ℚ) = 10 := by
      rw [roundToDouble_eval _ (-49) 5629499534213120 (by norm_num [abs_of_pos])
        (by norm_num [abs_of_pos]) (roundHalfEven_eq_of_abs_lt _ _ (by norm_num [abs_lt]))]
      norm_num
    have e3 : (((4 : Nat) : ℚ)) ^ 2 = 16 := by norm_num
    have e5 : (9 / 16 * 16 : ℚ) = 9 := by norm_num
    have e6 : ((1 : ℚ) + 9) = 10 := by norm_num
    unfold sliceBoundDouble
    rw [e3, hQ, e5, ht, e6, hb]
  exact ⟨hconst, hb0, hb1, hb2, hb3, hb4⟩

/-- Scenario E2 in `double` arithmetic: the same four slices. -/
theorem SexySolver.scenarioE2_slices_double (env : Env) (s : SexySolver)
    (hthreads : env.idealThreadCount = 4)
    (hauto : s.params.multiAlgorithm = MultiAlgo.MULTI_AUTO)
    (hscale : s.use_scale = false) (hpos : s.use_position = false)
    (hmin : s.params.minwidth = 1) (hmax : s.params.maxwidth = 10)
    (hproc : s.processType = ProcessType.SEXYSOLVER ∨
      s.processType = ProcessType.EXT_SEXTRACTORSOLVER ∨
      s.processType = ProcessType.INT_SEP_EXT_SOLVER) :
    (((s.checkParameters env).2).parallelSolveDouble env).parallelSolvers.map
        (fun c => (c.scalelo, c.scalehi, c.scaleunit))
      = [(1, 1.5625, ScaleUnits.DEG_WIDTH), (1.5625, 3.25, ScaleUnits.DEG_WIDTH),
         (3.25, 6.0625, ScaleUnits.DEG_WIDTH), (6.0625, 10, ScaleUnits.DEG_WIDTH)] := by
  have hres : (s.checkParameters env).2.params.multiAlgorithm = MultiAlgo.MULTI_SCALES := by
    rw [SexySolver.checkParameters_multiAlgorithm]
    unfold SexySolver.resolveMultiAlgorithm
    simp [hauto, hscale, hpos]
  obtain ⟨m, p, l, hframe⟩ := SexySolver.checkParameters_frame env s
  generalize (s.checkParameters env).2 = s2 at hres hframe
  have hproc2 : s2.processType = ProcessType.SEXYSOLVER ∨
      s2.processType = ProcessType.EXT_SEXTRACTORSOLVER ∨
      s2.processType = ProcessType.INT_SEP_EXT_SOLVER := by
    rw [hframe]; exact hproc
  have hmin2 : s2.minScale = 1 := by
    rw [hframe]; simp [SexySolver.minScale, hscale, hmin]
  have hmax2 : s2.maxScale = 10 := by
    rw [hframe]; simp [SexySolver.maxScale, hscale, hmax]
  have hunits2 : s2.units = ScaleUnits.DEG_WIDTH := by
    rw [hframe]; simp [SexySolver.units, hscale]
  obtain ⟨hconst, hb0, hb1, hb2, hb3, hb4⟩ := scenarioE2_bounds_double
  rw [SexySolver.parallelSolveDouble_multiScales_list env s2 4 (by rw [hthreads]; rfl) hres
    hproc2, hmin2, hmax2, hunits2, hconst]
  have hrange : List.range' 0 4 = [0, 1, 2, 3] := rfl
  rw [hrange]
  simp only [List.map_cons, List.map_nil, ChildSolver.startProcess, ChildSolver.setSearchScale,
    Nat.zero_add, Nat.reduceAdd, hb0, hb1, hb2, hb3, hb4]
  norm_num

/-- C4: with `MULTI_AUTO`, no scale hint, no position hint, a back-end that runs
the parallel solvers (the internal one of the scenario among them), `T = 4`,
`minwidth = 1` and `maxwidth = 10`, `checkParameters` followed by
`parallelSolve` resolves to `MULTI_SCALES` and spawns 4 children whose
degree-width slices are `[1, 1.5625]`, `[1.5625, 3.25]`, `[3.25, 6.0625]`,
`[6.0625, 10]`, in exact and in `double` arithmetic alike; written with two
decimals these are the slices `[1,1.56]`, `[1.56,3.25]`, `[3.25,6.06]`,
`[6.06,10]` of the scenario: every bound is less than 0.005 away from the
figure given. -/
theorem scenarioE2_resolves_and_slices (env : Env) (s : SexySolver)
    (hthreads : env.idealThreadCount = 4)
    (hauto : s.params.multiAlgorithm = MultiAlgo.MULTI_AUTO)
    (hscale : s.use_scale = false) (hpos : s.use_position = false)
    (hmin : s.params.minwidth = 1) (hmax : s.params.maxwidth = 10)
    (hproc : s.processType = ProcessType.SEXYSOLVER ∨
      s.processType = ProcessType.EXT_SEXTRACTORSOLVER ∨
      s.processType = ProcessType.INT_SEP_EXT_SOLVER) :
    (s.checkParameters env).2.params.multiAlgorithm = MultiAlgo.MULTI_SCALES ∧
    (((s.checkParameters env).2).parallelSolve env).parallelSolvers.length = 4 ∧
    (((s.checkParameters env).2).parallelSolve env).parallelSolvers.map
        (fun c => (c.scalelo, c.scalehi, c.scaleunit))
      = [(1, 1.5625, ScaleUnits.DEG_WIDTH), (1.5625, 3.25, ScaleUnits.DEG_WIDTH),
         (3.25, 6.0625, ScaleUnits.DEG_WIDTH), (6.0625, 10, ScaleUnits.DEG_WIDTH)] ∧
    (((s.checkParameters env).2).parallelSolveDouble env).parallelSolvers.map
        (fun c => (c.scalelo, c.scalehi, c.scaleunit))
      = [(1, 1.5625, ScaleUnits.DEG_WIDTH), (1.5625, 3.25, ScaleUnits.DEG_WIDTH),
         (3.25, 6.0625, ScaleUnits.DEG_WIDTH), (6.0625, 10, ScaleUnits.DEG_WIDTH)] ∧
    List.Forall₂ (fun (c : ℚ × ℚ × ScaleUnits) (f : ℚ × ℚ) =>
        |c.1 - f.1| < 0.005 ∧ |c.2.1 - f.2| < 0.005 ∧ c.2.2 = ScaleUnits.DEG_WIDTH)
      ((((s.checkParameters env).2).parallelSolveDouble env).parallelSolvers.map
        (fun c => (c.scalelo, c.scalehi, c.scaleunit)))
      [(1, 1.56), (1.56, 3.25), (3.25, 6.06), (6.06, 10)] := by
  obtain ⟨h1, h2⟩ := SexySolver.scenarioE2_slices env s hthreads hauto hscale hpos hmin hmax hproc
  have h3 := SexySolver.scenarioE2_slices_double env s hthreads hauto hscale hpos hmin hmax hproc
  refine ⟨h1, ?_, h2, h3, ?_⟩
  · have := congrArg List.length h2
    simpa using this
  · rw [h3]
    simp only [List.forall₂_cons, List.Forall₂.nil, and_true]
    norm_num [abs_lt]

/-- C4 at the data of scenario E2. -/
theorem scenarioE2_resolves_and_slices_witness :
    (demoSolver.checkParameters demoEnv).2.params.multiAlgorithm = MultiAlgo.MULTI_SCALES ∧
    (((demoSolver.checkParameters demoEnv).2).parallelSolveDouble demoEnv).parallelSolvers.map
        (fun c => (c.scalelo, c.scalehi, c.scaleunit))
      = [(1, 1.5625, ScaleUnits.DEG_WIDTH), (1.5625, 3.25, ScaleUnits.DEG_WIDTH),
         (3.25, 6.0625, ScaleUnits.DEG_WIDTH), (6.0625, 10, ScaleUnits.DEG_WIDTH)] := by
  have h := scenarioE2_resolves_and_slices demoEnv demoSolver (by decide) (by decide)
    (by decide) (by decide) (by rfl) (by rfl) (by decide)
  exact ⟨h.1, h.2.2.2.1⟩
